import Mathlib

/-!
# codeWhisper: the external-source monitor, the WebSocket handler and the registry API

A shallow embedding of `boiler_plate/ecs/external-source-monitor/index.js`:
the fetcher `fetchExternalData`, the change detector `detectChanges`, the
per-source pipeline `monitorSource` and the scheduling pass `monitoringLoop`,
together with the part of the ECMAScript `JSON` object they rely on; of
`boiler_plate/lambda/websocket-handler/index.js`: the queue consumer
`processSQSMessages`, the subscription `handleSubscribe` and the entry point
`handler`; and of the responses of `getDataSource`, `listDataSources` and
`updateDataSource` in `boiler_plate/lambda/datasource-handler`.

Conventions of the embedding

* A JavaScript value that can travel through `JSON` is a `Json`.  A number is
  the decimal its JSON text denotes, kept exactly: `JSON.parse` reads the whole
  number grammar (sign, integer part, fraction, exponent) and `JSON.stringify`
  writes a number as `Number::toString` does, in point notation or with an
  exponent.  JavaScript rounds a number to the nearest double; the two agree on
  every text JavaScript itself writes for a double, and the rounding of a text
  with more digits than a double keeps, or beyond its range, has no
  counterpart here.  The number `-0` is `0`.  Strings are sequences of Unicode
  scalar values, and an object is the list of its own properties in
  enumeration order.
* A function that may throw returns `Except JsError _`.
* Calls that leave the process (HTTP, DynamoDB, SQS, the clock) take their
  outcome from an explicit environment record and are written to a list of
  `Effect`s in the order in which the code awaits them.
-/

namespace CodeWhisper

/-! ## JSON values -/

/-- A number as a decimal: zero, or `±(10 * front + last + 1) × 10 ^ exponent`,
a mantissa that does not end in the digit 0, so that every number is written
in one way only.  The number 150.25 has the mantissa 15025 (`front` 1502,
`last` 4) and the exponent -2. -/
inductive JsNumber where
  | zero
  | nonzero (negative : Bool) (front : Nat) (last : Fin 9) (exponent : Int)
  deriving DecidableEq

/-- The number `±m × 10 ^ e`: the zeros at the end of `m` go to the exponent.
`fuel` bounds their number; `m + 1` is enough. -/
def JsNumber.ofScaled (negative : Bool) : Nat → Nat → Int → JsNumber
  | 0, _, _ => .zero
  | fuel + 1, m, e =>
    if m = 0 then .zero
    else if h : m % 10 = 0 then JsNumber.ofScaled negative fuel (m / 10) (e + 1)
    else .nonzero negative (m / 10) ⟨m % 10 - 1, by omega⟩ e

/-- The number `m × 10 ^ e` for an integer `m`. -/
def JsNumber.ofInt (m e : Int) : JsNumber :=
  JsNumber.ofScaled (decide (m < 0)) (m.natAbs + 1) m.natAbs e

instance : OfNat JsNumber n := ⟨JsNumber.ofScaled false (n + 1) n 0⟩

instance : OfScientific JsNumber :=
  ⟨fun m s e => JsNumber.ofScaled false (m + 1) m (if s then -(e : Int) else e)⟩

/-- The sum of a number and 1, exact. -/
def JsNumber.addOne : JsNumber → JsNumber
  | .zero => 1
  | .nonzero negative front last exponent =>
    if 0 ≤ exponent then
      JsNumber.ofInt ((if negative then -1 else 1) * ((10 * front + last.val + 1 : Nat) : Int)
        * 10 ^ exponent.toNat + 1) 0
    else
      JsNumber.ofInt ((if negative then -1 else 1) * ((10 * front + last.val + 1 : Nat) : Int)
        + 10 ^ (-exponent).toNat) exponent

/-- The values `JSON.parse` can produce.  A JavaScript object has no two
properties of the same name; the lists that have are values of this type as
well, and the theorems cover them. -/
inductive Json where
  | null
  | bool (b : Bool)
  | num (n : JsNumber)
  | str (s : String)
  | arr (xs : List Json)
  | obj (kvs : List (String × Json))

/-- Errors a call can throw.  `syntaxError` is the `SyntaxError` of
`JSON.parse`; `outsideModel` marks a JSON text that JavaScript accepts but
whose value is not a `Json`: a string with the escape of an unpaired
surrogate; `failure` is a rejected promise of a collaborator;
`typeError` is the `TypeError` of reading a property of `null` or `undefined`. -/
inductive JsError where
  | syntaxError
  | outsideModel
  | failure (msg : String)
  | typeError
  deriving DecidableEq

/-! ## `JSON.stringify` -/

/-- The decimal digit `d` (for `d < 10`) as a character. -/
def digitChar (d : Nat) : Char := Char.ofNat (48 + d)

/-- Digits of `n`, most significant first, in front of `acc`. -/
def digitsAux : Nat → Nat → List Char → List Char
  | 0, _, acc => acc
  | fuel + 1, n, acc =>
    if n < 10 then digitChar n :: acc
    else digitsAux fuel (n / 10) (digitChar (n % 10) :: acc)

/-- Decimal representation of a natural number. -/
def natDigits (n : Nat) : List Char := digitsAux (n + 1) n []

/-- The exponent part of a number in scientific notation: the mark, the sign
and the digits. -/
def exponentPart (e : Int) : List Char :=
  'e' :: (if e < 0 then '-' else '+') :: natDigits e.natAbs

/-- Steps 6 to 10 of `Number::toString` for the digits `s` of the mantissa and
the position `n` of the decimal point (the value is `0.s × 10 ^ n`): the
digits and zeros up to the point, the point among the digits, zeros between
the point and the digits, or scientific notation from `1e21` on and below
`1e-6`. -/
def pointNotation (s : List Char) (n : Int) : List Char :=
  if (s.length : Int) ≤ n ∧ n ≤ 21 then s ++ List.replicate (n.toNat - s.length) '0'
  else if 0 < n ∧ n ≤ 21 then s.take n.toNat ++ '.' :: s.drop n.toNat
  else if -6 < n ∧ n ≤ 0 then '0' :: '.' :: (List.replicate (-n).toNat '0' ++ s)
  else if s.length = 1 then s ++ exponentPart (n - 1)
  else s.take 1 ++ '.' :: (s.drop 1 ++ exponentPart (n - 1))

/-- The operation `Number::toString` in radix 10. -/
def numberToString : JsNumber → List Char
  | .zero => ['0']
  | .nonzero negative front last exponent =>
    (if negative then ['-'] else []) ++
      pointNotation (natDigits (10 * front + last.val + 1))
        ((natDigits (10 * front + last.val + 1)).length + exponent)

/-- A lower-case hexadecimal digit. -/
def hexChar (d : Nat) : Char :=
  if d < 10 then Char.ofNat (48 + d) else Char.ofNat (87 + d)

/-- One character of a string as `QuoteJSONString` writes it. -/
def escapeChar (c : Char) : List Char :=
  if c = '"' then ['\\', '"']
  else if c = '\\' then ['\\', '\\']
  else if c = '\x08' then ['\\', 'b']
  else if c = '\x0c' then ['\\', 'f']
  else if c = '\n' then ['\\', 'n']
  else if c = '\r' then ['\\', 'r']
  else if c = '\t' then ['\\', 't']
  else if c.toNat < 32 then ['\\', 'u', '0', '0', hexChar (c.toNat / 16), hexChar (c.toNat % 16)]
  else [c]

/-- The characters between the quotes of a serialized string. -/
def escapeChars : List Char → List Char
  | [] => []
  | c :: cs => escapeChar c ++ escapeChars cs

/-- A string literal of JSON text: `QuoteJSONString`. -/
def quote (s : String) : List Char := '"' :: (escapeChars s.data ++ ['"'])

mutual
/-- The characters of `JSON.stringify(x)`, without indentation. -/
def ser : Json → List Char
  | .null => ['n', 'u', 'l', 'l']
  | .bool true => ['t', 'r', 'u', 'e']
  | .bool false => ['f', 'a', 'l', 's', 'e']
  | .num n => numberToString n
  | .str s => quote s
  | .arr xs => '[' :: serElems xs
  | .obj kvs => '{' :: serMembers kvs
/-- The elements of an array followed by the closing bracket. -/
def serElems : List Json → List Char
  | [] => [']']
  | x :: xs => ser x ++ serElemsTail xs
/-- What follows an element: a comma and the next element, or the bracket. -/
def serElemsTail : List Json → List Char
  | [] => [']']
  | x :: xs => ',' :: (ser x ++ serElemsTail xs)
/-- The members of an object followed by the closing brace. -/
def serMembers : List (String × Json) → List Char
  | [] => ['}']
  | (k, x) :: kvs => quote k ++ ':' :: (ser x ++ serMembersTail kvs)
/-- What follows a member: a comma and the next member, or the brace. -/
def serMembersTail : List (String × Json) → List Char
  | [] => ['}']
  | (k, x) :: kvs => ',' :: (quote k ++ ':' :: (ser x ++ serMembersTail kvs))
end

/-- The method `JSON.stringify` on a JSON value. -/
def JSON.stringify (x : Json) : String := ⟨ser x⟩

/-! ## `JSON.parse` -/

/-- JSON white space: space, tab, line feed, carriage return. -/
def isWs (c : Char) : Bool := c = ' ' || c = '\t' || c = '\n' || c = '\r'

/-- Drop leading white space. -/
def skipWs : List Char → List Char
  | [] => []
  | c :: cs => if isWs c then skipWs cs else c :: cs

/-- Consume the literal `lit` from the front of the input. -/
def expect : List Char → List Char → Except JsError (List Char)
  | [], cs => .ok cs
  | _ :: _, [] => .error .syntaxError
  | l :: lit, c :: cs => if l = c then expect lit cs else .error .syntaxError

/-- Is `c` one of `0` .. `9`? -/
def isDigit (c : Char) : Bool := 48 ≤ c.toNat && c.toNat ≤ 57

/-- Read a run of decimal digits, continuing the value `acc`. -/
def readDigits : List Char → Nat → Nat × List Char
  | [], acc => (acc, [])
  | c :: cs, acc =>
    if isDigit c then readDigits cs (acc * 10 + (c.toNat - 48)) else (acc, c :: cs)

/-- The integer part of a JSON number: `0`, or a non-zero digit and more digits. -/
def parseNat : List Char → Except JsError (Nat × List Char)
  | [] => .error .syntaxError
  | c :: cs =>
    if c = '0' then
      match cs with
      | [] => .ok (0, [])
      | d :: ds => if isDigit d then .error .syntaxError else .ok (0, d :: ds)
    else if isDigit c then .ok (readDigits (c :: cs) 0)
    else .error .syntaxError

/-- The fraction of a JSON number, if any: a point and one or more digits.
The result is the value of the digits read so far, those of the fraction
included, the number of digits of the fraction, and the rest of the text. -/
def parseFraction (intPart : Nat) : List Char → Except JsError (Nat × Nat × List Char)
  | [] => .ok (intPart, 0, [])
  | c :: cs =>
    if c = '.' then
      match cs with
      | [] => .error .syntaxError
      | d :: ds =>
        if isDigit d then
          .ok ((readDigits (d :: ds) intPart).1,
            (d :: ds).length - (readDigits (d :: ds) intPart).2.length,
            (readDigits (d :: ds) intPart).2)
        else .error .syntaxError
    else .ok (intPart, 0, c :: cs)

/-- The digits of an exponent: one or more. -/
def parseExponentDigits : List Char → Except JsError (Nat × List Char)
  | [] => .error .syntaxError
  | d :: ds => if isDigit d then .ok (readDigits (d :: ds) 0) else .error .syntaxError

/-- The exponent of a JSON number, if any: `e` or `E`, an optional sign and
one or more digits. -/
def parseExponent : List Char → Except JsError (Int × List Char)
  | [] => .ok (0, [])
  | c :: cs =>
    if c = 'e' ∨ c = 'E' then
      match cs with
      | [] => .error .syntaxError
      | s :: ds =>
        if s = '-' then
          match parseExponentDigits ds with
          | .error e => .error e
          | .ok (n, rest) => .ok (-(n : Int), rest)
        else
          match parseExponentDigits (if s = '+' then ds else s :: ds) with
          | .error e => .error e
          | .ok (n, rest) => .ok ((n : Int), rest)
    else .ok (0, c :: cs)

/-- A JSON number without its sign: the mantissa, the exponent of ten and the
rest of the text. -/
def parseDecimal (cs : List Char) : Except JsError (Nat × Int × List Char) :=
  match parseNat cs with
  | .error e => .error e
  | .ok (intPart, rest) =>
    match parseFraction intPart rest with
    | .error e => .error e
    | .ok (mantissa, scale, rest1) =>
      match parseExponent rest1 with
      | .error e => .error e
      | .ok (exponent, rest2) => .ok (mantissa, exponent - scale, rest2)

/-- A JSON number: an optional minus sign, the integer part, an optional
fraction and an optional exponent. -/
def parseNumber : List Char → Except JsError (Json × List Char)
  | [] => .error .syntaxError
  | c :: cs =>
    match parseDecimal (if c = '-' then cs else c :: cs) with
    | .error e => .error e
    | .ok (mantissa, exponent, rest) =>
      .ok (.num (JsNumber.ofScaled (c = '-') (mantissa + 1) mantissa exponent), rest)

/-- The value of a hexadecimal digit. -/
def hexVal (c : Char) : Option Nat :=
  if 48 ≤ c.toNat ∧ c.toNat ≤ 57 then some (c.toNat - 48)
  else if 97 ≤ c.toNat ∧ c.toNat ≤ 102 then some (c.toNat - 87)
  else if 65 ≤ c.toNat ∧ c.toNat ≤ 70 then some (c.toNat - 55)
  else none

/-- Four hexadecimal digits: the code unit of a `\u` escape. -/
def parseHex4 : List Char → Except JsError (Nat × List Char)
  | a :: b :: c :: d :: rest =>
    match hexVal a, hexVal b, hexVal c, hexVal d with
    | some x, some y, some z, some w => .ok (((x * 16 + y) * 16 + z) * 16 + w, rest)
    | _, _, _, _ => .error .syntaxError
  | _ => .error .syntaxError

/-- What follows a backslash inside a string. -/
def parseEscape : List Char → Except JsError (Char × List Char)
  | [] => .error .syntaxError
  | e :: rest =>
    if e = '"' then .ok ('"', rest)
    else if e = '\\' then .ok ('\\', rest)
    else if e = '/' then .ok ('/', rest)
    else if e = 'b' then .ok ('\x08', rest)
    else if e = 'f' then .ok ('\x0c', rest)
    else if e = 'n' then .ok ('\n', rest)
    else if e = 'r' then .ok ('\r', rest)
    else if e = 't' then .ok ('\t', rest)
    else if e = 'u' then
      match parseHex4 rest with
      | .error err => .error err
      | .ok (u, rest1) =>
        if 0xD800 ≤ u ∧ u < 0xDC00 then
          match rest1 with
          | '\\' :: 'u' :: rest2 =>
            match parseHex4 rest2 with
            | .error err => .error err
            | .ok (l, rest3) =>
              if 0xDC00 ≤ l ∧ l < 0xE000 then
                .ok (Char.ofNat (0x10000 + (u - 0xD800) * 0x400 + (l - 0xDC00)), rest3)
              else .error .outsideModel
          | _ => .error .outsideModel
        else if 0xDC00 ≤ u ∧ u < 0xE000 then .error .outsideModel
        else .ok (Char.ofNat u, rest1)
    else .error .syntaxError

/-- The characters of a string up to its closing quote (the opening quote is
already consumed). -/
def parseChars : Nat → List Char → Except JsError (List Char × List Char)
  | 0, _ => .error .syntaxError
  | _ + 1, [] => .error .syntaxError
  | fuel + 1, c :: rest =>
    if c = '"' then .ok ([], rest)
    else if c = '\\' then
      match parseEscape rest with
      | .error e => .error e
      | .ok (ch, rest1) =>
        match parseChars fuel rest1 with
        | .error e => .error e
        | .ok (s, rest2) => .ok (ch :: s, rest2)
    else if c.toNat < 32 then .error .syntaxError
    else
      match parseChars fuel rest with
      | .error e => .error e
      | .ok (s, rest1) => .ok (c :: s, rest1)

mutual
/-- A JSON value, with leading white space. -/
def parseValue : Nat → List Char → Except JsError (Json × List Char)
  | 0, _ => .error .syntaxError
  | fuel + 1, cs =>
    match skipWs cs with
    | [] => .error .syntaxError
    | c :: rest =>
      if c = 'n' then
        match expect ['u', 'l', 'l'] rest with
        | .error e => .error e
        | .ok r => .ok (.null, r)
      else if c = 't' then
        match expect ['r', 'u', 'e'] rest with
        | .error e => .error e
        | .ok r => .ok (.bool true, r)
      else if c = 'f' then
        match expect ['a', 'l', 's', 'e'] rest with
        | .error e => .error e
        | .ok r => .ok (.bool false, r)
      else if c = '"' then
        match parseChars fuel rest with
        | .error e => .error e
        | .ok (s, r) => .ok (.str ⟨s⟩, r)
      else if c = '[' then
        match skipWs rest with
        | ']' :: r => .ok (.arr [], r)
        | r =>
          match parseElems fuel r with
          | .error e => .error e
          | .ok (xs, r1) => .ok (.arr xs, r1)
      else if c = '{' then
        match skipWs rest with
        | '}' :: r => .ok (.obj [], r)
        | r =>
          match parseMembers fuel r with
          | .error e => .error e
          | .ok (kvs, r1) => .ok (.obj kvs, r1)
      else if c = '-' ∨ isDigit c then parseNumber (c :: rest)
      else .error .syntaxError
/-- One or more elements separated by commas, then the closing bracket. -/
def parseElems : Nat → List Char → Except JsError (List Json × List Char)
  | 0, _ => .error .syntaxError
  | fuel + 1, cs =>
    match parseValue fuel cs with
    | .error e => .error e
    | .ok (x, r) =>
      match skipWs r with
      | ']' :: r1 => .ok ([x], r1)
      | ',' :: r1 =>
        match parseElems fuel r1 with
        | .error e => .error e
        | .ok (xs, r2) => .ok (x :: xs, r2)
      | _ => .error .syntaxError
/-- One or more members separated by commas, then the closing brace.  The
members are kept as written; JavaScript keeps the last of several members of
the same name and moves array-index names to the front, which makes no
difference on text written by `JSON.stringify`. -/
def parseMembers : Nat → List Char → Except JsError (List (String × Json) × List Char)
  | 0, _ => .error .syntaxError
  | fuel + 1, cs =>
    match skipWs cs with
    | '"' :: r =>
      match parseChars fuel r with
      | .error e => .error e
      | .ok (k, r1) =>
        match skipWs r1 with
        | ':' :: r2 =>
          match parseValue fuel r2 with
          | .error e => .error e
          | .ok (x, r3) =>
            match skipWs r3 with
            | '}' :: r4 => .ok ([(⟨k⟩, x)], r4)
            | ',' :: r4 =>
              match parseMembers fuel r4 with
              | .error e => .error e
              | .ok (kvs, r5) => .ok ((⟨k⟩, x) :: kvs, r5)
            | _ => .error .syntaxError
        | _ => .error .syntaxError
    | _ => .error .syntaxError
end

/-- The method `JSON.parse`: one value, surrounded by white space only.  The
recursion is bounded by the length of the text, which no JSON value exceeds. -/
def JSON.parse (text : String) : Except JsError Json :=
  match parseValue (text.data.length + 1) text.data with
  | .error e => .error e
  | .ok (x, rest) =>
    match skipWs rest with
    | [] => .ok x
    | _ :: _ => .error .syntaxError

/-- May follow a value inside JSON text: nothing, a comma or a closing bracket. -/
def delim : List Char → Bool
  | [] => true
  | c :: _ => c = ',' || c = ']' || c = '}'

/-- The characters a serialized value can start with. -/
inductive Starts : Char → Prop
  | n : Starts 'n'
  | t : Starts 't'
  | f : Starts 'f'
  | q : Starts '"'
  | a : Starts '['
  | o : Starts '{'
  | m : Starts '-'
  | d (k : Nat) (h : k < 10) : Starts (digitChar k)

/-! ## The change detector -/

/-- The `type` field of a change. -/
inductive ChangeType where
  | initial
  | update
  deriving DecidableEq

/-- The object `{ type, data }` that `detectChanges` returns. -/
structure Change where
  type : ChangeType
  data : Json

/-- JavaScript truthiness of a JSON value: `null`, `false`, `0` and the empty
string are falsy, every object and array is truthy. -/
def truthy : Json → Bool
  | .null => false
  | .bool b => b
  | .num n => n != .zero
  | .str s => s != ""
  | .arr _ => true
  | .obj _ => true

/-- The function `detectChanges(currentData, previousData)`; an absent previous
value is `null`.  The result `none` is the JavaScript `null`. -/
def detectChanges (currentData previousData : Json) : Except JsError (Option Change) :=
  if !truthy previousData then
    .ok (some { type := .initial, data := currentData })
  else
    match (match previousData with
           | .str text => JSON.parse text
           | other => .ok other) with
    | .error e => .error e
    | .ok prevData =>
      if JSON.stringify currentData ≠ JSON.stringify prevData then
        .ok (some { type := .update, data := currentData })
      else
        .ok none

/-! ## Stores, queue and the effects of a poll -/

/-- An item of the snapshot table (`DATA_TABLE`). -/
structure Item where
  id : String
  sheetId : String
  lastUpdated : String
  data : String
  sourceType : String
  deriving DecidableEq

/-- A record of the data-sources table as the monitor reads it.  `url`,
`pollingInterval` (seconds) and `lastChecked` are `none` when the attribute is
absent; `lastChecked` is the instant its ISO-8601 string denotes, in
milliseconds since the epoch, which is what `new Date(..).getTime()` returns.
`headers` is the header template, names with their string values in the
order of `Object.keys`; `apiKeySecretId` is the reference to the secret. -/
structure Source where
  id : String
  type : String
  url : Option String
  pollingInterval : Option Int
  lastChecked : Option Int
  lastUpdated : Option String
  dataFormat : String := "json"
  headers : List (String × String) := []
  apiKeySecretId : Option String := none
  deriving DecidableEq

/-- The state outside the process: snapshot table, message queue (bodies in
the order sent) and data-sources table. -/
structure World where
  dataTable : List Item
  queue : List String
  sources : List Source

/-- A call that leaves the process, with its outcome (`ok = false`: the call
was rejected), or a log line that marks a decision of the loop. -/
inductive Effect where
  | polled (sourceId : String)
  | fetch (sourceId : String) (ok : Bool)
  | query (sourceId : String) (ok : Bool)
  | put (item : Item) (ok : Bool)
  | send (body : String) (ok : Bool)
  | setLastUpdated (sourceId : String) (ok : Bool)
  | setLastChecked (sourceId : String) (ok : Bool)
  | skipped (sourceId : String)
  | scheduleNext (delay : Int)
  deriving DecidableEq

/-- Is the effect a write to the snapshot table? -/
def Effect.isPut : Effect → Bool
  | .put _ _ => true
  | _ => false

/-- Is the effect a message sent to the queue? -/
def Effect.isSend : Effect → Bool
  | .send _ _ => true
  | _ => false

/-- What the collaborators answer during one run of `monitorSource`: the
outcome of `fetchExternalData`, and for each later call the error it rejects
with (`none`: it resolves) and the clock reading it takes. -/
structure PollEnv where
  fetched : Except JsError Json
  queryError : Option JsError
  saveTime : String
  putError : Option JsError
  sendTime : String
  sendError : Option JsError
  updateTime : String
  updateError : Option JsError

/-- The item with the greatest `lastUpdated`; of several such, the first.
DynamoDB orders string keys by their UTF-8 bytes, that is by code points. -/
def newest : List Item → Option Item
  | [] => none
  | it :: rest =>
    match newest rest with
    | none => some it
    | some best => if it.lastUpdated.data < best.lastUpdated.data then some best else some it

/-- The query of `getLastKnownState`: index `SheetIdIndex`, key `sheetId`,
descending by `lastUpdated`, limit 1. -/
def queryLatest (table : List Item) (sourceId : String) : Option Item :=
  newest (table.filter (fun it => it.sheetId = sourceId))

/-- The function `getLastKnownState(sourceId)`. -/
def getLastKnownState (env : PollEnv) (w : World) (sourceId : String) :
    Except JsError (Option Item) :=
  match env.queryError with
  | some e => .error e
  | none => .ok (queryLatest w.dataTable sourceId)

/-- The item `saveCurrentState` writes at clock reading `timestamp`. -/
def snapshotItem (timestamp sourceId : String) (data : Json) : Item :=
  { id := sourceId ++ "-" ++ timestamp
    sheetId := sourceId
    lastUpdated := timestamp
    data := JSON.stringify data
    sourceType := "external" }

/-- DynamoDB `put`: the item replaces the one with the same primary key `id`. -/
def putItem (table : List Item) (item : Item) : List Item :=
  table.filter (fun it => it.id ≠ item.id) ++ [item]

/-- The function `saveCurrentState(sourceId, data)`. -/
def saveCurrentState (env : PollEnv) (sourceId : String) (data : Json) (w : World) :
    Except JsError World :=
  match env.putError with
  | some e => .error e
  | none => .ok { w with dataTable := putItem w.dataTable (snapshotItem env.saveTime sourceId data) }

/-- A change as a JSON object, fields in the order of the object literal. -/
def Change.toJson (c : Change) : Json :=
  .obj [("type", .str (match c.type with
                       | .initial => "initial"
                       | .update => "update")),
        ("data", c.data)]

/-- The `MessageBody` of `sendChangeNotification`. -/
def notificationBody (timestamp sourceId : String) (changes : Change) : String :=
  JSON.stringify (.obj [("sourceId", .str sourceId), ("sourceType", .str "external"),
    ("timestamp", .str timestamp), ("changes", changes.toJson)])

/-- The function `sendChangeNotification(sourceId, changes)`. -/
def sendChangeNotification (env : PollEnv) (sourceId : String) (changes : Change) (w : World) :
    Except JsError World :=
  match env.sendError with
  | some e => .error e
  | none => .ok { w with queue := w.queue ++ [notificationBody env.sendTime sourceId changes] }

/-- DynamoDB `update` with `SET lastUpdated = :timestamp` on key `id`; a
missing record is created with the key and the attribute only. -/
def setLastUpdated (sources : List Source) (sourceId timestamp : String) : List Source :=
  if sources.any (fun s => s.id = sourceId) then
    sources.map (fun s => if s.id = sourceId then { s with lastUpdated := some timestamp } else s)
  else
    sources ++ [{ id := sourceId, type := "", url := none, pollingInterval := none,
                  lastChecked := none, lastUpdated := some timestamp }]

/-- The expression `lastState ? lastState.data : null`; the `data` attribute
of a stored item is the string `saveCurrentState` wrote. -/
def previousDataOf (lastState : Option Item) : Json :=
  match lastState with
  | some item => .str item.data
  | none => .null

/-- The function `monitorSource(source)`: the new world and the effects in the
order awaited.  Every error is caught and logged; the function never throws. -/
def monitorSource (env : PollEnv) (source : Source) (w : World) : World × List Effect :=
  match env.fetched with
  | .error _ => (w, [.polled source.id, .fetch source.id false])
  | .ok currentData =>
    match getLastKnownState env w source.id with
    | .error _ => (w, [.polled source.id, .fetch source.id true, .query source.id false])
    | .ok lastState =>
      let previousData := previousDataOf lastState
      let pre : List Effect :=
        [.polled source.id, .fetch source.id true, .query source.id true]
      match detectChanges currentData previousData with
      | .error _ => (w, pre)
      | .ok none => (w, pre)
      | .ok (some changes) =>
        let item := snapshotItem env.saveTime source.id currentData
        match saveCurrentState env source.id currentData w with
        | .error _ => (w, pre ++ [.put item false])
        | .ok w1 =>
          let body := notificationBody env.sendTime source.id changes
          match sendChangeNotification env source.id changes w1 with
          | .error _ => (w1, pre ++ [.put item true, .send body false])
          | .ok w2 =>
            match env.updateError with
            | some _ =>
              (w2, pre ++ [.put item true, .send body true, .setLastUpdated source.id false])
            | none =>
              ({ w2 with sources := setLastUpdated w2.sources source.id env.updateTime },
               pre ++ [.put item true, .send body true, .setLastUpdated source.id true])

/-! ## The scheduling pass -/

/-- What the collaborators answer during one iteration of the loop over the
sources: the reading of `Date.now()`, the environment of the poll, and the
clock reading and outcome of the `lastChecked` update. -/
structure IterEnv where
  now : Int
  poll : PollEnv
  checkedTime : Int
  checkedError : Option JsError

/-- The environment of one pass of `monitoringLoop`: the outcome of the
registry query and the environment of the `i`-th iteration. -/
structure TickEnv where
  sourcesError : Option JsError
  iter : Nat → IterEnv

/-- The function `fetchDataSources()`: the records of type `external`, or the
empty list when the query is rejected. -/
def fetchDataSources (env : TickEnv) (w : World) : List Source :=
  match env.sourcesError with
  | some _ => []
  | none => w.sources.filter (fun s => s.type = "external")

/-- The test `!source.url`: the attribute is absent or the empty string. -/
def missingUrl (source : Source) : Bool :=
  match source.url with
  | none => true
  | some u => u = ""

/-- The expression `source.pollingInterval || POLLING_INTERVAL`. -/
def effectiveInterval (POLLING_INTERVAL : Int) (source : Source) : Int :=
  match source.pollingInterval with
  | none => POLLING_INTERVAL
  | some p => if p = 0 then POLLING_INTERVAL else p

/-- The expression `source.lastChecked ? new Date(source.lastChecked).getTime() : 0`. -/
def lastCheckedMs (source : Source) : Int :=
  match source.lastChecked with
  | none => 0
  | some t => t

/-- The test `now - lastChecked >= pollingInterval * 1000`. -/
def isDue (POLLING_INTERVAL : Int) (now : Int) (source : Source) : Bool :=
  now - lastCheckedMs source ≥ effectiveInterval POLLING_INTERVAL source * 1000

/-- DynamoDB `update` with `SET lastChecked = :timestamp` on key `id`. -/
def setLastChecked (sources : List Source) (sourceId : String) (timestamp : Int) : List Source :=
  if sources.any (fun s => s.id = sourceId) then
    sources.map (fun s => if s.id = sourceId then { s with lastChecked := some timestamp } else s)
  else
    sources ++ [{ id := sourceId, type := "", url := none, pollingInterval := none,
                  lastChecked := some timestamp, lastUpdated := none }]

/-- The `for` loop of `monitoringLoop` from iteration `i` on.  A rejected
`lastChecked` update leaves the loop: it is thrown to the `catch` around the
whole loop. -/
def pollSources (POLLING_INTERVAL : Int) (env : Nat → IterEnv) :
    Nat → List Source → World → World × List Effect
  | _, [], w => (w, [])
  | i, source :: rest, w =>
    if missingUrl source then
      let r := pollSources POLLING_INTERVAL env (i + 1) rest w
      (r.1, .skipped source.id :: r.2)
    else if isDue POLLING_INTERVAL (env i).now source then
      let p := monitorSource (env i).poll source w
      match (env i).checkedError with
      | some _ => (p.1, p.2 ++ [.setLastChecked source.id false])
      | none =>
        let w2 : World :=
          { p.1 with sources := setLastChecked p.1.sources source.id (env i).checkedTime }
        let r := pollSources POLLING_INTERVAL env (i + 1) rest w2
        (r.1, p.2 ++ .setLastChecked source.id true :: r.2)
    else
      pollSources POLLING_INTERVAL env (i + 1) rest w

/-- One pass of `monitoringLoop()`; the `finally` block schedules the next. -/
def monitoringLoop (POLLING_INTERVAL : Int) (env : TickEnv) (w : World) : World × List Effect :=
  let r := pollSources POLLING_INTERVAL env.iter 0 (fetchDataSources env w) w
  (r.1, r.2 ++ [.scheduleNext POLLING_INTERVAL])

/-! ## The fetcher -/

/-- The placeholder token of a header template. -/
def placeholder : String := "\x7bapiKey\x7d"

/-- The first occurrence of `pat`: the text before it and the text after it. -/
def findFirst (pat : List Char) : List Char → Option (List Char × List Char)
  | [] => if pat.isEmpty then some ([], []) else none
  | c :: cs =>
    if pat.isPrefixOf (c :: cs) then some ([], (c :: cs).drop pat.length)
    else
      match findFirst pat cs with
      | some (before, after) => some (c :: before, after)
      | none => none

/-- The method `String.prototype.includes`. -/
def includes (text pat : String) : Bool := (findFirst pat.data text.data).isSome

/-- The operation `GetSubstitution` for a string pattern, which has no capture
groups: in the replacement text `$$` is a dollar sign, `$&` the matched
text, a dollar sign with a grave accent the text before the match, a dollar
sign with an apostrophe the text after it; any other character stands for
itself. -/
def getSubstitution (matched before after : List Char) : List Char → List Char
  | [] => []
  | [c] => [c]
  | c :: d :: rest =>
    if c = '$' then
      if d = '$' then '$' :: getSubstitution matched before after rest
      else if d = '&' then matched ++ getSubstitution matched before after rest
      else if d = '\x60' then before ++ getSubstitution matched before after rest
      else if d = '\x27' then after ++ getSubstitution matched before after rest
      else c :: getSubstitution matched before after (d :: rest)
    else c :: getSubstitution matched before after (d :: rest)

/-- The method `String.prototype.replace` with a string pattern: the first
occurrence only. -/
def replaceFirst (text pat replacement : String) : String :=
  match findFirst pat.data text.data with
  | none => text
  | some (before, after) =>
    ⟨before ++ getSubstitution pat.data before after replacement.data ++ after⟩

/-- The test `key.toLowerCase() === 'authorization'`.  Only the letters `A` to
`Z` have a lower-case form among the letters of that word, so lowering them
alone decides the test. -/
def isAuthorization (key : String) : Bool :=
  key.data.map Char.toLower = "authorization".data

/-- The `forEach` over the header names: an `Authorization` header whose value
includes the placeholder gets the key in place of it. -/
def substituteKey (apiKey : String) (headers : List (String × String)) :
    List (String × String) :=
  headers.map (fun h =>
    if isAuthorization h.1 && includes h.2 placeholder then
      (h.1, replaceFirst h.2 placeholder apiKey)
    else h)

/-- The assignment `headers[name] = value`: an existing property keeps its
place, a new one goes last. -/
def setHeader (headers : List (String × String)) (name value : String) :
    List (String × String) :=
  if headers.any (fun h => h.1 = name) then
    headers.map (fun h => if h.1 = name then (h.1, value) else h)
  else headers ++ [(name, value)]

/-- The test of the `some` over the header names: an `Authorization` header
whose value includes the key. -/
def authorizationUses (apiKey : String) (headers : List (String × String)) : Bool :=
  headers.any (fun h => isAuthorization h.1 && includes h.2 apiKey)

/-- The injection step of `fetchExternalData` for a truthy `apiKey`. -/
def injectApiKey (apiKey : String) (headers : List (String × String)) :
    List (String × String) :=
  if authorizationUses apiKey (substituteKey apiKey headers) then substituteKey apiKey headers
  else setHeader (substituteKey apiKey headers) "X-API-Key" apiKey

/-- What the collaborators of `fetchExternalData` answer: `getApiKey` gives the
key or `null` (it catches its errors), `axios.get` gives `response.data` or
rejects (a status outside 2xx, a timeout, a transport error), and the XML
parser gives the tree of a text or rejects. -/
structure FetchEnv where
  getApiKey : String → Option String
  httpGet : Option String → List (String × String) → Except JsError Json
  parseXml : Json → Except JsError Json

/-- The headers `fetchExternalData` sends: a copy of the template, with the
key injected when the source names a secret and the secret resolves to a
non-empty key. -/
def requestHeaders (env : FetchEnv) (source : Source) : List (String × String) :=
  match source.apiKeySecretId with
  | none => source.headers
  | some secretId =>
    if secretId = "" then source.headers
    else
      match env.getApiKey secretId with
      | none => source.headers
      | some apiKey => if apiKey = "" then source.headers else injectApiKey apiKey source.headers

/-- The function `fetchExternalData(source)`: the `catch` logs and rethrows. -/
def fetchExternalData (env : FetchEnv) (source : Source) : Except JsError Json :=
  match env.httpGet source.url (requestHeaders env source) with
  | .error e => .error e
  | .ok data =>
    if source.dataFormat = "xml" then
      match env.parseXml data with
      | .error e => .error e
      | .ok result => .ok result
    else .ok data

/-! ## The fan-out dispatcher (`lambda/websocket-handler`) -/

/-- The own property `key` of an object, the last of several members of that
name; `none` is `undefined`. -/
def lookupProp : List (String × Json) → String → Option Json
  | [], _ => none
  | (k, v) :: rest, key =>
    match lookupProp rest key with
    | some later => some later
    | none => if k = key then some v else none

/-- The value of `x.key` for a value `x` other than `null`, for the property
names the handler reads (`sourceType`, `sourceId`, `sheetId`, `changes`,
`data`): strings, numbers, booleans and arrays have no such property. -/
def Json.field (x : Json) (key : String) : Option Json :=
  match x with
  | .obj kvs => lookupProp kvs key
  | _ => none

/-- The property read `x.key`, where `x` may be `undefined` (`none`): on
`null` and `undefined` it throws a `TypeError`. -/
def propOf (x : Option Json) (key : String) : Except JsError (Option Json) :=
  match x with
  | none => .error .typeError
  | some .null => .error .typeError
  | some y => .ok (y.field key)

/-- An item of the connections table; `connectionId` is its key.  `sheetId`
is the key of the index `SheetSubscriptions`, a string when present;
`sourceType` is the attribute when it is a string, and `none` when it is
absent or of another type (no code of the repository reads it). -/
structure Connection where
  connectionId : String
  sheetId : Option String
  sourceType : Option String
  deriving DecidableEq

/-- How `postToConnection` settles: it resolves, it rejects with status code
410 (the connection is gone), or it rejects with another error. -/
inductive PostOutcome where
  | delivered
  | gone
  | failed (e : JsError)
  deriving DecidableEq

/-- A call of the handler that leaves the process: the subscriber query (the
key value when it is a string), a push, a delete of a connection, the `put`
of a new connection, the lookup of a data source (the key value when it is a
string), the increment of its subscriber count, the update that records a
subscription (the identifier when it is a string) and the query for the
latest snapshot. -/
inductive Call where
  | subscribers (id : Option String) (ok : Bool)
  | post (connectionId : String) (data : String) (outcome : PostOutcome)
  | delete (connectionId : String) (ok : Bool)
  | put (connectionId : String) (ok : Bool)
  | getSource (id : Option String) (ok : Bool)
  | addSubscriber (id : String) (ok : Bool)
  | subscribe (connectionId : String) (id : Option String) (ok : Bool)
  | latest (id : String) (ok : Bool)
  deriving DecidableEq

/-- What the collaborators answer for one push: the clock reading put into the
message, the outcome of `postToConnection`, and the error of the `delete`
that follows a 410 (`none`: it resolves). -/
structure PushEnv where
  time : String
  post : PostOutcome
  deleteError : Option JsError

/-- What the collaborators answer while one queue record is processed: the
error of the subscriber query and the environment of the push to the `i`-th
subscriber. -/
structure RecordEnv where
  queryError : Option JsError
  push : Nat → PushEnv

/-- One settled call of `sendToConnection`: the push, which is issued when the
function is called, the clean-up after a 410, the connection it removed, and
the error the promise rejects with (`none`: it resolves). -/
structure Sent where
  post : Call
  cleanup : List Call
  removed : Option String
  error : Option JsError
  deriving DecidableEq

/-- The function `sendToConnection(connectionId, data)`. -/
def sendToConnection (env : PushEnv) (connectionId : String) (data : Json) : Sent :=
  match env.post with
  | .delivered =>
    { post := .post connectionId (JSON.stringify data) .delivered, cleanup := [],
      removed := none, error := none }
  | .failed e =>
    { post := .post connectionId (JSON.stringify data) (.failed e), cleanup := [],
      removed := none, error := some e }
  | .gone =>
    match env.deleteError with
    | none =>
      { post := .post connectionId (JSON.stringify data) .gone,
        cleanup := [.delete connectionId true], removed := some connectionId, error := none }
    | some e =>
      { post := .post connectionId (JSON.stringify data) .gone,
        cleanup := [.delete connectionId false], removed := none, error := some e }

/-- A property of an object literal: `JSON.stringify` leaves out a property
whose value is `undefined`. -/
def optField (name : String) (value : Option Json) : List (String × Json) :=
  match value with
  | some v => [(name, v)]
  | none => []

/-- The message of the sheet branch: `{ type: 'UPDATE', sheetId, data, timestamp }`. -/
def sheetUpdate (sheetId data : Option Json) (timestamp : String) : Json :=
  .obj ([("type", .str "UPDATE")] ++ optField "sheetId" sheetId ++ optField "data" data
    ++ [("timestamp", .str timestamp)])

/-- The message of the external branch:
`{ type: 'EXTERNAL_UPDATE', sourceId, sourceType: 'external', data, timestamp }`. -/
def externalUpdate (sourceId data : Option Json) (timestamp : String) : Json :=
  .obj ([("type", .str "EXTERNAL_UPDATE")] ++ optField "sourceId" sourceId
    ++ [("sourceType", .str "external")] ++ optField "data" data
    ++ [("timestamp", .str timestamp)])

/-- The `map` of `sendToConnection` over the subscribers, the `i`-th call in
the environment of the `i`-th push. -/
def sendAll (env : Nat → PushEnv) (message : String → Json) :
    Nat → List Connection → List Sent
  | _, [] => []
  | i, c :: cs =>
    sendToConnection (env i) c.connectionId (message (env i).time)
      :: sendAll env message (i + 1) cs

/-- The key value of a subscriber query when it is a string. -/
def keyString (id : Option Json) : Option String :=
  match id with
  | some (.str s) => some s
  | _ => none

/-- The connections subscribed to `id`, in the order of the directory. -/
def subscribersOf (dir : List Connection) (id : String) : List Connection :=
  dir.filter (fun c => c.sheetId = some id)

/-- The query on index `SheetSubscriptions` with key `sheetId`.  DynamoDB
rejects a key value that is `undefined` or not a string. -/
def querySubscribers (env : RecordEnv) (dir : List Connection) (id : Option Json) :
    Except JsError (List Connection) :=
  match keyString id with
  | none => .error (.failure "ValidationException")
  | some s =>
    match env.queryError with
    | some e => .error e
    | none => .ok (subscribersOf dir s)

/-- Where the processing of a record, or of a batch, ends: the error thrown
(`none`: it completes), the directory and the calls made. -/
structure Step where
  error : Option JsError
  dir : List Connection
  calls : List Call
  deriving DecidableEq

/-- The directory after the deletes of the settled sends. -/
def prune (dir : List Connection) (sent : List Sent) : List Connection :=
  dir.filter (fun c => !(sent.map Sent.removed).contains (some c.connectionId))

/-- The query, the `map` and the `Promise.allSettled` that both branches share.
The pushes are issued in the order of the subscribers while the `map` runs;
the clean-ups run once the pushes settle and are listed in the same order.
The rejections are dropped by `allSettled`.  An absent `changes` throws when
the first message is built, before any push. -/
def fanOut (env : RecordEnv) (dir : List Connection) (id changes : Option Json)
    (message : Option Json → String → Json) : Step :=
  match querySubscribers env dir id with
  | .error e => { error := some e, dir := dir, calls := [.subscribers (keyString id) false] }
  | .ok [] => { error := none, dir := dir, calls := [.subscribers (keyString id) true] }
  | .ok (c :: cs) =>
    match propOf changes "data" with
    | .error e => { error := some e, dir := dir, calls := [.subscribers (keyString id) true] }
    | .ok data =>
      { error := none
        dir := prune dir (sendAll env.push (message data) 0 (c :: cs))
        calls := .subscribers (keyString id) true
          :: ((sendAll env.push (message data) 0 (c :: cs)).map Sent.post
            ++ ((sendAll env.push (message data) 0 (c :: cs)).map Sent.cleanup).flatten) }

/-- The function `processExternalSourceMessage(message)`; its `catch` logs and
rethrows. -/
def processExternalSourceMessage (env : RecordEnv) (message : Json) (dir : List Connection) :
    Step :=
  fanOut env dir (message.field "sourceId") (message.field "changes")
    (externalUpdate (message.field "sourceId"))

/-- The test `message.sourceType === 'external'`. -/
def isExternal (sourceType : Option Json) : Bool :=
  match sourceType with
  | some (.str s) => s = "external"
  | _ => false

/-- The body of the `for` loop of `processSQSMessages` for one record. -/
def processRecord (env : RecordEnv) (body : String) (dir : List Connection) : Step :=
  match JSON.parse body with
  | .error e => { error := some e, dir := dir, calls := [] }
  | .ok message =>
    match propOf (some message) "sourceType" with
    | .error e => { error := some e, dir := dir, calls := [] }
    | .ok sourceType =>
      if isExternal sourceType then processExternalSourceMessage env message dir
      else
        fanOut env dir (message.field "sheetId") (message.field "changes")
          (sheetUpdate (message.field "sheetId"))

/-- A record of an SQS event. -/
structure SqsRecord where
  eventSource : String
  body : String
  deriving DecidableEq

/-- The `for` loop of `processSQSMessages` from record `i` on: the first error
thrown leaves the loop. -/
def processRecords (env : Nat → RecordEnv) : Nat → List SqsRecord → List Connection → Step
  | _, [], dir => { error := none, dir := dir, calls := [] }
  | i, record :: rest, dir =>
    match (processRecord (env i) record.body dir).error with
    | some e =>
      { error := some e, dir := (processRecord (env i) record.body dir).dir,
        calls := (processRecord (env i) record.body dir).calls }
    | none =>
      { error := (processRecords env (i + 1) rest (processRecord (env i) record.body dir).dir).error
        dir := (processRecords env (i + 1) rest (processRecord (env i) record.body dir).dir).dir
        calls := (processRecord (env i) record.body dir).calls
          ++ (processRecords env (i + 1) rest (processRecord (env i) record.body dir).dir).calls }

/-- The body of a response: a fixed text, or a prefix followed by the message
of an error. -/
inductive Body where
  | text (s : String)
  | failed (pre : String) (e : JsError)
  deriving DecidableEq

/-- The object `{ statusCode, body }` a handler returns. -/
structure Response where
  statusCode : Nat
  body : Body
  deriving DecidableEq

/-- The function `processSQSMessages(event)` on `event.Records`: the response,
the directory and the calls. -/
def processSQSMessages (env : Nat → RecordEnv) (records : List SqsRecord)
    (dir : List Connection) : Response × List Connection × List Call :=
  match (processRecords env 0 records dir).error with
  | none =>
    ({ statusCode := 200, body := .text "Processed" },
      (processRecords env 0 records dir).dir, (processRecords env 0 records dir).calls)
  | some e =>
    ({ statusCode := 500, body := .failed "Error processing messages: " e },
      (processRecords env 0 records dir).dir, (processRecords env 0 records dir).calls)

/-- The connection a push goes to. -/
def Call.postTarget : Call → Option String
  | .post connectionId _ _ => some connectionId
  | _ => none

/-- The message pushed for an event: of the external branch or of the sheet
branch. -/
def updateMessage (ext : Bool) (id data : Option Json) (timestamp : String) : Json :=
  if ext then externalUpdate id data timestamp else sheetUpdate id data timestamp

/-- A record body that is a change event for `id`: an object whose
`sourceType` is `'external'` exactly when `ext` holds, with the string `id` as
its `sourceId` (external) or `sheetId`, and an object `changes` whose `data`
is `data`. -/
def WellFormedEvent (body : String) (ext : Bool) (id : String) (data : Option Json) : Prop :=
  ∃ kvs ch, JSON.parse body = .ok (.obj kvs) ∧
    isExternal (lookupProp kvs "sourceType") = ext ∧
    lookupProp kvs (if ext then "sourceId" else "sheetId") = some (.str id) ∧
    lookupProp kvs "changes" = some (.obj ch) ∧
    lookupProp ch "data" = data

/-! ## Subscriptions and routes (`lambda/websocket-handler`) -/

/-- A record of the data-sources table as the Lambda functions read it: its
attributes in enumeration order. -/
abbrev DataSource := List (String × Json)

/-- The tables the handler reads and writes: the directory of connections, the
registry of data sources and the snapshot table. -/
structure Tables where
  connections : List Connection
  sources : List DataSource
  dataTable : List Item

/-- Is the string `id` the key of the record? -/
def hasId (id : String) (record : DataSource) : Bool :=
  match lookupProp record "id" with
  | some (.str s) => s = id
  | _ => false

/-- DynamoDB `get` on the data-sources table with key `id`. -/
def getItem (sources : List DataSource) (id : String) : Option DataSource :=
  sources.find? (hasId id)

/-- DynamoDB `SET` of one attribute of a record. -/
def setProp (record : DataSource) (key : String) (value : Json) : DataSource :=
  if record.any (fun kv => kv.1 = key) then
    record.map (fun kv => if kv.1 = key then (kv.1, value) else kv)
  else record ++ [(key, value)]

/-- The update `SET subscriberCount = if_not_exists(subscriberCount, :zero) + :one`
on one record; DynamoDB rejects the sum when the attribute is not a number. -/
def incrementCount (record : DataSource) : Except JsError DataSource :=
  match lookupProp record "subscriberCount" with
  | none => .ok (setProp record "subscriberCount" (.num 1))
  | some (.num n) => .ok (setProp record "subscriberCount" (.num n.addOne))
  | some _ => .error (.failure "ValidationException")

/-- That update on the record with key `id`; a missing record is created with
the key and the count. -/
def addSubscriber : List DataSource → String → Except JsError (List DataSource)
  | [], id => .ok [[("id", .str id), ("subscriberCount", .num 1)]]
  | record :: rest, id =>
    if hasId id record then
      match incrementCount record with
      | .error e => .error e
      | .ok updated => .ok (updated :: rest)
    else
      match addSubscriber rest id with
      | .error e => .error e
      | .ok others => .ok (record :: others)

/-- The update `SET sheetId = :dataId, sourceType = :sourceType` on the
connection with key `connectionId`; a missing item is created with the key
and the two attributes. -/
def setSubscription (dir : List Connection) (connectionId dataId : String)
    (sourceType : Option String) : List Connection :=
  if dir.any (fun c => c.connectionId = connectionId) then
    dir.map (fun c =>
      if c.connectionId = connectionId then
        { c with sheetId := some dataId, sourceType := sourceType }
      else c)
  else
    dir ++ [{ connectionId := connectionId, sheetId := some dataId, sourceType := sourceType }]

/-- The expression `sourceType || 'sheet'`. -/
def orSheet (sourceType : Option Json) : Json :=
  match sourceType with
  | none => .str "sheet"
  | some v => if truthy v then v else .str "sheet"

/-- The test `!dataId` on a value that may be `undefined`. -/
def falsy (x : Option Json) : Bool :=
  match x with
  | none => true
  | some v => !truthy v

/-- The function `getLatestData(sourceId)`: the `data` of the newest snapshot,
parsed, or `null`.  The `catch` turns a rejected query and a `SyntaxError`
into `null`.  A stored text with the escape of an unpaired surrogate, which
JavaScript parses, has no value here and stays `outsideModel`. -/
def getLatestData (queryError : Option JsError) (table : List Item) (sourceId : String) :
    Except JsError Json :=
  match queryError with
  | some _ => .ok .null
  | none =>
    match queryLatest table sourceId with
    | none => .ok .null
    | some item =>
      match JSON.parse item.data with
      | .ok data => .ok data
      | .error .outsideModel => .error .outsideModel
      | .error _ => .ok .null

/-- The message of `handleSubscribe`:
`{ type, id: dataId, sourceType: sourceType || 'sheet', data: latestData }`. -/
def initialData (sourceType : Option Json) (dataId latestData : Json) : Json :=
  .obj [("type", .str (if isExternal sourceType then "EXTERNAL_INITIAL_DATA"
                       else "INITIAL_DATA")),
    ("id", dataId), ("sourceType", orSheet sourceType), ("data", latestData)]

/-- What the collaborators answer during one call of `handleSubscribe`: the
errors of the lookup of the data source, of the increment of its count, of
the update of the connection and of the snapshot query (`none`: the call
resolves), and the environment of the push. -/
structure SubscribeEnv where
  getError : Option JsError
  countError : Option JsError
  updateError : Option JsError
  latestError : Option JsError
  push : PushEnv

/-- The result of the `catch` of `handleSubscribe`. -/
def failedToSubscribe (e : JsError) (t : Tables) (calls : List Call) :
    Response × Tables × List Call :=
  ({ statusCode := 500, body := .failed "Failed to subscribe: " e }, t, calls)

/-- The result `{ statusCode: 200, body: 'Subscribed' }`. -/
def subscribed (t : Tables) (calls : List Call) : Response × Tables × List Call :=
  ({ statusCode := 200, body := .text "Subscribed" }, t, calls)

/-- The end of the `try` block after the push settled: the `catch` when
`sendToConnection` threw, the result `Subscribed` otherwise. -/
def afterPush (error : Option JsError) (t : Tables) (calls : List Call) :
    Response × Tables × List Call :=
  match error with
  | some e => failedToSubscribe e t calls
  | none => subscribed t calls

/-- The tables with the directory replaced. -/
def Tables.withConnections (t : Tables) (dir : List Connection) : Tables :=
  { t with connections := dir }

/-- The second half of the `try` block of `handleSubscribe`: the update of the
connection, the latest data and the push.  `calls` are the calls made so far.
DynamoDB rejects a value of the index key `sheetId` that is not a string; of
the attribute `sourceType` the directory keeps the string, if it is one. -/
def subscribeConnection (env : SubscribeEnv) (connectionId : String) (sourceType : Option Json)
    (dataId : Json) (t : Tables) (calls : List Call) :
    Except JsError (Response × Tables × List Call) :=
  match keyString (some dataId) with
  | none =>
    .ok (failedToSubscribe (.failure "ValidationException") t
      (calls ++ [.subscribe connectionId none false]))
  | some id =>
    match env.updateError with
    | some e => .ok (failedToSubscribe e t (calls ++ [.subscribe connectionId (some id) false]))
    | none =>
      match getLatestData env.latestError t.dataTable id with
      | .error e => .error e
      | .ok latestData =>
        if truthy latestData then
          .ok (afterPush
            (sendToConnection env.push connectionId
              (initialData sourceType dataId latestData)).error
            (t.withConnections
              (prune
                (setSubscription t.connections connectionId id
                  (keyString (some (orSheet sourceType))))
                [sendToConnection env.push connectionId
                  (initialData sourceType dataId latestData)]))
            (calls
              ++ [Call.subscribe connectionId (some id) true,
                Call.latest id env.latestError.isNone]
              ++ (sendToConnection env.push connectionId
                    (initialData sourceType dataId latestData)).post
                :: (sendToConnection env.push connectionId
                    (initialData sourceType dataId latestData)).cleanup))
        else
          .ok (subscribed
            (t.withConnections
              (setSubscription t.connections connectionId id
                (keyString (some (orSheet sourceType)))))
            (calls ++ [.subscribe connectionId (some id) true,
              .latest id env.latestError.isNone]))

/-- The `try` block of `handleSubscribe` for a truthy `dataId`.  DynamoDB
rejects a key value that is not a string. -/
def trySubscribe (env : SubscribeEnv) (connectionId : String) (sourceType : Option Json)
    (dataId : Json) (t : Tables) : Except JsError (Response × Tables × List Call) :=
  if isExternal sourceType then
    match keyString (some dataId) with
    | none => .ok (failedToSubscribe (.failure "ValidationException") t [.getSource none false])
    | some id =>
      match env.getError with
      | some e => .ok (failedToSubscribe e t [.getSource (some id) false])
      | none =>
        match getItem t.sources id with
        | none =>
          .ok ({ statusCode := 404, body := .text "Data source not found" }, t,
            [.getSource (some id) true])
        | some _ =>
          match env.countError with
          | some e =>
            .ok (failedToSubscribe e t [.getSource (some id) true, .addSubscriber id false])
          | none =>
            match addSubscriber t.sources id with
            | .error e =>
              .ok (failedToSubscribe e t [.getSource (some id) true, .addSubscriber id false])
            | .ok sources =>
              subscribeConnection env connectionId sourceType dataId { t with sources := sources }
                [.getSource (some id) true, .addSubscriber id true]
  else subscribeConnection env connectionId sourceType dataId t []

/-- The call `JSON.parse(event.body)`; an absent body is converted to the text
`undefined`, which is no JSON text. -/
def parseBody (body : Option String) : Except JsError Json :=
  match body with
  | none => .error .syntaxError
  | some text => JSON.parse text

/-- The expression `sourceType === 'external' ? sourceId : sheetId` on the
parsed body. -/
def targetId (parsed : Json) : Option Json :=
  if isExternal (parsed.field "sourceType") then parsed.field "sourceId"
  else parsed.field "sheetId"

/-- The function `handleSubscribe(event)` on `event.requestContext.connectionId`
and `event.body`: the response, the tables and the calls, or the error thrown.
The destructuring of the parsed body stands outside both `try` blocks. -/
def handleSubscribe (env : SubscribeEnv) (connectionId : String) (body : Option String)
    (t : Tables) : Except JsError (Response × Tables × List Call) :=
  match parseBody body with
  | .error .syntaxError => .ok ({ statusCode := 400, body := .text "Invalid request body" }, t, [])
  | .error e => .error e
  | .ok parsed =>
    match propOf (some parsed) "sourceType" with
    | .error e => .error e
    | .ok sourceType =>
      match targetId parsed with
      | none =>
        .ok ({ statusCode := 400, body := .text "Missing ID parameter (sheetId or sourceId)" },
          t, [])
      | some dataId =>
        if truthy dataId then trySubscribe env connectionId sourceType dataId t
        else
          .ok ({ statusCode := 400, body := .text "Missing ID parameter (sheetId or sourceId)" },
            t, [])

/-- The function `handleConnect(event)`: the `put` replaces the item of the
connection, which then has no subscription. -/
def handleConnect (putError : Option JsError) (connectionId : String) (t : Tables) :
    Response × Tables × List Call :=
  match putError with
  | some e =>
    ({ statusCode := 500, body := .failed "Failed to connect: " e }, t,
      [.put connectionId false])
  | none =>
    ({ statusCode := 200, body := .text "Connected" },
      t.withConnections
        (t.connections.filter (fun c => c.connectionId ≠ connectionId)
          ++ [{ connectionId := connectionId, sheetId := none, sourceType := none }]),
      [.put connectionId true])

/-- The function `handleDisconnect(event)`. -/
def handleDisconnect (deleteError : Option JsError) (connectionId : String) (t : Tables) :
    Response × Tables × List Call :=
  match deleteError with
  | some e =>
    ({ statusCode := 500, body := .failed "Failed to disconnect: " e }, t,
      [.delete connectionId false])
  | none =>
    ({ statusCode := 200, body := .text "Disconnected" },
      t.withConnections (t.connections.filter (fun c => c.connectionId ≠ connectionId)),
      [.delete connectionId true])

/-- The object `event.requestContext` of a WebSocket event. -/
structure RequestContext where
  connectionId : String
  routeKey : String
  deriving DecidableEq

/-- The event of the Lambda function; an absent property is `none`. -/
structure Event where
  Records : Option (List SqsRecord) := none
  requestContext : Option RequestContext := none
  body : Option String := none
  deriving DecidableEq

/-- What the collaborators answer during one invocation: the environment of
the `i`-th queue record, the error of the `put` of `handleConnect`, the error
of the `delete` of `handleDisconnect`, and the environment of
`handleSubscribe`. -/
structure HandlerEnv where
  records : Nat → RecordEnv
  putError : Option JsError
  deleteError : Option JsError
  subscribe : SubscribeEnv

/-- The `switch` on `event.requestContext.routeKey`; the property read throws
when the event has no `requestContext`. -/
def route (env : HandlerEnv) (event : Event) (t : Tables) :
    Except JsError (Response × Tables × List Call) :=
  match event.requestContext with
  | none => .error .typeError
  | some context =>
    if context.routeKey = "$connect" then
      .ok (handleConnect env.putError context.connectionId t)
    else if context.routeKey = "$disconnect" then
      .ok (handleDisconnect env.deleteError context.connectionId t)
    else if context.routeKey = "subscribe" then
      handleSubscribe env.subscribe context.connectionId event.body t
    else
      .ok ({ statusCode := 400, body := .text ("Unsupported route: " ++ context.routeKey) }, t, [])

/-- The function `exports.handler`.  The test
`event.Records && event.Records[0].eventSource === 'aws:sqs'` reads a property
of `event.Records[0]`, which is `undefined` for an empty list. -/
def handler (env : HandlerEnv) (event : Event) (t : Tables) :
    Except JsError (Response × Tables × List Call) :=
  match event.Records with
  | none => route env event t
  | some [] => .error .typeError
  | some (record :: rest) =>
    if record.eventSource = "aws:sqs" then
      .ok ((processSQSMessages env.records (record :: rest) t.connections).1,
        t.withConnections (processSQSMessages env.records (record :: rest) t.connections).2.1,
        (processSQSMessages env.records (record :: rest) t.connections).2.2)
    else route env event t

/-- The wire shape the specification gives for every outbound message: a
`type` among the four message types, an `id`, a `sourceType` that is `sheet`
or `external`, a `data` and a `timestamp`. -/
def specEnvelope (message : Json) : Bool :=
  (match message.field "type" with
   | some (.str s) =>
     s = "INITIAL_DATA" || s = "EXTERNAL_INITIAL_DATA" || s = "UPDATE" || s = "EXTERNAL_UPDATE"
   | _ => false)
  && (message.field "id").isSome
  && (match message.field "sourceType" with
      | some (.str s) => s = "sheet" || s = "external"
      | _ => false)
  && (message.field "data").isSome
  && (message.field "timestamp").isSome

/-- Is the call a push? -/
def Call.isPost : Call → Bool
  | .post _ _ _ => true
  | _ => false

/-! ## The registry API (`lambda/datasource-handler`) -/

/-- The object `{ statusCode, headers, body }` the registry handlers return. -/
structure HttpResponse where
  statusCode : Nat
  headers : List (String × String)
  body : String
  deriving DecidableEq

/-- A response with the header `Content-Type: application/json` and the
serialized `body`. -/
def jsonResponse (statusCode : Nat) (body : Json) : HttpResponse :=
  { statusCode := statusCode, headers := [("Content-Type", "application/json")],
    body := JSON.stringify body }

/-- The object `{ message }`. -/
def messageOf (text : String) : Json := .obj [("message", .str text)]

/-- The statement `delete object.key`. -/
def deleteProp (object : List (String × Json)) (key : String) : List (String × Json) :=
  object.filter (fun kv => kv.1 ≠ key)

/-- The function `getDataSource(sourceId)` of `get.js`; `getError` is the error
of the `get` (`none`: it resolves). -/
def getDataSource (getError : Option JsError) (sources : List DataSource) (sourceId : String) :
    HttpResponse :=
  match getError with
  | some _ => jsonResponse 500 (messageOf "Failed to get data source")
  | none =>
    match getItem sources sourceId with
    | none => jsonResponse 404 (messageOf "Data source not found")
    | some item => jsonResponse 200 (.obj (deleteProp item "apiKeySecretId"))

/-- The summary view of `list.js`: `{ id, name, type, dataFormat, lastUpdated }`. -/
def summaryOf (item : DataSource) : Json :=
  .obj (optField "id" (lookupProp item "id") ++ optField "name" (lookupProp item "name")
    ++ optField "type" (lookupProp item "type")
    ++ optField "dataFormat" (lookupProp item "dataFormat")
    ++ optField "lastUpdated" (lookupProp item "lastUpdated"))

/-- The function `listDataSources()` of `list.js`; `scanError` is the error of
the `scan` (`none`: it resolves with the records of the table). -/
def listDataSources (scanError : Option JsError) (sources : List DataSource) : HttpResponse :=
  match scanError with
  | some _ => jsonResponse 500 (messageOf "Failed to list data sources")
  | none => jsonResponse 200 (.obj [("sources", .arr (sources.map summaryOf))])

/-- The constant `SECRETS_PREFIX`, at its default. -/
def SECRETS_PREFIX : String := "datasource/"

/-- A call to Secrets Manager: `createSecret` with its `Name` or `updateSecret`
with its `SecretId` (when it is a string), the `SecretString`, and whether
the call resolved. -/
inductive SecretCall where
  | createSecret (name : String) (secretString : String) (ok : Bool)
  | updateSecret (secretId : Option String) (secretString : String) (ok : Bool)
  deriving DecidableEq

/-- What the collaborators answer during one call of `updateDataSource`: the
error of the `get`, the clock reading, the error of the call to Secrets
Manager and the error of the `update` (`none`: the call resolves).  DynamoDB
checks the update expression; its verdict is part of `updateError`. -/
structure UpdateEnv where
  getError : Option JsError
  timestamp : String
  secretError : Option JsError
  updateError : Option JsError

/-- The block `if (body.apiKey) { ... }` of `updateDataSource`: the call to
Secrets Manager, if any. -/
def storeApiKey (env : UpdateEnv) (sourceId : String) (dataSource : DataSource)
    (body : List (String × Json)) : List SecretCall :=
  match lookupProp body "apiKey" with
  | none => []
  | some apiKey =>
    if truthy apiKey then
      if falsy (lookupProp dataSource "apiKeySecretId") then
        [.createSecret ( SECRETS_PREFIX ++ sourceId) (JSON.stringify (.obj [("apiKey", apiKey)]))
          env.secretError.isNone]
      else
        [.updateSecret (keyString (lookupProp dataSource "apiKeySecretId"))
          (JSON.stringify (.obj [("apiKey", apiKey)])) env.secretError.isNone]
    else []

/-- The `SET` clauses built from the keys of the body, applied in order: every
key but `id`. -/
def applyUpdates (item : DataSource) : List (String × Json) → DataSource
  | [] => item
  | (key, value) :: rest => applyUpdates (if key = "id" then item else setProp item key value) rest

/-- The table after an `update` of the record with key `id` to `attributes`. -/
def putAttributes : List DataSource → String → DataSource → List DataSource
  | [], _, attributes => [attributes]
  | record :: rest, id, attributes =>
    if hasId id record then attributes :: rest
    else record :: putAttributes rest id attributes

/-- The function `updateDataSource(sourceId, body)` of `update.js` for a body
that is an object: the response, the table and the calls to Secrets Manager.
`Attributes` are the attributes of the record after the update
(`ReturnValues: 'ALL_NEW'`). -/
def updateDataSource (env : UpdateEnv) (sources : List DataSource) (sourceId : String)
    (body : List (String × Json)) : HttpResponse × List DataSource × List SecretCall :=
  match env.getError with
  | some _ => (jsonResponse 500 (messageOf "Failed to update data source"), sources, [])
  | none =>
    match getItem sources sourceId with
    | none => (jsonResponse 404 (messageOf "Data source not found"), sources, [])
    | some dataSource =>
      match (if (storeApiKey env sourceId dataSource body).isEmpty then none
             else env.secretError) with
      | some _ =>
        (jsonResponse 500 (messageOf "Failed to update data source"), sources,
          storeApiKey env sourceId dataSource body)
      | none =>
        match env.updateError with
        | some _ =>
          (jsonResponse 500 (messageOf "Failed to update data source"), sources,
            storeApiKey env sourceId dataSource body)
        | none =>
          (jsonResponse 200 (.obj (deleteProp
              (setProp (applyUpdates dataSource (deleteProp body "apiKey")) "lastUpdated"
                (.str env.timestamp)) "apiKeySecretId")),
            putAttributes sources sourceId
              (setProp (applyUpdates dataSource (deleteProp body "apiKey")) "lastUpdated"
                (.str env.timestamp)),
            storeApiKey env sourceId dataSource body)

/-! ## Sample data -/

/-- The source `stocks-api` of the test suite, with a five-minute interval. -/
def stocksSource : Source :=
  { id := "stocks-api", type := "external", url := some "https://api.example.com/stocks",
    pollingInterval := some 300, lastChecked := some 1700000000000, lastUpdated := none }

/-- The source `weather-api` of the test suite, never checked so far. -/
def weatherSource : Source :=
  { id := "weather-api", type := "external", url := some "https://api.example.com/weather",
    pollingInterval := some 300, lastChecked := none, lastUpdated := none }

/-- A source whose record carries a polling interval of `0`. -/
def zeroIntervalSource : Source :=
  { id := "ticker", type := "external", url := some "https://api.example.com/ticker",
    pollingInterval := some 0, lastChecked := some 1700000000000, lastUpdated := none }

/-- A poll in which the fetch returns `payload` and every later call resolves. -/
def calmPoll (payload : Json) : PollEnv :=
  { fetched := .ok payload, queryError := none, saveTime := "2023-11-14T22:20:00.000Z",
    putError := none, sendTime := "2023-11-14T22:20:00.010Z", sendError := none,
    updateTime := "2023-11-14T22:20:00.020Z", updateError := none }

/-- A poll whose fetch is rejected. -/
def failedFetchPoll : PollEnv :=
  { calmPoll .null with fetched := .error (.failure "timeout of 10000ms exceeded") }

/-- A poll in which the `put` resolves and the publish is rejected. -/
def lostPublishPoll (payload : Json) : PollEnv :=
  { calmPoll payload with sendError := some (.failure "SQS error") }

/-- A world with the given registry, an empty snapshot table and an empty queue. -/
def registryOnly (sources : List Source) : World :=
  { dataTable := [], queue := [], sources := sources }

/-- A pass at clock reading `now` in which every call resolves. -/
def calmTick (now : Int) (payload : Json) : TickEnv :=
  { sourcesError := none
    iter := fun _ => { now := now, poll := calmPoll payload, checkedTime := now,
                       checkedError := none } }

/-- A pass in which the first `lastChecked` update is rejected and the fetch
of the first source fails. -/
def rejectedUpdateTick (now : Int) (payload : Json) : TickEnv :=
  { sourcesError := none
    iter := fun i =>
      if i = 0 then
        { now := now, poll := failedFetchPoll, checkedTime := now,
          checkedError := some (.failure "ProvisionedThroughputExceededException") }
      else
        { now := now, poll := calmPoll payload, checkedTime := now, checkedError := none } }

/-- A pass in which every call of the first iteration resolves except its
`lastChecked` update, which is rejected. -/
def writeBackRejectedTick (now : Int) (payload : Json) : TickEnv :=
  { sourcesError := none
    iter := fun i =>
      { now := now, poll := calmPoll payload, checkedTime := now,
        checkedError :=
          if i = 0 then some (.failure "ProvisionedThroughputExceededException") else none } }

/-- A pass in which the fetch of the first source fails and every other call
resolves. -/
def failedFirstFetchTick (now : Int) (payload : Json) : TickEnv :=
  { sourcesError := none
    iter := fun i =>
      { now := now, poll := if i = 0 then failedFetchPoll else calmPoll payload,
        checkedTime := now, checkedError := none } }

/-- A source with a header template and a secret reference. -/
def keyedSource (headers : List (String × String)) : Source :=
  { stocksSource with headers := headers, apiKeySecretId := some "data-source/stocks-api" }

/-- Collaborators of a fetch: the secret resolves to `apiKey`, the request
returns `payload`, and the XML parser returns its input. -/
def calmFetch (apiKey : String) (payload : Json) : FetchEnv :=
  { getApiKey := fun _ => some apiKey
    httpGet := fun _ _ => .ok payload
    parseXml := fun text => .ok text }

/-- The connection `conn-A`, subscribed to `sheet-9`. -/
def connA : Connection :=
  { connectionId := "conn-A", sheetId := some "sheet-9", sourceType := some "sheet" }

/-- The connection `conn-B`, subscribed to `sheet-9`. -/
def connB : Connection :=
  { connectionId := "conn-B", sheetId := some "sheet-9", sourceType := some "sheet" }

/-- The connection `conn-C`, subscribed to the external source `ext-1`. -/
def connC : Connection :=
  { connectionId := "conn-C", sheetId := some "ext-1", sourceType := some "external" }

/-- The directory of the spec scenario: two connections subscribed to
`sheet-9` and one subscribed to the external source `ext-1`. -/
def sampleDirectory : List Connection := [connA, connB, connC]

/-- An `update` event of the sheet `sheet-9` with the payload `["A","C"]`, as
the sheet monitor sends it. -/
def sheetRecord : SqsRecord :=
  { eventSource := "aws:sqs"
    body := JSON.stringify (.obj [("sheetId", .str "sheet-9"),
      ("timestamp", .str "2023-11-14T22:20:00.010Z"),
      ("changes", .obj [("type", .str "update"), ("data", .arr [.str "A", .str "C"])])]) }

/-- A record whose body is not JSON. -/
def malformedRecord : SqsRecord :=
  { eventSource := "aws:sqs", body := "not-valid-json" }

/-- Collaborators of a batch: every query resolves, and in every record the
push to the `i`-th subscriber settles as `outcome i`, with deletes that
resolve. -/
def pushesSettle (outcome : Nat → PostOutcome) : Nat → RecordEnv :=
  fun _ =>
    { queryError := none
      push := fun i =>
        { time := "2023-11-14T22:20:01.000Z", post := outcome i, deleteError := none } }

/-- A source with a URL whose record declares no polling interval, checked at
`1700000000000`. -/
def defaultIntervalSource : Source :=
  { id := "feed", type := "external", url := some "https://api.example.com/feed",
    pollingInterval := none, lastChecked := some 1700000000000, lastUpdated := none }

/-- Collaborators of a subscription: every call to a table resolves and the
push settles as `outcome`, with a delete that resolves. -/
def subscribeWithPush (outcome : PostOutcome) : SubscribeEnv :=
  { getError := none, countError := none, updateError := none, latestError := none,
    push := { time := "2023-11-14T22:20:01.000Z", post := outcome, deleteError := none } }

/-- Collaborators of an invocation in which every call resolves and every push
is delivered. -/
def calmHandler : HandlerEnv :=
  { records := pushesSettle (fun _ => .delivered), putError := none, deleteError := none,
    subscribe := subscribeWithPush .delivered }

/-- The record of the external source `stocks-api` in the registry. -/
def stocksRecord : DataSource :=
  [("id", .str "stocks-api"), ("name", .str "Stocks"), ("type", .str "external"),
    ("url", .str "https://api.example.com/stocks"), ("dataFormat", .str "json"),
    ("apiKeySecretId", .str "datasource/stocks-api"),
    ("lastUpdated", .str "2023-11-14T22:00:00.000Z")]

/-- The record `stocks-api` with another secret reference. -/
def stocksRecordOtherSecret : DataSource :=
  [("id", .str "stocks-api"), ("name", .str "Stocks"), ("type", .str "external"),
    ("url", .str "https://api.example.com/stocks"), ("dataFormat", .str "json"),
    ("apiKeySecretId", .str "datasource/rotated"),
    ("lastUpdated", .str "2023-11-14T22:00:00.000Z")]

/-- The snapshot of the sheet `sheet-9` with the payload `["A","B"]`; the sheet
monitor writes no `sourceType`, which is the empty string here. -/
def sheetSnapshot : Item :=
  { id := "sheet-9-2023-11-14T22:10:00.000Z", sheetId := "sheet-9",
    lastUpdated := "2023-11-14T22:10:00.000Z",
    data := JSON.stringify (.arr [.str "A", .str "B"]), sourceType := "" }

/-- The tables of the spec scenarios: the sample directory, a registry with
`stocks-api` only, and the snapshot of `sheet-9`. -/
def sampleTables : Tables :=
  { connections := sampleDirectory, sources := [stocksRecord], dataTable := [sheetSnapshot] }

/-- The sample tables after the monitor saved the payload `0` of `stocks-api`. -/
def zeroPayloadTables : Tables :=
  { sampleTables with
    dataTable := [sheetSnapshot, snapshotItem "2023-11-14T22:20:00.000Z" "stocks-api" (.num 0)] }

/-- The body `JSON.stringify({ sheetId })` of a subscribe request. -/
def sheetRequest (sheetId : Json) : String :=
  JSON.stringify (.obj [("sheetId", sheetId)])

/-- The body `JSON.stringify({ sourceId, sourceType: 'external' })` of a
subscribe request. -/
def externalRequest (sourceId : Json) : String :=
  JSON.stringify (.obj [("sourceId", sourceId), ("sourceType", .str "external")])

/-- Collaborators of an update of a data source in which every call resolves. -/
def calmUpdate : UpdateEnv :=
  { getError := none, timestamp := "2023-11-14T22:30:00.000Z", secretError := none,
    updateError := none }

/-- The payload `jsonResponses['stocks-api'].initial` of the tests of the
monitor, which is `sampleExternalData` in the tests of the handler. -/
def stocksInitial : Json :=
  .obj [("stocks", .arr [.obj [("symbol", .str "AAPL"), ("price", .num 150.25)],
                         .obj [("symbol", .str "MSFT"), ("price", .num 290.10)]]),
        ("lastUpdated", .str "2023-01-01T12:00:00Z")]

/-- The payload `jsonResponses['stocks-api'].updated` of the tests of the
monitor. -/
def stocksUpdated : Json :=
  .obj [("stocks", .arr [.obj [("symbol", .str "AAPL"), ("price", .num 152.75)],
                         .obj [("symbol", .str "MSFT"), ("price", .num 288.30)]]),
        ("lastUpdated", .str "2023-01-01T13:00:00Z")]

/-- The payload `jsonResponses['weather-api'].initial` of the tests of the
monitor. -/
def weatherInitial : Json :=
  .obj [("location", .str "New York"), ("temperature", .num 72),
        ("conditions", .str "Sunny")]

/-- The stored item of the tests MONITOR-001 and MONITOR-002: the snapshot of
the initial payload of `stocks-api`.  The mock leaves out `lastUpdated` and
`sourceType` and has `timestamp` for the clock reading in the key; the three
are given as `saveCurrentState` writes them. -/
def stocksSnapshot : Item :=
  { id := "stocks-api-2023-01-01T12:00:05.000Z", sheetId := "stocks-api",
    lastUpdated := "2023-01-01T12:00:05.000Z", data := JSON.stringify stocksInitial,
    sourceType := "external" }

/-- The world of the tests MONITOR-001 and MONITOR-002: the stored snapshot of
`stocks-api`, an empty queue and the registry with `weather-api` and
`stocks-api`. -/
def stocksWorld : World :=
  { dataTable := [stocksSnapshot], queue := [], sources := [weatherSource, stocksSource] }

/-- The connection of the test SQS-002, subscribed to `external-source-001`. -/
def connD : Connection :=
  { connectionId := "abcdef123456", sheetId := some "external-source-001",
    sourceType := some "external" }

/-- A second connection subscribed to `external-source-001`. -/
def connE : Connection :=
  { connectionId := "connection-1234567890", sheetId := some "external-source-001",
    sourceType := some "external" }

/-- A directory with two subscribers of `external-source-001` and one of
`sheet-9`. -/
def externalDirectory : List Connection := [connD, connE, connA]

/-- The record of the test SQS-002: an `update` of `external-source-001` that
carries the stock prices. -/
def externalRecord : SqsRecord :=
  { eventSource := "aws:sqs"
    body := JSON.stringify (.obj [("sourceId", .str "external-source-001"),
      ("sourceType", .str "external"),
      ("changes", .obj [("type", .str "update"), ("data", stocksInitial)])]) }

/-- The record of `external-source-001` in the registry. -/
def externalSourceRecord : DataSource :=
  [("id", .str "external-source-001"), ("name", .str "Stocks"), ("type", .str "external"),
    ("url", .str "https://api.example.com/stocks")]

/-- The stored item of the test SUB-002: the snapshot of `external-source-001`
with the stock prices. -/
def externalSnapshot : Item :=
  { id := "external-source-001-timestamp", sheetId := "external-source-001",
    lastUpdated := "2023-01-01T12:00:05.000Z", data := JSON.stringify stocksInitial,
    sourceType := "external" }

/-- The tables of the test SUB-002, with the source registered: the
connection `abcdef123456` without a subscription, the record of
`external-source-001` and its snapshot. -/
def externalTables : Tables :=
  { connections := [{ connectionId := "abcdef123456", sheetId := none, sourceType := none }],
    sources := [externalSourceRecord], dataTable := [externalSnapshot] }

/-! # Theorems -/

set_option maxRecDepth 10000

/-! ## `JSON.parse` inverts `JSON.stringify` -/

theorem digitChar_toNat (d : Nat) (h : d < 10) : (digitChar d).toNat = 48 + d := by
  interval_cases d <;> rfl

theorem isDigit_digitChar (d : Nat) (h : d < 10) : isDigit (digitChar d) = true := by
  interval_cases d <;> rfl

theorem readDigits_digitsAux (fuel : Nat) : ∀ (n : Nat) (acc rest : List Char),
    n < fuel →
    readDigits (digitsAux fuel n acc ++ rest) 0 = readDigits (acc ++ rest) n := by
  induction fuel with
  | zero => intro n acc rest h; omega
  | succ fuel ih =>
    intro n acc rest h
    unfold digitsAux
    split
    · next hn =>
      simp [readDigits, isDigit_digitChar n hn, digitChar_toNat n hn]
    · next hn =>
      rw [ih (n / 10) _ rest (by omega)]
      have hd : n % 10 < 10 := Nat.mod_lt _ (by decide)
      simp only [List.cons_append, readDigits, isDigit_digitChar _ hd, digitChar_toNat _ hd, if_true]
      congr 1
      omega

theorem digitsAux_head (fuel : Nat) : ∀ (n : Nat) (acc : List Char), n < fuel →
    ∃ d cs, d < 10 ∧ (n ≠ 0 → d ≠ 0) ∧ digitsAux fuel n acc = digitChar d :: cs := by
  induction fuel with
  | zero => intro n acc h; omega
  | succ fuel ih =>
    intro n acc h
    unfold digitsAux
    split
    · next hn => exact ⟨n, acc, hn, id, rfl⟩
    · next hn =>
      obtain ⟨d, cs, hd, hz, he⟩ := ih (n / 10) (digitChar (n % 10) :: acc) (by omega)
      exact ⟨d, cs, hd, fun _ => hz (by omega), he⟩

theorem readDigits_stop (rest : List Char) (n : Nat) (h : delim rest = true) :
    readDigits rest n = (n, rest) := by
  cases rest with
  | nil => rfl
  | cons c cs =>
    have hc : isDigit c = false := by
      simp only [delim, Bool.or_eq_true, decide_eq_true_eq] at h
      rcases h with (rfl | rfl) | rfl <;> rfl
    simp [readDigits, hc]

theorem parseNat_natDigits (n : Nat) (rest : List Char) (h : delim rest = true) :
    parseNat (natDigits n ++ rest) = .ok (n, rest) := by
  obtain ⟨d, cs, hd, hz, he⟩ := digitsAux_head (n + 1) n [] (Nat.lt_succ_self n)
  have hr := readDigits_digitsAux (n + 1) n [] rest (Nat.lt_succ_self n)
  rw [List.nil_append, readDigits_stop rest n h] at hr
  unfold natDigits at *
  by_cases hn : n = 0
  · subst hn
    cases rest with
    | nil => rfl
    | cons c cs =>
      have hc : isDigit c = false := by
        simp only [delim, Bool.or_eq_true, decide_eq_true_eq] at h
        rcases h with (rfl | rfl) | rfl <;> rfl
      simp [digitsAux, parseNat, digitChar, hc]
  · rw [he] at hr ⊢
    have h0 : digitChar d ≠ '0' := by
      have := hz hn
      interval_cases d <;> first | omega | decide
    simp only [List.cons_append, parseNat, h0, if_false, isDigit_digitChar d hd, if_true]
    rw [← List.cons_append, hr]


theorem natDigits_head (n : Nat) :
    ∃ d cs, d < 10 ∧ natDigits n = digitChar d :: cs := by
  obtain ⟨d, cs, hd, _, he⟩ := digitsAux_head (n + 1) n [] (Nat.lt_succ_self n)
  exact ⟨d, cs, hd, he⟩

theorem digitChar_ne_minus (d : Nat) (h : d < 10) : digitChar d ≠ '-' := by
  interval_cases d <;> decide

/-- The value of a run of digits read after the value `acc`. -/
theorem readDigits_append : ∀ (ds rest : List Char) (acc : Nat),
    (∀ c ∈ ds, isDigit c = true) →
    readDigits (ds ++ rest) acc
      = readDigits rest (ds.foldl (fun a c => a * 10 + (c.toNat - 48)) acc)
  | [], _, _, _ => rfl
  | d :: ds, rest, acc, h => by
    have hd : isDigit d = true := h d (List.mem_cons_self _ _)
    simp only [List.cons_append, readDigits, hd, if_true, List.foldl_cons]
    exact readDigits_append ds rest _ (fun c hc => h c (List.mem_cons_of_mem _ hc))

/-- Reading digits stops at once in front of a character that is no digit. -/
theorem readDigits_halt (rest : List Char) (n : Nat)
    (h : ∀ c tl, rest = c :: tl → isDigit c = false) : readDigits rest n = (n, rest) := by
  cases rest with
  | nil => rfl
  | cons c cs => simp [readDigits, h c cs rfl]

/-- The characters `digitsAux` writes are digits. -/
theorem digitsAux_all (fuel : Nat) : ∀ (n : Nat) (acc : List Char),
    (∀ c ∈ acc, isDigit c = true) → ∀ c ∈ digitsAux fuel n acc, isDigit c = true := by
  induction fuel with
  | zero => intro n acc h; exact h
  | succ fuel ih =>
    intro n acc h
    unfold digitsAux
    split
    · next hn =>
      intro c hc
      rcases List.mem_cons.1 hc with rfl | hc
      · exact isDigit_digitChar n hn
      · exact h c hc
    · next hn =>
      apply ih
      intro c hc
      rcases List.mem_cons.1 hc with rfl | hc
      · exact isDigit_digitChar _ (Nat.mod_lt _ (by decide))
      · exact h c hc

/-- The characters of `natDigits` are digits. -/
theorem natDigits_all (n : Nat) : ∀ c ∈ natDigits n, isDigit c = true :=
  digitsAux_all (n + 1) n [] (fun _ h => absurd h (List.not_mem_nil _))

/-- The digits of `n` have the value `n`. -/
theorem natDigits_value (n : Nat) :
    (natDigits n).foldl (fun a c => a * 10 + (c.toNat - 48)) 0 = n := by
  have h1 := readDigits_digitsAux (n + 1) n [] [] (Nat.lt_succ_self n)
  have h2 := readDigits_append (natDigits n) [] 0 (natDigits_all n)
  unfold natDigits at h2
  rw [h1] at h2
  simp only [List.append_nil, readDigits] at h2
  exact (congrArg Prod.fst h2).symm

/-- Zeros at the end multiply the value by a power of ten. -/
theorem foldl_zeros (z acc : Nat) :
    (List.replicate z '0').foldl (fun a c => a * 10 + (c.toNat - 48)) acc = acc * 10 ^ z := by
  induction z generalizing acc with
  | zero => simp
  | succ z ih =>
    simp only [List.replicate_succ, List.foldl_cons]
    rw [ih]
    have : ('0' : Char).toNat - 48 = 0 := by decide
    rw [this, Nat.pow_succ]
    ring

/-- The characters of a run of zeros are digits. -/
theorem zeros_all (z : Nat) : ∀ c ∈ List.replicate z '0', isDigit c = true := by
  intro c hc
  rw [List.eq_of_mem_replicate hc]
  rfl

/-- A mantissa that does not end in 0 is kept, and the zeros written behind
it go to the exponent. -/
theorem ofScaled_zeros (negative : Bool) (front : Nat) (last : Fin 9) :
    ∀ (z fuel : Nat) (e : Int), z < fuel →
      JsNumber.ofScaled negative fuel ((10 * front + last.val + 1) * 10 ^ z) e
        = .nonzero negative front last (e + z) := by
  intro z
  induction z with
  | zero =>
    intro fuel e h
    obtain ⟨f, rfl⟩ : ∃ f, fuel = f + 1 := ⟨fuel - 1, by omega⟩
    have hl := last.isLt
    have h1 : ¬ (10 * front + last.val + 1) = 0 := by omega
    have h2 : ¬ (10 * front + last.val + 1) % 10 = 0 := by omega
    have h3 : (10 * front + last.val + 1) / 10 = front := by omega
    have h4 : (10 * front + last.val + 1) % 10 - 1 = last.val := by omega
    simp only [pow_zero, mul_one, JsNumber.ofScaled, h1, if_false, h2, dite_false, h3,
      Nat.cast_zero, add_zero]
    congr 1
    exact Fin.ext h4
  | succ z ih =>
    intro fuel e h
    obtain ⟨f, rfl⟩ : ∃ f, fuel = f + 1 := ⟨fuel - 1, by omega⟩
    have hpos : 0 < (10 * front + last.val + 1) * 10 ^ z := by positivity
    have h1 : ¬ (10 * front + last.val + 1) * 10 ^ (z + 1) = 0 := by
      rw [Nat.pow_succ, ← Nat.mul_assoc]; omega
    have h2 : (10 * front + last.val + 1) * 10 ^ (z + 1) % 10 = 0 := by
      rw [Nat.pow_succ, ← Nat.mul_assoc]; omega
    have h3 : (10 * front + last.val + 1) * 10 ^ (z + 1) / 10
        = (10 * front + last.val + 1) * 10 ^ z := by
      rw [Nat.pow_succ, ← Nat.mul_assoc]; omega
    simp only [JsNumber.ofScaled, h1, if_false, h2, dite_true, h3]
    rw [ih f (e + 1) (by omega)]
    congr 1
    push_cast
    ring

/-- A power of ten exceeds its exponent. -/
theorem lt_mantissa_mul_pow (m z : Nat) (hm : 0 < m) : z < m * 10 ^ z + 1 := by
  have h1 : z < 10 ^ z := Nat.lt_pow_self (by decide) z
  have h2 : 10 ^ z ≤ m * 10 ^ z := Nat.le_mul_of_pos_left _ hm
  omega

/-- What may follow a value is no digit, no point and no exponent mark. -/
theorem delim_head (rest : List Char) (h : delim rest = true) :
    ∀ c tl, rest = c :: tl →
      isDigit c = false ∧ c ≠ '.' ∧ c ≠ 'e' ∧ c ≠ 'E' := by
  intro c tl hr
  subst hr
  simp only [delim, Bool.or_eq_true, decide_eq_true_eq] at h
  rcases h with (rfl | rfl) | rfl <;> decide

/-- The integer part of a number: a run of digits that does not start with 0,
in front of a character that is no digit. -/
theorem parseNat_digits (d : Nat) (cs rest : List Char) (hd : d < 10) (h0 : d ≠ 0)
    (hall : ∀ c ∈ digitChar d :: cs, isDigit c = true)
    (hrest : ∀ c tl, rest = c :: tl → isDigit c = false) :
    parseNat (digitChar d :: cs ++ rest)
      = .ok ((digitChar d :: cs).foldl (fun a c => a * 10 + (c.toNat - 48)) 0, rest) := by
  have hz : digitChar d ≠ '0' := by
    interval_cases d <;> first | omega | decide
  have h1 := readDigits_append (digitChar d :: cs) rest 0 hall
  rw [readDigits_halt rest _ hrest] at h1
  simp only [List.cons_append, parseNat, hz, if_false, isDigit_digitChar d hd, if_true]
  rw [← List.cons_append, h1]

/-- No fraction in front of a character that is no point. -/
theorem parseFraction_none (v : Nat) (rest : List Char)
    (h : ∀ c tl, rest = c :: tl → c ≠ '.') : parseFraction v rest = .ok (v, 0, rest) := by
  cases rest with
  | nil => rfl
  | cons c cs => simp [parseFraction, h c cs rfl]

/-- A fraction: a point and a run of digits in front of a character that is no
digit. -/
theorem parseFraction_digits (v : Nat) (ds rest : List Char) (hne : ds ≠ [])
    (hall : ∀ c ∈ ds, isDigit c = true)
    (hrest : ∀ c tl, rest = c :: tl → isDigit c = false) :
    parseFraction v ('.' :: (ds ++ rest))
      = .ok (ds.foldl (fun a c => a * 10 + (c.toNat - 48)) v, ds.length, rest) := by
  have h1 := readDigits_append ds rest v hall
  rw [readDigits_halt rest _ hrest] at h1
  cases ds with
  | nil => exact absurd rfl hne
  | cons d ds =>
    have hd : isDigit d = true := hall d (List.mem_cons_self _ _)
    simp only [List.cons_append] at h1
    simp only [parseFraction, if_true, List.cons_append, hd, h1]
    simp only [List.length_cons, List.length_append, Except.ok.injEq, Prod.mk.injEq, and_true,
      true_and]
    omega

/-- No exponent in front of a character that is no exponent mark. -/
theorem parseExponent_none (rest : List Char)
    (h : ∀ c tl, rest = c :: tl → c ≠ 'e' ∧ c ≠ 'E') : parseExponent rest = .ok (0, rest) := by
  cases rest with
  | nil => rfl
  | cons c cs => simp [parseExponent, (h c cs rfl).1, (h c cs rfl).2]

/-- The exponent part that `Number::toString` writes is read back. -/
theorem parseExponent_exponentPart (e : Int) (rest : List Char) (h : delim rest = true) :
    parseExponent (exponentPart e ++ rest) = .ok (e, rest) := by
  have hrest : ∀ c tl, rest = c :: tl → isDigit c = false :=
    fun c tl hr => (delim_head rest h c tl hr).1
  obtain ⟨d, cs, hd, he⟩ := natDigits_head e.natAbs
  have h1 := readDigits_append (natDigits e.natAbs) rest 0 (natDigits_all _)
  rw [readDigits_halt rest _ hrest, natDigits_value] at h1
  have hdig : parseExponentDigits (natDigits e.natAbs ++ rest) = .ok (e.natAbs, rest) := by
    rw [he] at h1 ⊢
    simp only [List.cons_append] at h1
    simp only [List.cons_append, parseExponentDigits, isDigit_digitChar d hd, if_true, h1]
  unfold exponentPart
  by_cases hneg : e < 0
  · simp only [hneg, if_true, List.cons_append, parseExponent, true_or, hdig]
    have : -(e.natAbs : Int) = e := by omega
    rw [this]
  · have hplus : ¬ ('+' : Char) = '-' := by decide
    simp only [hneg, if_false, List.cons_append, parseExponent, true_or, if_true, hplus, hdig]
    have : (e.natAbs : Int) = e := by omega
    rw [this]


/-- The exponent part starts with the exponent mark. -/
theorem exponentPart_head (e : Int) (rest : List Char) :
    ∀ c tl, exponentPart e ++ rest = c :: tl → isDigit c = false ∧ c ≠ '.' := by
  intro c tl h
  unfold exponentPart at h
  simp only [List.cons_append, List.cons.injEq] at h
  rw [← h.1]
  decide

/-- Reading back an integer written with `z` zeros behind its digits. -/
theorem parseDecimal_integer (d : Nat) (cs rest : List Char) (z M : Nat)
    (hd : d < 10) (h0 : d ≠ 0) (hall : ∀ c ∈ digitChar d :: cs, isDigit c = true)
    (hval : (digitChar d :: cs).foldl (fun a c => a * 10 + (c.toNat - 48)) 0 = M)
    (h : delim rest = true) :
    parseDecimal ((digitChar d :: cs) ++ List.replicate z '0' ++ rest)
      = .ok (M * 10 ^ z, 0, rest) := by
  have hall2 : ∀ c ∈ digitChar d :: (cs ++ List.replicate z '0'), isDigit c = true := by
    intro c hc
    rw [← List.cons_append] at hc
    rcases List.mem_append.1 hc with hc | hc
    · exact hall c hc
    · exact zeros_all _ c hc
  have hp := parseNat_digits d (cs ++ List.replicate z '0') rest hd h0 hall2
    (fun c tl hr => (delim_head rest h c tl hr).1)
  rw [← List.cons_append, List.foldl_append, hval, foldl_zeros] at hp
  simp only [parseDecimal, hp,
    parseFraction_none _ rest (fun c tl hr => (delim_head rest h c tl hr).2.1),
    parseExponent_none rest (fun c tl hr => (delim_head rest h c tl hr).2.2)]
  simp

/-- Reading back a number written with the point among its digits. -/
theorem parseDecimal_point (d : Nat) (cs rest : List Char) (j M : Nat)
    (hd : d < 10) (h0 : d ≠ 0) (hall : ∀ c ∈ digitChar d :: cs, isDigit c = true)
    (hval : (digitChar d :: cs).foldl (fun a c => a * 10 + (c.toNat - 48)) 0 = M)
    (hj : j < cs.length) (h : delim rest = true) :
    parseDecimal ((digitChar d :: cs).take (j + 1) ++ '.' :: (digitChar d :: cs).drop (j + 1)
        ++ rest)
      = .ok (M, -((cs.length - j : Nat) : Int), rest) := by
  have hnd : ∀ c tl, rest = c :: tl → isDigit c = false :=
    fun c tl hr => (delim_head rest h c tl hr).1
  have hall1 : ∀ c ∈ digitChar d :: cs.take j, isDigit c = true := by
    intro c hc
    rcases List.mem_cons.1 hc with rfl | hc
    · exact hall _ (List.mem_cons_self _ _)
    · exact hall c (List.mem_cons_of_mem _ (List.mem_of_mem_take hc))
  have hall2 : ∀ c ∈ cs.drop j, isDigit c = true :=
    fun c hc => hall c (List.mem_cons_of_mem _ (List.mem_of_mem_drop hc))
  have hne : cs.drop j ≠ [] := by
    intro hnil
    have := congrArg List.length hnil
    simp at this
    omega
  have hp := parseNat_digits d (cs.take j) ('.' :: (cs.drop j ++ rest)) hd h0 hall1
    (by intro c tl hr; cases hr; decide)
  have hf := parseFraction_digits
    ((digitChar d :: cs.take j).foldl (fun a c => a * 10 + (c.toNat - 48)) 0)
    (cs.drop j) rest hne hall2 hnd
  have hfold : (cs.drop j).foldl (fun a c => a * 10 + (c.toNat - 48))
      ((digitChar d :: cs.take j).foldl (fun a c => a * 10 + (c.toNat - 48)) 0) = M := by
    rw [← List.foldl_append, List.cons_append, List.take_append_drop]
    exact hval
  rw [hfold] at hf
  simp only [List.take_succ_cons, List.drop_succ_cons, List.append_assoc, List.cons_append]
  simp only [List.cons_append] at hp
  simp only [parseDecimal, hp, hf,
    parseExponent_none rest (fun c tl hr => (delim_head rest h c tl hr).2.2)]
  simp

/-- Reading back a number below one written in point notation. -/
theorem parseDecimal_small (s rest : List Char) (z M : Nat) (hne : s ≠ [])
    (hall : ∀ c ∈ s, isDigit c = true)
    (hval : s.foldl (fun a c => a * 10 + (c.toNat - 48)) 0 = M)
    (h : delim rest = true) :
    parseDecimal ('0' :: '.' :: (List.replicate z '0' ++ s) ++ rest)
      = .ok (M, -((z + s.length : Nat) : Int), rest) := by
  have hnd : ∀ c tl, rest = c :: tl → isDigit c = false :=
    fun c tl hr => (delim_head rest h c tl hr).1
  have hall2 : ∀ c ∈ List.replicate z '0' ++ s, isDigit c = true := by
    intro c hc
    rcases List.mem_append.1 hc with hc | hc
    · exact zeros_all _ c hc
    · exact hall c hc
  have hne2 : List.replicate z '0' ++ s ≠ [] := by simp [hne]
  have hf := parseFraction_digits 0 (List.replicate z '0' ++ s) rest hne2 hall2 hnd
  rw [List.foldl_append, foldl_zeros, Nat.zero_mul, hval] at hf
  have hp : parseNat ('0' :: '.' :: (List.replicate z '0' ++ s ++ rest))
      = .ok (0, '.' :: (List.replicate z '0' ++ s ++ rest)) := by
    simp [parseNat, isDigit]
  simp only [List.cons_append]
  simp only [parseDecimal, hp, hf,
    parseExponent_none rest (fun c tl hr => (delim_head rest h c tl hr).2.2)]
  simp

/-- Reading back a number of one digit written in scientific notation. -/
theorem parseDecimal_scientific_one (d : Nat) (rest : List Char) (e : Int) (M : Nat)
    (hd : d < 10) (h0 : d ≠ 0)
    (hval : [digitChar d].foldl (fun a c => a * 10 + (c.toNat - 48)) 0 = M)
    (h : delim rest = true) :
    parseDecimal ([digitChar d] ++ exponentPart e ++ rest) = .ok (M, e, rest) := by
  have hp := parseNat_digits d [] (exponentPart e ++ rest) hd h0
    (by intro c hc; rw [List.mem_singleton.1 hc]; exact isDigit_digitChar d hd)
    (fun c tl hr => (exponentPart_head e rest c tl hr).1)
  rw [hval] at hp
  simp only [List.append_assoc]
  simp only [parseDecimal, hp,
    parseFraction_none _ _ (fun c tl hr => (exponentPart_head e rest c tl hr).2),
    parseExponent_exponentPart e rest h]
  simp

/-- Reading back a number of several digits written in scientific notation. -/
theorem parseDecimal_scientific (d : Nat) (cs rest : List Char) (e : Int) (M : Nat)
    (hd : d < 10) (h0 : d ≠ 0) (hall : ∀ c ∈ digitChar d :: cs, isDigit c = true)
    (hval : (digitChar d :: cs).foldl (fun a c => a * 10 + (c.toNat - 48)) 0 = M)
    (hcs : cs ≠ []) (h : delim rest = true) :
    parseDecimal ((digitChar d :: cs).take 1 ++ '.' :: ((digitChar d :: cs).drop 1
        ++ exponentPart e) ++ rest)
      = .ok (M, e - (cs.length : Nat), rest) := by
  have hall2 : ∀ c ∈ cs, isDigit c = true := fun c hc => hall c (List.mem_cons_of_mem _ hc)
  have hp := parseNat_digits d [] ('.' :: (cs ++ (exponentPart e ++ rest))) hd h0
    (by intro c hc; rw [List.mem_singleton.1 hc]; exact isDigit_digitChar d hd)
    (by intro c tl hr; cases hr; decide)
  have hf := parseFraction_digits
    ([digitChar d].foldl (fun a c => a * 10 + (c.toNat - 48)) 0) cs (exponentPart e ++ rest)
    hcs hall2 (fun c tl hr => (exponentPart_head e rest c tl hr).1)
  have hfold : cs.foldl (fun a c => a * 10 + (c.toNat - 48))
      ([digitChar d].foldl (fun a c => a * 10 + (c.toNat - 48)) 0) = M := by
    rw [← List.foldl_append]
    exact hval
  rw [hfold] at hf
  simp only [List.take_succ_cons, List.take_zero, List.drop_succ_cons, List.drop_zero,
    List.append_assoc, List.cons_append, List.nil_append]
  simp only [List.cons_append, List.nil_append] at hp
  simp only [parseDecimal, hp, hf, parseExponent_exponentPart e rest h]

/-- The text `Number::toString` writes for the digits of a mantissa and the
position of the point is read back as a mantissa and an exponent of the same
number. -/
theorem parseDecimal_pointNotation (front : Nat) (last : Fin 9) (exponent : Int)
    (rest : List Char) (h : delim rest = true) :
    ∃ m e, parseDecimal (pointNotation (natDigits (10 * front + last.val + 1))
        ((natDigits (10 * front + last.val + 1)).length + exponent) ++ rest)
        = .ok (m, e, rest) ∧
      ∀ negative, JsNumber.ofScaled negative (m + 1) m e
        = .nonzero negative front last exponent := by
  obtain ⟨d, cs, hd, hz, hs⟩ := digitsAux_head (10 * front + last.val + 1 + 1)
    (10 * front + last.val + 1) [] (Nat.lt_succ_self _)
  have hd0 : d ≠ 0 := hz (by omega)
  have hall := natDigits_all (10 * front + last.val + 1)
  have hval := natDigits_value (10 * front + last.val + 1)
  have hself : ∀ negative e, JsNumber.ofScaled negative (10 * front + last.val + 1 + 1)
      (10 * front + last.val + 1) e = .nonzero negative front last e := by
    intro negative e
    have := ofScaled_zeros negative front last 0 (10 * front + last.val + 1 + 1) e (by omega)
    simpa using this
  change natDigits (10 * front + last.val + 1) = digitChar d :: cs at hs
  rw [hs] at hall hval ⊢
  unfold pointNotation
  split_ifs with c1 c2 c3 c4
  · have hz1 : (((digitChar d :: cs).length : Int) + exponent).toNat - (digitChar d :: cs).length
        = exponent.toNat := by omega
    have hex : (exponent.toNat : Int) = exponent := by omega
    rw [hz1]
    refine ⟨_, _, parseDecimal_integer d cs rest exponent.toNat _ hd hd0 hall hval h, ?_⟩
    intro negative
    rw [ofScaled_zeros negative front last exponent.toNat _ 0
      (lt_mantissa_mul_pow _ _ (by omega)), hex]
    simp
  · obtain ⟨j, hj⟩ : ∃ j, (((digitChar d :: cs).length : Int) + exponent).toNat = j + 1 :=
      ⟨(((digitChar d :: cs).length : Int) + exponent).toNat - 1, by omega⟩
    have hjlt : j < cs.length := by
      simp only [List.length_cons] at c1 c2 hj
      push_cast at c1 c2 hj
      omega
    rw [hj]
    refine ⟨_, _, parseDecimal_point d cs rest j _ hd hd0 hall hval hjlt h, ?_⟩
    intro negative
    rw [hself]
    congr 1
    simp only [List.length_cons] at hj
    push_cast at hj
    omega
  · refine ⟨_, _, parseDecimal_small (digitChar d :: cs) rest _ _ (by simp) hall hval h, ?_⟩
    intro negative
    rw [hself]
    congr 1
    simp only [List.length_cons] at c3 ⊢
    push_cast at c3 ⊢
    omega
  · have hcs : cs = [] := by
      simp only [List.length_cons, Nat.add_eq_right, List.length_eq_zero] at c4
      exact c4
    subst hcs
    refine ⟨_, _, parseDecimal_scientific_one d rest _ _ hd hd0 hval h, ?_⟩
    intro negative
    rw [hself]
    congr 1
    simp
  · have hcs : cs ≠ [] := by
      intro hnil
      apply c4
      simp [hnil]
    refine ⟨_, _, parseDecimal_scientific d cs rest _ _ hd hd0 hall hval hcs h, ?_⟩
    intro negative
    rw [hself]
    congr 1
    simp only [List.length_cons]
    push_cast
    omega

/-- The first character of the text of a number: a digit or the minus sign. -/
theorem numberToString_head (x : JsNumber) :
    ∃ c tl, numberToString x = c :: tl ∧ (c = '-' ∨ ∃ d, d < 10 ∧ c = digitChar d) := by
  cases x with
  | zero => exact ⟨'0', [], rfl, Or.inr ⟨0, by decide, rfl⟩⟩
  | nonzero negative front last exponent =>
    cases negative with
    | true => exact ⟨'-', _, rfl, Or.inl rfl⟩
    | false =>
      obtain ⟨d, cs, hd, hs⟩ := natDigits_head (10 * front + last.val + 1)
      simp only [numberToString, Bool.false_eq_true, if_false, List.nil_append, hs, pointNotation]
      split_ifs
      · exact ⟨_, _, rfl, Or.inr ⟨d, hd, rfl⟩⟩
      · obtain ⟨j, hj⟩ : ∃ j, (((digitChar d :: cs).length : Int) + exponent).toNat = j + 1 :=
          ⟨(((digitChar d :: cs).length : Int) + exponent).toNat - 1, by omega⟩
        rw [hj]
        exact ⟨_, _, rfl, Or.inr ⟨d, hd, rfl⟩⟩
      · exact ⟨_, _, rfl, Or.inr ⟨0, by decide, rfl⟩⟩
      · exact ⟨_, _, rfl, Or.inr ⟨d, hd, rfl⟩⟩
      · exact ⟨_, _, rfl, Or.inr ⟨d, hd, rfl⟩⟩

/-- The text `Number::toString` writes for a number is read back as that
number. -/
theorem parseNumber_numberToString (x : JsNumber) (rest : List Char) (h : delim rest = true) :
    parseNumber (numberToString x ++ rest) = .ok (.num x, rest) := by
  cases x with
  | zero =>
    have hp : parseNat ('0' :: rest) = .ok (0, rest) := by
      cases rest with
      | nil => rfl
      | cons c cs => simp [parseNat, (delim_head _ h c cs rfl).1]
    simp only [numberToString, List.cons_append, List.nil_append, parseNumber, parseDecimal]
    have hm : ¬ ('0' : Char) = '-' := by decide
    simp only [hm, if_false, hp,
      parseFraction_none _ rest (fun c tl hr => (delim_head rest h c tl hr).2.1),
      parseExponent_none rest (fun c tl hr => (delim_head rest h c tl hr).2.2)]
    rfl
  | nonzero negative front last exponent =>
    obtain ⟨m, e, hp, hn⟩ := parseDecimal_pointNotation front last exponent rest h
    cases negative with
    | true =>
      simp only [numberToString, if_true, List.cons_append, List.nil_append, parseNumber, hp]
      rw [← hn true]
      simp
    | false =>
      obtain ⟨c, tl, hc, hcd⟩ := numberToString_head (.nonzero false front last exponent)
      have hcm : c ≠ '-' := by
        rcases hcd with hcd | ⟨d, hd, rfl⟩
        · exfalso
          subst hcd
          obtain ⟨d, cs, hd, hs⟩ := natDigits_head (10 * front + last.val + 1)
          simp only [numberToString, Bool.false_eq_true, if_false, List.nil_append, hs,
            pointNotation] at hc
          split_ifs at hc
          · exact digitChar_ne_minus d hd (List.cons.inj hc).1
          · obtain ⟨j, hj⟩ :
                ∃ j, (((digitChar d :: cs).length : Int) + exponent).toNat = j + 1 :=
              ⟨(((digitChar d :: cs).length : Int) + exponent).toNat - 1, by omega⟩
            rw [hj] at hc
            exact digitChar_ne_minus d hd (List.cons.inj hc).1
          · exact absurd (List.cons.inj hc).1 (by decide)
          · exact digitChar_ne_minus d hd (List.cons.inj hc).1
          · exact digitChar_ne_minus d hd (List.cons.inj hc).1
        · exact digitChar_ne_minus d hd
      have hp2 : parseDecimal (c :: tl ++ rest) = .ok (m, e, rest) := by
        rw [← hc]
        simpa [numberToString] using hp
      simp only [hc, List.cons_append, parseNumber, hcm, if_false]
      simp only [List.cons_append] at hp2
      rw [hp2, ← hn false]
      simp [hcm]

theorem parseEscape_control (n : Nat) (h : n < 32) (more : List Char) :
    parseEscape ('u' :: '0' :: '0' :: hexChar (n / 16) :: hexChar (n % 16) :: more)
      = .ok (Char.ofNat n, more) := by
  interval_cases n <;> rfl

theorem parseChars_escapeChar (c : Char) (more : List Char) (fuel : Nat) :
    parseChars (fuel + 1) (escapeChar c ++ more)
      = match parseChars fuel more with
        | .error e => .error e
        | .ok (s, r) => .ok (c :: s, r) := by
  unfold escapeChar
  split_ifs with h1 h2 h3 h4 h5 h6 h7 h8
  · subst h1; rfl
  · subst h2; rfl
  · subst h3; rfl
  · subst h4; rfl
  · subst h5; rfl
  · subst h6; rfl
  · subst h7; rfl
  · have hc : Char.ofNat c.toNat = c := Char.ofNat_toNat c
    have := parseEscape_control c.toNat h8 more
    rw [hc] at this
    simp [parseChars, this]
  · simp [parseChars, h1, h2, h8]


theorem escapeChar_length_pos (c : Char) : 1 ≤ (escapeChar c).length := by
  unfold escapeChar
  split_ifs <;> simp

theorem parseChars_escapeChars : ∀ (s : List Char) (rest : List Char) (fuel : Nat),
    (escapeChars s).length < fuel →
    parseChars fuel (escapeChars s ++ '"' :: rest) = .ok (s, rest) := by
  intro s
  induction s with
  | nil =>
    intro rest fuel h
    cases fuel with
    | zero => simp at h
    | succ fuel => simp [escapeChars, parseChars]
  | cons c cs ih =>
    intro rest fuel h
    cases fuel with
    | zero => simp at h
    | succ fuel =>
      have hl := escapeChar_length_pos c
      simp only [escapeChars, List.length_append] at h
      simp only [escapeChars, List.append_assoc]
      rw [parseChars_escapeChar, ih rest fuel (by omega)]

theorem parseChars_quote (s : String) (rest : List Char) (fuel : Nat)
    (h : (quote s).length ≤ fuel + 1) :
    ∃ tl, quote s ++ rest = '"' :: tl ∧ parseChars fuel tl = .ok (s.data, rest) := by
  refine ⟨escapeChars s.data ++ '"' :: rest, by simp [quote], ?_⟩
  apply parseChars_escapeChars
  simp [quote] at h
  omega

theorem Starts.notWs {c : Char} (h : Starts c) : isWs c = false ∧ c ≠ ']' ∧ c ≠ '}' := by
  cases h with
  | d k hk => interval_cases k <;> decide
  | _ => decide

theorem ser_head (x : Json) : ∃ c tl, ser x = c :: tl ∧ Starts c := by
  cases x with
  | null => exact ⟨_, _, rfl, .n⟩
  | bool b => cases b; exact ⟨_, _, rfl, .f⟩; exact ⟨_, _, rfl, .t⟩
  | num n =>
    obtain ⟨c, tl, he, hc⟩ := numberToString_head n
    refine ⟨c, tl, by simp only [ser, he], ?_⟩
    rcases hc with rfl | ⟨d, hd, rfl⟩
    · exact .m
    · exact .d d hd
  | str s => exact ⟨_, _, rfl, .q⟩
  | arr xs => exact ⟨'[', serElems xs, by simp only [ser], .a⟩
  | obj kvs => exact ⟨'{', serMembers kvs, by simp only [ser], .o⟩

theorem skipWs_ser (x : Json) (rest : List Char) : skipWs (ser x ++ rest) = ser x ++ rest := by
  obtain ⟨c, tl, he, hs⟩ := ser_head x
  rw [he]
  simp [skipWs, hs.notWs.1]

theorem skipWs_delim (rest : List Char) (h : delim rest = true) : skipWs rest = rest := by
  cases rest with
  | nil => rfl
  | cons c cs =>
    simp only [delim, Bool.or_eq_true, decide_eq_true_eq] at h
    rcases h with (rfl | rfl) | rfl <;> rfl


theorem delim_serElemsTail (xs : List Json) (rest : List Char) :
    delim (serElemsTail xs ++ rest) = true := by
  cases xs <;> simp [serElemsTail, delim]

theorem delim_serMembersTail (kvs : List (String × Json)) (rest : List Char) :
    delim (serMembersTail kvs ++ rest) = true := by
  cases kvs with
  | nil => simp [serMembersTail, delim]
  | cons kv kvs => obtain ⟨k, x⟩ := kv; simp [serMembersTail, delim]

theorem parseValue_number (c : Char) (tl : List Char) (fuel : Nat)
    (h : c = '-' ∨ ∃ d, d < 10 ∧ c = digitChar d) :
    parseValue (fuel + 1) (c :: tl) = parseNumber (c :: tl) := by
  rcases h with rfl | ⟨d, hd, rfl⟩
  · rfl
  · interval_cases d <;> rfl

theorem parseValue_arr (c : Char) (tl : List Char) (fuel : Nat)
    (hws : isWs c = false) (hc : c ≠ ']') :
    parseValue (fuel + 1) ('[' :: c :: tl)
      = match parseElems fuel (c :: tl) with
        | .error e => .error e
        | .ok (xs, r1) => .ok (.arr xs, r1) := by
  have hs : skipWs (c :: tl) = c :: tl := by simp [skipWs, hws]
  simp only [parseValue, skipWs, isWs]
  simp
  rw [hs]
  split
  · next r heq => cases heq; exact absurd rfl hc
  · rfl

theorem parseValue_obj (c : Char) (tl : List Char) (fuel : Nat)
    (hws : isWs c = false) (hc : c ≠ '}') :
    parseValue (fuel + 1) ('{' :: c :: tl)
      = match parseMembers fuel (c :: tl) with
        | .error e => .error e
        | .ok (kvs, r1) => .ok (.obj kvs, r1) := by
  have hs : skipWs (c :: tl) = c :: tl := by simp [skipWs, hws]
  simp only [parseValue, skipWs, isWs]
  simp
  rw [hs]
  split
  · next r heq => cases heq; exact absurd rfl hc
  · rfl

theorem parseElems_step (fuel : Nat) (cs : List Char) (x : Json) (xs : List Json)
    (rest : List Char)
    (hv : parseValue fuel cs = .ok (x, serElemsTail xs ++ rest))
    (hrec : ∀ y ys, xs = y :: ys →
      parseElems fuel (ser y ++ serElemsTail ys ++ rest) = .ok (y :: ys, rest)) :
    parseElems (fuel + 1) cs = .ok (x :: xs, rest) := by
  cases xs with
  | nil => simp [parseElems, hv, serElemsTail, skipWs, isWs]
  | cons y ys =>
    have := hrec y ys rfl
    simp only [List.append_assoc] at this
    simp [parseElems, hv, serElemsTail, skipWs, isWs, this]

theorem parseMembers_step (fuel : Nat) (k : String) (tl : List Char) (x : Json)
    (kvs : List (String × Json)) (rest r1 : List Char)
    (hk : parseChars fuel tl = .ok (k.data, ':' :: r1))
    (hv : parseValue fuel r1 = .ok (x, serMembersTail kvs ++ rest))
    (hrec : ∀ k1 y ys, kvs = (k1, y) :: ys →
      parseMembers fuel (quote k1 ++ ':' :: (ser y ++ serMembersTail ys) ++ rest)
        = .ok ((k1, y) :: ys, rest)) :
    parseMembers (fuel + 1) ('"' :: tl) = .ok ((k, x) :: kvs, rest) := by
  cases kvs with
  | nil => simp [parseMembers, hk, hv, serMembersTail, skipWs, isWs]
  | cons kv ys =>
    obtain ⟨k1, y⟩ := kv
    have := hrec k1 y ys rfl
    simp only [List.append_assoc, List.cons_append] at this
    simp [parseMembers, hk, hv, serMembersTail, skipWs, isWs, this]


theorem serElemsTail_length_pos (xs : List Json) : 1 ≤ (serElemsTail xs).length := by
  cases xs <;> simp [serElemsTail]

theorem serMembersTail_length_pos (kvs : List (String × Json)) :
    1 ≤ (serMembersTail kvs).length := by
  cases kvs with
  | nil => simp [serMembersTail]
  | cons kv kvs => obtain ⟨k, x⟩ := kv; simp [serMembersTail]

theorem parseValue_ser_aux (fuel : Nat) :
    (∀ (x : Json) (rest : List Char), delim rest = true → (ser x).length < fuel →
      parseValue fuel (ser x ++ rest) = .ok (x, rest)) ∧
    (∀ (x : Json) (xs : List Json) (rest : List Char),
      (ser x ++ serElemsTail xs).length < fuel →
      parseElems fuel (ser x ++ serElemsTail xs ++ rest) = .ok (x :: xs, rest)) ∧
    (∀ (k : String) (x : Json) (kvs : List (String × Json)) (rest : List Char),
      (quote k ++ ':' :: (ser x ++ serMembersTail kvs)).length < fuel →
      parseMembers fuel (quote k ++ ':' :: (ser x ++ serMembersTail kvs) ++ rest)
        = .ok ((k, x) :: kvs, rest)) := by
  induction fuel with
  | zero => exact ⟨fun _ _ _ h => by omega, fun _ _ _ h => by omega, fun _ _ _ _ h => by omega⟩
  | succ fuel ih =>
    obtain ⟨ihV, ihE, ihM⟩ := ih
    refine ⟨?_, ?_, ?_⟩
    · intro x rest hd hl
      cases x with
      | null => simp [ser, parseValue, skipWs, isWs, expect]
      | bool b => cases b <;> simp [ser, parseValue, skipWs, isWs, expect]
      | num n =>
        have hp := parseNumber_numberToString n rest hd
        obtain ⟨c, tl, he, hc⟩ := numberToString_head n
        simp only [ser]
        rw [he] at hp ⊢
        rw [List.cons_append, parseValue_number c _ fuel hc]
        exact hp
      | str s =>
        have hb : (escapeChars s.data).length < fuel := by
          simp [ser, quote] at hl
          omega
        have := parseChars_escapeChars s.data rest fuel hb
        simp [ser, quote, parseValue, skipWs, isWs, this]
      | arr xs =>
        cases xs with
        | nil => simp [ser, serElems, parseValue, skipWs, isWs]
        | cons x xs =>
          obtain ⟨c, tl, he, hs⟩ := ser_head x
          have hrec := ihE x xs rest (by simp [ser, serElems] at hl; simp; omega)
          simp only [ser, serElems]
          rw [he] at hrec ⊢
          simp only [List.cons_append] at hrec ⊢
          rw [parseValue_arr c _ fuel hs.notWs.1 hs.notWs.2.1, hrec]
      | obj kvs =>
        cases kvs with
        | nil => simp [ser, serMembers, parseValue, skipWs, isWs]
        | cons kv kvs =>
          obtain ⟨k, x⟩ := kv
          have hrec := ihM k x kvs rest (by simp [ser, serMembers] at hl; simp; omega)
          simp only [ser, serMembers]
          simp only [quote, List.cons_append] at hrec ⊢
          rw [parseValue_obj '"' _ fuel (by decide) (by decide), hrec]
    · intro x xs rest hl
      rw [List.append_assoc]
      apply parseElems_step
      · apply ihV x _ (delim_serElemsTail xs rest)
        have := serElemsTail_length_pos xs
        simp at hl; omega
      · intro y ys hxs
        subst hxs
        apply ihE
        simp [serElemsTail] at hl ⊢
        omega
    · intro k x kvs rest hl
      have hq : (escapeChars k.data).length < fuel := by
        simp [quote] at hl; omega
      have hk := parseChars_escapeChars k.data
        (':' :: (ser x ++ serMembersTail kvs ++ rest)) fuel hq
      have hgoal : quote k ++ ':' :: (ser x ++ serMembersTail kvs) ++ rest
          = '"' :: (escapeChars k.data ++ '"' :: ':' :: (ser x ++ serMembersTail kvs ++ rest)) := by
        simp [quote]
      rw [hgoal]
      apply parseMembers_step fuel k _ x kvs rest _ hk
      · rw [List.append_assoc]
        apply ihV x _ (delim_serMembersTail kvs rest)
        have := serMembersTail_length_pos kvs
        simp at hl; omega
      · intro k1 y ys hkvs
        subst hkvs
        apply ihM
        simp [serMembersTail] at hl ⊢
        omega

/-- Parsing the serialization of `x` gives `x` back. -/
theorem parse_stringify (x : Json) : JSON.parse (JSON.stringify x) = .ok x := by
  have h := (parseValue_ser_aux ((ser x).length + 1)).1 x [] rfl (Nat.lt_succ_self _)
  rw [List.append_nil] at h
  simp [JSON.parse, JSON.stringify, h, skipWs]

/-- The numbers of JSON texts are read exactly: a fraction and an exponent are
part of the value, `290.10` and `290.1` are the same number, `-0` is `0`, and
a text that breaks the number grammar is a `SyntaxError`. -/
theorem parse_number_samples :
    JSON.parse "150.25" = .ok (.num 150.25) ∧
    JSON.parse "290.10" = .ok (.num 290.1) ∧
    JSON.parse "1E+2" = .ok (.num 100) ∧
    JSON.parse "25e-1" = .ok (.num 2.5) ∧
    JSON.parse "-0" = .ok (.num 0) ∧
    JSON.parse "1." = .error .syntaxError ∧
    JSON.parse ".5" = .error .syntaxError ∧
    JSON.parse "01" = .error .syntaxError ∧
    JSON.parse "1e" = .error .syntaxError :=
  ⟨rfl, rfl, rfl, rfl, rfl, rfl, rfl, rfl, rfl⟩

/-- The numbers are written as `Number::toString` writes them: in point
notation up to 21 digits before the point and down to six zeros behind it,
with an exponent beyond. -/
theorem stringify_number_samples :
    JSON.stringify (.num 150.25) = "150.25" ∧
    JSON.stringify (.num 290.10) = "290.1" ∧
    JSON.stringify (.num 72) = "72" ∧
    JSON.stringify (.num 123456789012345680000) = "123456789012345680000" ∧
    JSON.stringify (.num 1e21) = "1e+21" ∧
    JSON.stringify (.num 0.000001) = "0.000001" ∧
    JSON.stringify (.num 1e-7) = "1e-7" ∧
    JSON.stringify (.num 1.5e-7) = "1.5e-7" := by
  refine ⟨by decide, by decide, by decide, by decide, by decide, by decide, by decide, by decide⟩

/-- The payload of the stock prices of the tests and its JSON text. -/
theorem stringify_stocksInitial :
    JSON.stringify stocksInitial
      = "\x7b\"stocks\":[\x7b\"symbol\":\"AAPL\",\"price\":150.25\x7d,\x7b\"symbol\":\"MSFT\",\"price\":290.1\x7d],\"lastUpdated\":\"2023-01-01T12:00:00Z\"\x7d" ∧
    JSON.parse (JSON.stringify stocksInitial) = .ok stocksInitial := by
  refine ⟨by decide, rfl⟩

/-- The serialization of a value is never the empty string. -/
theorem stringify_ne_empty (x : Json) : JSON.stringify x ≠ "" := by
  obtain ⟨c, tl, he, _⟩ := ser_head x
  intro h
  have : (JSON.stringify x).data = "".data := by rw [h]
  simp [JSON.stringify, he] at this

/-- A serialized value is a truthy string. -/
theorem truthy_stringify (x : Json) : truthy (.str (JSON.stringify x)) = true := by
  simp [truthy, stringify_ne_empty x]

/-- The detector on a previous value that needs no parsing. -/
theorem detectChanges_structured (Y X : Json) (ht : truthy X = true) (hs : ∀ s, X ≠ .str s) :
    detectChanges Y X =
      if JSON.stringify Y ≠ JSON.stringify X then .ok (some { type := .update, data := Y })
      else .ok none := by
  cases X with
  | str s => exact absurd rfl (hs s)
  | null => simp [truthy] at ht
  | bool b => simp [detectChanges, ht]
  | num n => simp [detectChanges, ht]
  | arr xs => simp [detectChanges, ht]
  | obj kvs => simp [detectChanges, ht]

/-- The detector on a previous value given as serialized text. -/
theorem detectChanges_serialized (Y X : Json) :
    detectChanges Y (.str (JSON.stringify X)) =
      if JSON.stringify Y ≠ JSON.stringify X then .ok (some { type := .update, data := Y })
      else .ok none := by
  simp [detectChanges, truthy_stringify X, parse_stringify X]

/-! ## The change detector -/

/-- C1: with no previous snapshot (`null`), `detectChanges` returns exactly
`{type: 'initial', data: X}`, for every current payload `X`. -/
theorem detectChanges_initial (X : Json) :
    detectChanges X .null = .ok (some { type := .initial, data := X }) := rfl

/-- C2: a payload compared against its own serialized string is never reported
as a change: `detectChanges(X, JSON.stringify(X))` is `null`. -/
theorem detectChanges_own_serialization (X : Json) :
    detectChanges X (.str (JSON.stringify X)) = .ok none := by
  rw [detectChanges_serialized]
  simp

/-- C3: when the serializations of `X` and `Y` differ,
`detectChanges(Y, JSON.stringify(X))` is exactly `{type: 'update', data: Y}`. -/
theorem detectChanges_update (X Y : Json) (h : JSON.stringify X ≠ JSON.stringify Y) :
    detectChanges Y (.str (JSON.stringify X)) = .ok (some { type := .update, data := Y }) := by
  rw [detectChanges_serialized]
  simp [Ne.symm h]

/-- C3 at the payloads of the test CHANGE-003: the stock prices 150.25 and
290.10 before, 152.75 and 288.30 now. -/
theorem detectChanges_update_witness :
    JSON.stringify stocksInitial ≠ JSON.stringify stocksUpdated ∧
    detectChanges stocksUpdated (.str (JSON.stringify stocksInitial))
      = .ok (some { type := .update, data := stocksUpdated }) :=
  ⟨by decide, detectChanges_update _ _ (by decide)⟩

/-- C4 as stated fails at `X = null`: a `null` previous value counts as absent,
so `detectChanges(null, null)` is `{type: 'initial', data: null}`, not `null`.
The other falsy values go the same way, and a string previous value is parsed:
`detectChanges("hello", "hello")` throws a `SyntaxError`. -/
theorem detectChanges_null_null :
    detectChanges .null .null = .ok (some { type := .initial, data := .null }) ∧
    detectChanges .null .null ≠ .ok none ∧
    detectChanges (.bool false) (.bool false)
      = .ok (some { type := .initial, data := .bool false }) ∧
    detectChanges (.num 0) (.num 0) = .ok (some { type := .initial, data := .num 0 }) ∧
    detectChanges (.str "") (.str "") = .ok (some { type := .initial, data := .str "" }) ∧
    detectChanges (.str "hello") (.str "hello") = .error .syntaxError :=
  ⟨rfl, by simp [detectChanges, truthy], rfl, rfl, rfl, rfl⟩

/-- C4 amended: for every truthy payload `X` that is not a string (an object,
an array, a non-zero number, `true`), `detectChanges(X, X)` is `null`. -/
theorem detectChanges_same_structured (X : Json) (ht : truthy X = true)
    (hs : ∀ s, X ≠ .str s) : detectChanges X X = .ok none := by
  rw [detectChanges_structured X X ht hs]
  simp

/-- C4 amended at the payload `{"stocks":[1,2]}`. -/
theorem detectChanges_same_structured_witness :
    truthy (.obj [("stocks", .arr [.num 1, .num 2])]) = true ∧
    (∀ s, Json.obj [("stocks", .arr [.num 1, .num 2])] ≠ .str s) ∧
    detectChanges (.obj [("stocks", .arr [.num 1, .num 2])])
      (.obj [("stocks", .arr [.num 1, .num 2])]) = .ok none :=
  ⟨rfl, fun _ h => Json.noConfusion h,
    detectChanges_same_structured _ rfl (fun _ h => Json.noConfusion h)⟩

/-- C5 as stated fails at `X = Y = null`: against the string `"null"` the
detector reports no change, against the value `null` it reports `initial`.
It fails for a string `X` as well: against the serialized `"hello"` the
detector reports no change, against the string `hello` itself it throws. -/
theorem detectChanges_null_string_vs_value :
    detectChanges .null (.str (JSON.stringify .null)) = .ok none ∧
    detectChanges .null .null = .ok (some { type := .initial, data := .null }) ∧
    detectChanges .null (.str (JSON.stringify .null)) ≠ detectChanges .null .null ∧
    detectChanges (.str "hello") (.str (JSON.stringify (.str "hello"))) = .ok none ∧
    detectChanges (.str "hello") (.str "hello") = .error .syntaxError :=
  ⟨rfl, rfl, by simp [detectChanges, truthy, JSON.stringify, ser, JSON.parse, parseValue,
    skipWs, isWs, expect], rfl, rfl⟩

/-- C5 amended: for every truthy previous payload `X` that is not a string and
every current payload `Y`, `detectChanges(Y, JSON.stringify(X))` equals
`detectChanges(Y, X)`. -/
theorem detectChanges_string_eq_structured (X Y : Json) (ht : truthy X = true)
    (hs : ∀ s, X ≠ .str s) :
    detectChanges Y (.str (JSON.stringify X)) = detectChanges Y X := by
  rw [detectChanges_serialized, detectChanges_structured Y X ht hs]

/-- C5 amended at the payloads of the test CHANGE-004: the stock prices 150.25
and 290.10 as the previous value, 152.75 and 288.30 as the current one. -/
theorem detectChanges_string_eq_structured_witness :
    truthy stocksInitial = true ∧
    (∀ s, stocksInitial ≠ .str s) ∧
    detectChanges stocksUpdated (.str (JSON.stringify stocksInitial))
      = detectChanges stocksUpdated stocksInitial :=
  ⟨rfl, fun _ h => Json.noConfusion h,
    detectChanges_string_eq_structured _ _ rfl (fun _ h => Json.noConfusion h)⟩

/-! ## The per-source pipeline -/

/-- The ways a run of `monitorSource` can go: the fetch fails, the query
fails, no change is reported, or a change is reported and the `put`, the
`send` or the `lastUpdated` update is the first call to fail, if any. -/
theorem monitorSource_cases (env : PollEnv) (source : Source) (w : World) :
    (∃ e, env.fetched = .error e ∧
      monitorSource env source w = (w, [.polled source.id, .fetch source.id false])) ∨
    (∃ X e, env.fetched = .ok X ∧ env.queryError = some e ∧
      monitorSource env source w
        = (w, [.polled source.id, .fetch source.id true, .query source.id false])) ∨
    (∃ X, env.fetched = .ok X ∧ env.queryError = none ∧
      (∀ c, detectChanges X (previousDataOf (queryLatest w.dataTable source.id)) ≠ .ok (some c)) ∧
      monitorSource env source w
        = (w, [.polled source.id, .fetch source.id true, .query source.id true])) ∨
    (∃ X c, env.fetched = .ok X ∧ env.queryError = none ∧
      detectChanges X (previousDataOf (queryLatest w.dataTable source.id)) = .ok (some c) ∧
      ((∃ e, env.putError = some e ∧
        monitorSource env source w
          = (w, [.polled source.id, .fetch source.id true, .query source.id true,
                 .put (snapshotItem env.saveTime source.id X) false])) ∨
       (∃ e, env.putError = none ∧ env.sendError = some e ∧
        monitorSource env source w
          = ({ w with dataTable := putItem w.dataTable (snapshotItem env.saveTime source.id X) },
             [.polled source.id, .fetch source.id true, .query source.id true,
              .put (snapshotItem env.saveTime source.id X) true,
              .send (notificationBody env.sendTime source.id c) false])) ∨
       (∃ ok, env.putError = none ∧ env.sendError = none ∧
        (monitorSource env source w).1.dataTable
          = putItem w.dataTable (snapshotItem env.saveTime source.id X) ∧
        (monitorSource env source w).1.queue
          = w.queue ++ [notificationBody env.sendTime source.id c] ∧
        (monitorSource env source w).2
          = [.polled source.id, .fetch source.id true, .query source.id true,
             .put (snapshotItem env.saveTime source.id X) true,
             .send (notificationBody env.sendTime source.id c) true,
             .setLastUpdated source.id ok]))) := by
  cases hf : env.fetched with
  | error e => exact Or.inl ⟨e, rfl, by simp [monitorSource, hf]⟩
  | ok X =>
    cases hq : env.queryError with
    | some e =>
      exact Or.inr (Or.inl ⟨X, e, rfl, rfl, by simp [monitorSource, hf, getLastKnownState, hq]⟩)
    | none =>
      cases hd : detectChanges X (previousDataOf (queryLatest w.dataTable source.id)) with
      | error e =>
        exact Or.inr (Or.inr (Or.inl ⟨X, rfl, rfl, by simp [hd],
          by simp [monitorSource, hf, getLastKnownState, hq, hd]⟩))
      | ok r =>
        cases r with
        | none =>
          exact Or.inr (Or.inr (Or.inl ⟨X, rfl, rfl, by simp [hd],
            by simp [monitorSource, hf, getLastKnownState, hq, hd]⟩))
        | some c =>
          refine Or.inr (Or.inr (Or.inr ⟨X, c, rfl, rfl, hd, ?_⟩))
          cases hp : env.putError with
          | some e =>
            exact Or.inl ⟨e, rfl,
              by simp [monitorSource, hf, getLastKnownState, hq, hd, saveCurrentState, hp]⟩
          | none =>
            cases hs : env.sendError with
            | some e =>
              exact Or.inr (Or.inl ⟨e, rfl, rfl,
                by simp [monitorSource, hf, getLastKnownState, hq, hd, saveCurrentState, hp,
                  sendChangeNotification, hs]⟩)
            | none =>
              cases hu : env.updateError with
              | some e =>
                exact Or.inr (Or.inr ⟨false, rfl, rfl,
                  by simp [monitorSource, hf, getLastKnownState, hq, hd, saveCurrentState, hp,
                    sendChangeNotification, hs, hu]⟩)
              | none =>
                exact Or.inr (Or.inr ⟨true, rfl, rfl,
                  by simp [monitorSource, hf, getLastKnownState, hq, hd, saveCurrentState, hp,
                    sendChangeNotification, hs, hu]⟩)

/-- A reported change carries the current payload. -/
theorem detectChanges_data (X prev : Json) (c : Change)
    (h : detectChanges X prev = .ok (some c)) : c.data = X := by
  unfold detectChanges at h
  split at h
  · cases h; rfl
  · split at h
    · cases h
    · split at h
      · cases h; rfl
      · cases h

/-- Against stored text whose value serializes like the current payload the
detector reports nothing. -/
theorem detectChanges_same_canonical (X P : Json) (text : String)
    (hp : JSON.parse text = .ok P) (hs : JSON.stringify P = JSON.stringify X) :
    detectChanges X (.str text) = .ok none := by
  have hne : text ≠ "" := by
    rintro rfl
    cases hp
  simp [detectChanges, truthy, hne, hp, hs]

/-- When the detector reports nothing, `monitorSource` leaves the world as it
is and neither writes a snapshot nor sends a message. -/
theorem monitorSource_quiet (env : PollEnv) (source : Source) (w : World) (X : Json)
    (hf : env.fetched = .ok X)
    (hd : detectChanges X (previousDataOf (queryLatest w.dataTable source.id)) = .ok none) :
    (monitorSource env source w).1 = w ∧
    ∀ e ∈ (monitorSource env source w).2, e.isPut = false ∧ e.isSend = false := by
  rcases monitorSource_cases env source w with
    ⟨e, hf1, h⟩ | ⟨X1, e, hf1, -, h⟩ | ⟨X1, hf1, -, -, h⟩ | ⟨X1, c, hf1, -, hc, -⟩
  · rw [h]; simp [Effect.isPut, Effect.isSend]
  · rw [h]; simp [Effect.isPut, Effect.isSend]
  · rw [h]; simp [Effect.isPut, Effect.isSend]
  · rw [hf] at hf1
    cases hf1
    rw [hd] at hc
    cases hc

/-- C7: when the fetched payload has the same canonical serialization as the
latest stored snapshot, `monitorSource` writes no snapshot and publishes
nothing: the world is unchanged and the trace holds neither a `put` nor a
`send`. -/
theorem monitorSource_no_change (env : PollEnv) (source : Source) (w : World)
    (X P : Json) (latest : Item)
    (hf : env.fetched = .ok X)
    (hl : queryLatest w.dataTable source.id = some latest)
    (hp : JSON.parse latest.data = .ok P)
    (hs : JSON.stringify P = JSON.stringify X) :
    (monitorSource env source w).1 = w ∧
    ∀ e ∈ (monitorSource env source w).2, e.isPut = false ∧ e.isSend = false := by
  apply monitorSource_quiet env source w X hf
  rw [hl]
  exact detectChanges_same_canonical X P latest.data hp hs

/-- C7 at the test MONITOR-001: the store holds the snapshot of the stock
prices 150.25 and 290.10 and the fetch returns the same payload. -/
theorem monitorSource_no_change_witness :
    queryLatest stocksWorld.dataTable stocksSource.id = some stocksSnapshot ∧
    JSON.parse stocksSnapshot.data = .ok stocksInitial ∧
    (monitorSource (calmPoll stocksInitial) stocksSource stocksWorld).1 = stocksWorld ∧
    ∀ e ∈ (monitorSource (calmPoll stocksInitial) stocksSource stocksWorld).2,
      e.isPut = false ∧ e.isSend = false :=
  ⟨rfl, rfl,
    monitorSource_no_change (calmPoll stocksInitial) stocksSource stocksWorld
      stocksInitial stocksInitial stocksSnapshot rfl rfl rfl rfl⟩

/-- Only the empty list has no newest item. -/
theorem newest_eq_none (l : List Item) (h : newest l = none) : l = [] := by
  cases l with
  | nil => rfl
  | cons it rest =>
    unfold newest at h
    split at h
    · cases h
    · split at h <;> cases h

/-- The newest item is in the list and no item of the list is later. -/
theorem newest_max (l : List Item) (m : Item) (h : newest l = some m) :
    m ∈ l ∧ ∀ x ∈ l, ¬ m.lastUpdated.data < x.lastUpdated.data := by
  induction l generalizing m with
  | nil => cases h
  | cons it rest ih =>
    unfold newest at h
    split at h
    · next hn =>
      cases h
      have := newest_eq_none rest hn
      subst this
      simp
    · next best hb =>
      obtain ⟨hmem, hmax⟩ := ih best hb
      split at h
      · next hlt =>
        cases h
        refine ⟨List.mem_cons_of_mem _ hmem, ?_⟩
        intro x hx
        rcases List.mem_cons.1 hx with rfl | hx
        · exact not_lt.2 (le_of_lt hlt)
        · exact hmax x hx
      · next hlt =>
        cases h
        refine ⟨List.mem_cons_self _ _, ?_⟩
        intro x hx
        rcases List.mem_cons.1 hx with rfl | hx
        · exact lt_irrefl _
        · exact not_lt.2 (le_trans (not_lt.1 (hmax x hx)) (not_lt.1 hlt))

/-- After a `put` of an item stamped no earlier than the stored items of its
source, the query for the latest item of that source returns it. -/
theorem queryLatest_putItem (table : List Item) (N : Item)
    (hN : N.id = N.sheetId ++ "-" ++ N.lastUpdated)
    (hclock : ∀ it ∈ table, it.sheetId = N.sheetId →
      it.lastUpdated.data ≤ N.lastUpdated.data ∧ it.id = it.sheetId ++ "-" ++ it.lastUpdated) :
    queryLatest (putItem table N) N.sheetId = some N := by
  have hin : N ∈ (putItem table N).filter (fun it => it.sheetId = N.sheetId) := by
    simp [putItem]
  cases hq : newest ((putItem table N).filter (fun it => it.sheetId = N.sheetId)) with
  | none =>
    rw [newest_eq_none _ hq] at hin
    cases hin
  | some m =>
    obtain ⟨hmem, hmax⟩ := newest_max _ m hq
    simp only [queryLatest, hq]
    congr 1
    simp only [putItem, List.mem_filter, List.mem_append, List.mem_singleton,
      decide_eq_true_eq] at hmem
    rcases hmem with ⟨(⟨hmt, hid⟩ | rfl), hsheet⟩
    · exfalso
      obtain ⟨hle, hkey⟩ := hclock m hmt hsheet
      have hts : m.lastUpdated.data = N.lastUpdated.data :=
        le_antisymm hle (not_lt.1 (hmax N hin))
      have hts2 : m.lastUpdated = N.lastUpdated := String.ext hts
      apply hid
      rw [hkey, hN, hsheet, hts2]
    · rfl

/-- The body of a notification, field by field. -/
theorem notificationBody_eq (timestamp sourceId : String) (c : Change) :
    ∃ kind, (kind = "initial" ∨ kind = "update") ∧
      notificationBody timestamp sourceId c
        = JSON.stringify (.obj [("sourceId", .str sourceId), ("sourceType", .str "external"),
            ("timestamp", .str timestamp),
            ("changes", .obj [("type", .str kind), ("data", c.data)])]) := by
  obtain ⟨ty, d⟩ := c
  cases ty
  · exact ⟨"initial", Or.inl rfl, rfl⟩
  · exact ⟨"update", Or.inr rfl, rfl⟩

/-- C6: write before publish.  Whenever `monitorSource` sends a message, the
message is the envelope of a change whose `data` is the fetched payload `X`,
and the trace has, right before the `send`, the successful `put` of the item
`{ id: sourceId-timestamp, sheetId: sourceId, lastUpdated: timestamp, data:
JSON.stringify(X), sourceType: 'external' }`, whose `data` parses back to
`X`; that item is in the store afterwards.  When the `put` is rejected,
nothing is sent and the queue is unchanged. -/
theorem monitorSource_write_before_publish (env : PollEnv) (source : Source) (w : World) :
    (∀ body ok, Effect.send body ok ∈ (monitorSource env source w).2 →
      ∃ X kind item rest, env.fetched = .ok X ∧
        (kind = "initial" ∨ kind = "update") ∧
        body = JSON.stringify (.obj [("sourceId", .str source.id),
          ("sourceType", .str "external"), ("timestamp", .str env.sendTime),
          ("changes", .obj [("type", .str kind), ("data", X)])]) ∧
        JSON.parse body = .ok (.obj [("sourceId", .str source.id),
          ("sourceType", .str "external"), ("timestamp", .str env.sendTime),
          ("changes", .obj [("type", .str kind), ("data", X)])]) ∧
        item = { id := source.id ++ "-" ++ env.saveTime, sheetId := source.id,
                 lastUpdated := env.saveTime, data := JSON.stringify X,
                 sourceType := "external" } ∧
        JSON.parse item.data = .ok X ∧
        env.putError = none ∧
        (monitorSource env source w).2
          = [.polled source.id, .fetch source.id true, .query source.id true,
             .put item true, .send body ok] ++ rest ∧
        item ∈ (monitorSource env source w).1.dataTable) ∧
    (env.putError ≠ none →
      (∀ body ok, Effect.send body ok ∉ (monitorSource env source w).2) ∧
      (monitorSource env source w).1.queue = w.queue) := by
  rcases monitorSource_cases env source w with
    ⟨e, hf, h⟩ | ⟨X, e, hf, -, h⟩ | ⟨X, hf, -, -, h⟩ |
    ⟨X, c, hf, -, hc, ⟨e, hp, h⟩ | ⟨e, hp, hs, h⟩ | ⟨ok1, hp, hs, hd, hq, h⟩⟩
  · rw [h]; simp
  · rw [h]; simp
  · rw [h]; simp
  · rw [h]; simp
  · rw [h]
    refine ⟨?_, fun hne => absurd hp hne⟩
    intro body ok hmem
    simp at hmem
    obtain ⟨rfl, rfl⟩ := hmem
    obtain ⟨kind, hkind, hbody⟩ := notificationBody_eq env.sendTime source.id c
    rw [detectChanges_data _ _ _ hc] at hbody
    refine ⟨X, kind, _, [], hf, hkind, hbody, ?_, rfl, parse_stringify X, hp, rfl, ?_⟩
    · rw [hbody]; exact parse_stringify _
    · simp [putItem, snapshotItem]
  · refine ⟨?_, fun hne => absurd hp hne⟩
    intro body ok hmem
    rw [h] at hmem
    simp at hmem
    obtain ⟨rfl, rfl⟩ := hmem
    obtain ⟨kind, hkind, hbody⟩ := notificationBody_eq env.sendTime source.id c
    rw [detectChanges_data _ _ _ hc] at hbody
    refine ⟨X, kind, _, [.setLastUpdated source.id ok1], hf, hkind, hbody, ?_, rfl,
      parse_stringify X, hp, by rw [h]; rfl, ?_⟩
    · rw [hbody]; exact parse_stringify _
    · rw [hd]
      simp [putItem, snapshotItem]

/-- C8: polling converges after a lost publish.  If a cycle appended the
snapshot of `X` (the item whose `data` is `JSON.stringify(X)`) and its publish
was rejected, while no stored snapshot of the source is stamped later than
the new one, then the queue is as before, the next cycle that fetches `X`
reads that snapshot back, its `data` parses to `X`, the detector reports no
change, and the cycle leaves the world as it is with neither a `put` nor a
`send`. -/
theorem poll_converges_after_lost_publish (env1 env2 : PollEnv) (source : Source) (w : World)
    (X : Json) (item : Item)
    (hitem : item = { id := source.id ++ "-" ++ env1.saveTime, sheetId := source.id,
                      lastUpdated := env1.saveTime, data := JSON.stringify X,
                      sourceType := "external" })
    (hput : Effect.put item true ∈ (monitorSource env1 source w).2)
    (hlost : env1.sendError ≠ none)
    (hclock : ∀ it ∈ w.dataTable, it.sheetId = source.id →
      it.lastUpdated.data ≤ env1.saveTime.data ∧ it.id = it.sheetId ++ "-" ++ it.lastUpdated)
    (hf2 : env2.fetched = .ok X) :
    (monitorSource env1 source w).1.queue = w.queue ∧
    queryLatest (monitorSource env1 source w).1.dataTable source.id = some item ∧
    JSON.parse item.data = .ok X ∧
    detectChanges X (.str item.data) = .ok none ∧
    (monitorSource env2 source (monitorSource env1 source w).1).1
      = (monitorSource env1 source w).1 ∧
    ∀ e ∈ (monitorSource env2 source (monitorSource env1 source w).1).2,
      e.isPut = false ∧ e.isSend = false := by
  have hsnap : item = snapshotItem env1.saveTime source.id X := hitem
  subst hsnap
  have hlatest : queryLatest (putItem w.dataTable (snapshotItem env1.saveTime source.id X))
      source.id = some (snapshotItem env1.saveTime source.id X) :=
    queryLatest_putItem w.dataTable (snapshotItem env1.saveTime source.id X) rfl hclock
  have hdet : detectChanges X (.str (snapshotItem env1.saveTime source.id X).data) = .ok none :=
    by rw [show (snapshotItem env1.saveTime source.id X).data = JSON.stringify X from rfl,
      detectChanges_serialized]; simp
  have hstate : (monitorSource env1 source w).1.queue = w.queue ∧
      (monitorSource env1 source w).1.dataTable
        = putItem w.dataTable (snapshotItem env1.saveTime source.id X) := by
    rcases monitorSource_cases env1 source w with
      ⟨e, hf, h⟩ | ⟨X1, e, hf, -, h⟩ | ⟨X1, hf, -, -, h⟩ |
      ⟨X1, c, hf, -, hc, ⟨e, hp, h⟩ | ⟨e, hp, hs, h⟩ | ⟨ok1, hp, hs, hd, hq, h⟩⟩
    · rw [h] at hput; simp at hput
    · rw [h] at hput; simp at hput
    · rw [h] at hput; simp at hput
    · rw [h] at hput; simp at hput
    · rw [h] at hput ⊢
      simp at hput
      rw [hput]
      exact ⟨rfl, rfl⟩
    · exact absurd hs hlost
  obtain ⟨hqueue, htable⟩ := hstate
  have hl2 : queryLatest (monitorSource env1 source w).1.dataTable source.id
      = some (snapshotItem env1.saveTime source.id X) := by rw [htable]; exact hlatest
  have hno := monitorSource_quiet env2 source (monitorSource env1 source w).1 X hf2
    (by rw [hl2]; exact hdet)
  exact ⟨hqueue, hl2, parse_stringify X, hdet, hno.1, hno.2⟩

/-- C6 at the test MONITOR-002: the store holds the snapshot of the stock
prices 150.25 and 290.10, the fetch returns 152.75 and 288.30, and the
`update` message is in the trace, so the snapshot of the fetched prices was
put before it. -/
theorem monitorSource_write_before_publish_witness :
    ∃ X kind item rest, (calmPoll stocksUpdated).fetched = .ok X ∧
      (kind = "initial" ∨ kind = "update") ∧
      notificationBody "2023-11-14T22:20:00.010Z" "stocks-api"
          { type := .update, data := stocksUpdated }
        = JSON.stringify (.obj [("sourceId", .str stocksSource.id),
          ("sourceType", .str "external"), ("timestamp", .str (calmPoll stocksUpdated).sendTime),
          ("changes", .obj [("type", .str kind), ("data", X)])]) ∧
      JSON.parse (notificationBody "2023-11-14T22:20:00.010Z" "stocks-api"
          { type := .update, data := stocksUpdated })
        = .ok (.obj [("sourceId", .str stocksSource.id),
          ("sourceType", .str "external"), ("timestamp", .str (calmPoll stocksUpdated).sendTime),
          ("changes", .obj [("type", .str kind), ("data", X)])]) ∧
      item = { id := stocksSource.id ++ "-" ++ (calmPoll stocksUpdated).saveTime,
               sheetId := stocksSource.id,
               lastUpdated := (calmPoll stocksUpdated).saveTime, data := JSON.stringify X,
               sourceType := "external" } ∧
      JSON.parse item.data = .ok X ∧
      (calmPoll stocksUpdated).putError = none ∧
      (monitorSource (calmPoll stocksUpdated) stocksSource stocksWorld).2
        = [.polled stocksSource.id, .fetch stocksSource.id true, .query stocksSource.id true,
           .put item true,
           .send (notificationBody "2023-11-14T22:20:00.010Z" "stocks-api"
             { type := .update, data := stocksUpdated }) true] ++ rest ∧
      item ∈ (monitorSource (calmPoll stocksUpdated) stocksSource stocksWorld).1.dataTable :=
  (monitorSource_write_before_publish (calmPoll stocksUpdated) stocksSource stocksWorld).1
    (notificationBody "2023-11-14T22:20:00.010Z" "stocks-api"
      { type := .update, data := stocksUpdated }) true (by decide)

/-- C8 at `stocks-api`: the store holds the snapshot of the stock prices
150.25 and 290.10, a cycle appends the snapshot of 152.75 and 288.30 and loses
the publish, and the next cycle, which fetches the same prices, is quiet. -/
theorem poll_converges_after_lost_publish_witness :
    (lostPublishPoll stocksUpdated).sendError ≠ none ∧
    queryLatest (monitorSource (lostPublishPoll stocksUpdated) stocksSource stocksWorld).1.dataTable
        stocksSource.id
      = some { id := "stocks-api-2023-11-14T22:20:00.000Z", sheetId := "stocks-api",
               lastUpdated := "2023-11-14T22:20:00.000Z", data := JSON.stringify stocksUpdated,
               sourceType := "external" } ∧
    (monitorSource (calmPoll stocksUpdated) stocksSource
        (monitorSource (lostPublishPoll stocksUpdated) stocksSource stocksWorld).1).1
      = (monitorSource (lostPublishPoll stocksUpdated) stocksSource stocksWorld).1 ∧
    ∀ e ∈ (monitorSource (calmPoll stocksUpdated) stocksSource
        (monitorSource (lostPublishPoll stocksUpdated) stocksSource stocksWorld).1).2,
      e.isPut = false ∧ e.isSend = false :=
  have h := poll_converges_after_lost_publish (lostPublishPoll stocksUpdated)
    (calmPoll stocksUpdated) stocksSource stocksWorld stocksUpdated
    { id := "stocks-api-2023-11-14T22:20:00.000Z", sheetId := "stocks-api",
      lastUpdated := "2023-11-14T22:20:00.000Z", data := JSON.stringify stocksUpdated,
      sourceType := "external" }
    rfl (by decide) (by decide)
    (by
      intro it hit _
      have : it = stocksSnapshot := by simpa [stocksWorld] using hit
      subst this
      exact ⟨by decide, by decide⟩)
    rfl
  ⟨by decide, h.2.1, h.2.2.2.2.1, h.2.2.2.2.2⟩

/-! ## The scheduling pass -/

/-- A run of `monitorSource` is marked in its trace. -/
theorem polled_mem_monitorSource (env : PollEnv) (source : Source) (w : World) :
    Effect.polled source.id ∈ (monitorSource env source w).2 := by
  rcases monitorSource_cases env source w with
    ⟨e, hf, h⟩ | ⟨X, e, hf, -, h⟩ | ⟨X, hf, -, -, h⟩ |
    ⟨X, c, hf, -, hc, ⟨e, hp, h⟩ | ⟨e, hp, hs, h⟩ | ⟨ok1, hp, hs, hd, hq, h⟩⟩ <;>
  · rw [h]; simp

/-- The trace of `monitorSource` marks no other source. -/
theorem polled_of_mem_monitorSource (env : PollEnv) (source : Source) (w : World) (id : String)
    (hmem : Effect.polled id ∈ (monitorSource env source w).2) : id = source.id := by
  rcases monitorSource_cases env source w with
    ⟨e, hf, h⟩ | ⟨X, e, hf, -, h⟩ | ⟨X, hf, -, -, h⟩ |
    ⟨X, c, hf, -, hc, ⟨e, hp, h⟩ | ⟨e, hp, hs, h⟩ | ⟨ok1, hp, hs, hd, hq, h⟩⟩ <;>
  · rw [h] at hmem; simpa using hmem

/-- The loop polls only sources of its list. -/
theorem pollSources_polled (PI : Int) (env : Nat → IterEnv) (l : List Source) :
    ∀ (i : Nat) (w : World) (id : String),
      Effect.polled id ∈ (pollSources PI env i l w).2 → ∃ s ∈ l, s.id = id := by
  induction l with
  | nil => intro i w id h; simp [pollSources] at h
  | cons s rest ih =>
    intro i w id h
    unfold pollSources at h
    split at h
    · simp only [List.mem_cons] at h
      rcases h with h | h
      · cases h
      · obtain ⟨t, ht, hid⟩ := ih _ _ _ h
        exact ⟨t, List.mem_cons_of_mem _ ht, hid⟩
    · split at h
      · split at h
        · simp only [List.mem_append, List.mem_singleton] at h
          rcases h with h | h
          · exact ⟨s, List.mem_cons_self _ _, (polled_of_mem_monitorSource _ _ _ _ h).symm⟩
          · cases h
        · simp only [List.mem_append, List.mem_cons] at h
          rcases h with h | h | h
          · exact ⟨s, List.mem_cons_self _ _, (polled_of_mem_monitorSource _ _ _ _ h).symm⟩
          · cases h
          · obtain ⟨t, ht, hid⟩ := ih _ _ _ h
            exact ⟨t, List.mem_cons_of_mem _ ht, hid⟩
      · obtain ⟨t, ht, hid⟩ := ih _ _ _ h
        exact ⟨t, List.mem_cons_of_mem _ ht, hid⟩

/-- One iteration of the loop. -/
theorem pollSources_cons (PI : Int) (env : Nat → IterEnv) (i : Nat) (s : Source)
    (rest : List Source) (w : World) :
    pollSources PI env i (s :: rest) w =
      if missingUrl s then
        ((pollSources PI env (i + 1) rest w).1,
          .skipped s.id :: (pollSources PI env (i + 1) rest w).2)
      else if isDue PI (env i).now s then
        match (env i).checkedError with
        | some _ => ((monitorSource (env i).poll s w).1,
            (monitorSource (env i).poll s w).2 ++ [.setLastChecked s.id false])
        | none =>
          ((pollSources PI env (i + 1) rest
              { (monitorSource (env i).poll s w).1 with
                sources := setLastChecked (monitorSource (env i).poll s w).1.sources s.id
                  (env i).checkedTime }).1,
            (monitorSource (env i).poll s w).2 ++ .setLastChecked s.id true ::
              (pollSources PI env (i + 1) rest
                { (monitorSource (env i).poll s w).1 with
                  sources := setLastChecked (monitorSource (env i).poll s w).1.sources s.id
                    (env i).checkedTime }).2)
      else pollSources PI env (i + 1) rest w := by
  rw [pollSources]

/-- While no `lastChecked` update is rejected, the loop over `pre ++ rest` is
the loop over `pre` followed by the loop over `rest`. -/
theorem pollSources_append (PI : Int) (env : Nat → IterEnv) (pre rest : List Source) :
    ∀ (i : Nat) (w : World),
      (∀ j, j < pre.length → (env (i + j)).checkedError = none) →
      pollSources PI env i (pre ++ rest) w
        = ((pollSources PI env (i + pre.length) rest (pollSources PI env i pre w).1).1,
           (pollSources PI env i pre w).2
             ++ (pollSources PI env (i + pre.length) rest (pollSources PI env i pre w).1).2) := by
  induction pre with
  | nil => intro i w _; simp [pollSources]
  | cons s pre ih =>
    intro i w hok
    have h0 : (env i).checkedError = none := by simpa using hok 0 (by simp)
    have hrest : ∀ j, j < pre.length → (env (i + 1 + j)).checkedError = none := by
      intro j hj
      have := hok (j + 1) (by simp; omega)
      rwa [show i + (j + 1) = i + 1 + j by omega] at this
    have hlen : i + (s :: pre).length = i + 1 + pre.length := by simp; omega
    rw [hlen]
    simp only [List.cons_append]
    rw [pollSources_cons PI env i s (pre ++ rest), pollSources_cons PI env i s pre]
    by_cases hm : missingUrl s = true
    · simp only [hm, if_true]
      rw [ih (i + 1) w hrest]
      simp
    · by_cases hd : isDue PI (env i).now s = true
      · have ih1 := fun w1 => ih (i + 1) w1 hrest
        simp [hm, hd, h0, ih1]
      · simp only [hm, hd, if_false]
        rw [ih (i + 1) w hrest]
        simp

/-- C9 as stated fails for a polling interval of `0`: one minute after the
last check such a source would be due, yet the pass does not poll it, because
`0` counts as unset and the default interval applies. -/
theorem monitoringLoop_zero_interval_not_polled :
    (1700000060000 : Int) - lastCheckedMs zeroIntervalSource ≥ 0 * 1000 ∧
    zeroIntervalSource.pollingInterval = some 0 ∧
    missingUrl zeroIntervalSource = false ∧
    (monitoringLoop 300000 (calmTick 1700000060000 .null)
        (registryOnly [zeroIntervalSource])).2 = [.scheduleNext 300000] ∧
    Effect.polled zeroIntervalSource.id ∉
      (monitoringLoop 300000 (calmTick 1700000060000 .null)
        (registryOnly [zeroIntervalSource])).2 := by
  refine ⟨by decide, rfl, rfl, by decide, by decide⟩

/-- C9 amended: a registered source with a URL and a non-zero polling interval
of its own, reached by the loop, is polled exactly when the time since its
last check is at least its interval in seconds times 1000. -/
theorem monitoringLoop_polls_iff_due (PI : Int) (env : TickEnv) (w : World)
    (pre post : List Source) (s : Source) (p : Int)
    (hsrc : fetchDataSources env w = pre ++ s :: post)
    (hreach : ∀ j, j < pre.length → (env.iter j).checkedError = none)
    (hurl : missingUrl s = false)
    (hint : s.pollingInterval = some p) (hp : p ≠ 0)
    (hid : ∀ t ∈ pre ++ post, t.id ≠ s.id) :
    Effect.polled s.id ∈ (monitoringLoop PI env w).2 ↔
      (env.iter pre.length).now - lastCheckedMs s ≥ p * 1000 := by
  have hdue : isDue PI (env.iter pre.length).now s = true ↔
      (env.iter pre.length).now - lastCheckedMs s ≥ p * 1000 := by
    simp [isDue, effectiveInterval, hint, hp]
  have hpre : ∀ w1 i, Effect.polled s.id ∉ (pollSources PI env.iter i pre w1).2 := by
    intro w1 i hmem
    obtain ⟨t, ht, hte⟩ := pollSources_polled PI env.iter pre i w1 s.id hmem
    exact hid t (List.mem_append_left _ ht) hte
  have hpost : ∀ w1 i, Effect.polled s.id ∉ (pollSources PI env.iter i post w1).2 := by
    intro w1 i hmem
    obtain ⟨t, ht, hte⟩ := pollSources_polled PI env.iter post i w1 s.id hmem
    exact hid t (List.mem_append_right _ ht) hte
  rw [← hdue]
  unfold monitoringLoop
  simp only [hsrc]
  rw [pollSources_append PI env.iter pre (s :: post) 0 w (by simpa using hreach)]
  simp only [List.mem_append, List.mem_singleton, hpre, false_or, Nat.zero_add, reduceCtorEq,
    or_false]
  rw [pollSources_cons]
  simp only [hurl, Bool.false_eq_true, if_false]
  by_cases hd : isDue PI (env.iter pre.length).now s = true
  · simp only [hd, if_true, iff_true]
    cases (env.iter pre.length).checkedError with
    | some e => simp [polled_mem_monitorSource]
    | none => simp [polled_mem_monitorSource]
  · have hd2 : isDue PI (env.iter pre.length).now s = false := by
      cases h : isDue PI (env.iter pre.length).now s
      · rfl
      · exact absurd h hd
    simp [hd2, hpost]

/-- C9 amended at `stocks-api`, five minutes after its last check. -/
theorem monitoringLoop_polls_iff_due_witness :
    Effect.polled stocksSource.id ∈
        (monitoringLoop 300000 (calmTick 1700000300000 .null) (registryOnly [stocksSource])).2 ↔
      ((calmTick 1700000300000 .null).iter ([] : List Source).length).now
        - lastCheckedMs stocksSource ≥ 300 * 1000 :=
  monitoringLoop_polls_iff_due 300000 (calmTick 1700000300000 .null)
    (registryOnly [stocksSource]) [] [] stocksSource 300 rfl (fun _ h => absurd h (by simp))
    rfl rfl (by decide) (fun _ h => absurd h (by simp))

/-- The trace of `monitorSource` holds no `lastChecked` update. -/
theorem setLastChecked_not_mem_monitorSource (env : PollEnv) (source : Source) (w : World)
    (id : String) (ok : Bool) :
    Effect.setLastChecked id ok ∉ (monitorSource env source w).2 := by
  intro hmem
  rcases monitorSource_cases env source w with
    ⟨e, hf, h⟩ | ⟨X, e, hf, -, h⟩ | ⟨X, hf, -, -, h⟩ |
    ⟨X, c, hf, -, hc, ⟨e, hp, h⟩ | ⟨e, hp, hs, h⟩ | ⟨ok1, hp, hs, hd, hq, h⟩⟩ <;>
  · rw [h] at hmem; simp at hmem

/-- The loop updates `lastChecked` only for sources of its list. -/
theorem pollSources_setLastChecked (PI : Int) (env : Nat → IterEnv) (l : List Source) :
    ∀ (i : Nat) (w : World) (id : String) (ok : Bool),
      Effect.setLastChecked id ok ∈ (pollSources PI env i l w).2 → ∃ s ∈ l, s.id = id := by
  induction l with
  | nil => intro i w id ok h; simp [pollSources] at h
  | cons s rest ih =>
    intro i w id ok h
    rw [pollSources_cons] at h
    split at h
    · simp only [List.mem_cons] at h
      rcases h with h | h
      · cases h
      · obtain ⟨t, ht, hid⟩ := ih _ _ _ _ h
        exact ⟨t, List.mem_cons_of_mem _ ht, hid⟩
    · split at h
      · split at h
        · simp only [List.mem_append, List.mem_singleton] at h
          rcases h with h | h
          · exact absurd h (setLastChecked_not_mem_monitorSource _ _ _ _ _)
          · cases h
            exact ⟨s, List.mem_cons_self _ _, rfl⟩
        · simp only [List.mem_append, List.mem_cons] at h
          rcases h with h | h | h
          · exact absurd h (setLastChecked_not_mem_monitorSource _ _ _ _ _)
          · cases h
            exact ⟨s, List.mem_cons_self _ _, rfl⟩
          · obtain ⟨t, ht, hid⟩ := ih _ _ _ _ h
            exact ⟨t, List.mem_cons_of_mem _ ht, hid⟩
      · obtain ⟨t, ht, hid⟩ := ih _ _ _ _ h
        exact ⟨t, List.mem_cons_of_mem _ ht, hid⟩

/-- While no `lastChecked` update is rejected earlier in the pass, a source
gets a `lastChecked` update exactly when it has a URL and is due, whatever
happens in its poll. -/
theorem monitoringLoop_lastChecked_iff_due (PI : Int) (env : TickEnv) (w : World)
    (pre post : List Source) (s : Source)
    (hsrc : fetchDataSources env w = pre ++ s :: post)
    (hreach : ∀ j, j < pre.length → (env.iter j).checkedError = none)
    (hid : ∀ t ∈ pre ++ post, t.id ≠ s.id) :
    (∃ ok, Effect.setLastChecked s.id ok ∈ (monitoringLoop PI env w).2) ↔
      (missingUrl s = false ∧ isDue PI (env.iter pre.length).now s = true) := by
  have hpre : ∀ w1 i ok, Effect.setLastChecked s.id ok ∉ (pollSources PI env.iter i pre w1).2 := by
    intro w1 i ok hmem
    obtain ⟨t, ht, hte⟩ := pollSources_setLastChecked PI env.iter pre i w1 s.id ok hmem
    exact hid t (List.mem_append_left _ ht) hte
  have hpost : ∀ w1 i ok,
      Effect.setLastChecked s.id ok ∉ (pollSources PI env.iter i post w1).2 := by
    intro w1 i ok hmem
    obtain ⟨t, ht, hte⟩ := pollSources_setLastChecked PI env.iter post i w1 s.id ok hmem
    exact hid t (List.mem_append_right _ ht) hte
  unfold monitoringLoop
  simp only [hsrc]
  rw [pollSources_append PI env.iter pre (s :: post) 0 w (by simpa using hreach)]
  simp only [List.mem_append, List.mem_singleton, hpre, false_or, Nat.zero_add, reduceCtorEq,
    or_false]
  rw [pollSources_cons]
  cases hm : missingUrl s with
  | true => simp [hpost]
  | false =>
    cases hd : isDue PI (env.iter pre.length).now s with
    | false => simp [hpost]
    | true =>
      cases (env.iter pre.length).checkedError with
      | some e =>
        simp only [Bool.false_eq_true, if_false, if_true, List.mem_append, List.mem_singleton,
          setLastChecked_not_mem_monitorSource, false_or, and_self, iff_true]
        exact ⟨false, rfl⟩
      | none =>
        simp only [Bool.false_eq_true, if_false, if_true, List.mem_append, List.mem_cons,
          setLastChecked_not_mem_monitorSource, false_or, and_self, iff_true]
        exact ⟨true, Or.inl rfl⟩

/-- C10 fails on the code when a `lastChecked` update is rejected: with two
due sources, the rejected update of the first ends the pass, so the second,
although due, is neither polled nor given a `lastChecked` write. -/
theorem monitoringLoop_rejected_update_stops_pass :
    isDue 300000 ((rejectedUpdateTick 1700000300000 .null).iter 1).now weatherSource = true ∧
    missingUrl weatherSource = false ∧
    (monitoringLoop 300000 (rejectedUpdateTick 1700000300000 .null)
        (registryOnly [stocksSource, weatherSource])).2
      = [.polled "stocks-api", .fetch "stocks-api" false, .setLastChecked "stocks-api" false,
         .scheduleNext 300000] ∧
    Effect.setLastChecked weatherSource.id true ∉
      (monitoringLoop 300000 (rejectedUpdateTick 1700000300000 .null)
        (registryOnly [stocksSource, weatherSource])).2 ∧
    Effect.setLastChecked weatherSource.id false ∉
      (monitoringLoop 300000 (rejectedUpdateTick 1700000300000 .null)
        (registryOnly [stocksSource, weatherSource])).2 := by
  refine ⟨by decide, rfl, by decide, by decide, by decide⟩

/-! ## Isolation of the sources in a pass -/

/-- C11 fails on the code when the `lastChecked` write-back of an earlier
source is rejected: the first source is polled, written and published without
error, its `lastChecked` update is rejected, and the pass ends there; the
second source, due and with a URL, is never polled. -/
theorem monitoringLoop_rejected_write_back_stalls_fleet :
    isDue 300000 ((writeBackRejectedTick 1700000300000 (.arr [.num 150])).iter 1).now
      weatherSource = true ∧
    missingUrl weatherSource = false ∧
    (monitoringLoop 300000 (writeBackRejectedTick 1700000300000 (.arr [.num 150]))
        (registryOnly [stocksSource, weatherSource])).2
      = [.polled "stocks-api", .fetch "stocks-api" true, .query "stocks-api" true,
         .put (snapshotItem "2023-11-14T22:20:00.000Z" "stocks-api" (.arr [.num 150])) true,
         .send (notificationBody "2023-11-14T22:20:00.010Z" "stocks-api"
           { type := .initial, data := .arr [.num 150] }) true,
         .setLastUpdated "stocks-api" true, .setLastChecked "stocks-api" false,
         .scheduleNext 300000] ∧
    Effect.polled weatherSource.id ∉
      (monitoringLoop 300000 (writeBackRejectedTick 1700000300000 (.arr [.num 150]))
        (registryOnly [stocksSource, weatherSource])).2 := by
  refine ⟨by decide, rfl, by decide, by decide⟩

/-- A failed fetch ends the run of `monitorSource` without a throw, a write
or a message. -/
theorem monitorSource_fetch_failed (env : PollEnv) (source : Source) (w : World) (e : JsError)
    (hf : env.fetched = .error e) :
    monitorSource env source w = (w, [.polled source.id, .fetch source.id false]) := by
  simp [monitorSource, hf]

/-- A run of `monitorSource` in which a change is detected and the `put` and
the `send` resolve. -/
theorem monitorSource_changed (env : PollEnv) (source : Source) (w : World) (Y : Json)
    (c : Change)
    (hf : env.fetched = .ok Y) (hq : env.queryError = none)
    (hc : detectChanges Y (previousDataOf (queryLatest w.dataTable source.id)) = .ok (some c))
    (hp : env.putError = none) (hs : env.sendError = none) :
    ∃ ok, (monitorSource env source w).2
        = [.polled source.id, .fetch source.id true, .query source.id true,
           .put (snapshotItem env.saveTime source.id Y) true,
           .send (notificationBody env.sendTime source.id c) true,
           .setLastUpdated source.id ok] ∧
      (monitorSource env source w).1.dataTable
        = putItem w.dataTable (snapshotItem env.saveTime source.id Y) ∧
      (monitorSource env source w).1.queue
        = w.queue ++ [notificationBody env.sendTime source.id c] := by
  rcases monitorSource_cases env source w with
    ⟨e, hf1, -⟩ | ⟨X, e, -, hq1, -⟩ | ⟨X, hf1, -, hn, -⟩ |
    ⟨X, c1, hf1, -, hc1, ⟨e, hp1, -⟩ | ⟨e, -, hs1, -⟩ | ⟨ok1, -, -, hd, hqu, h⟩⟩
  · rw [hf] at hf1; cases hf1
  · rw [hq] at hq1; cases hq1
  · rw [hf] at hf1; cases hf1; exact absurd hc (hn c)
  · rw [hp] at hp1; cases hp1
  · rw [hs] at hs1; cases hs1
  · rw [hf] at hf1
    cases hf1
    rw [hc] at hc1
    cases hc1
    exact ⟨ok1, h, hd, hqu⟩

/-- A pass over two due sources of which the first fails to fetch and the
second fetches a changed payload: the trace and the stores in terms of
`snapshotItem` and `notificationBody`. -/
theorem monitoringLoop_failed_then_changed (PI : Int) (env : TickEnv) (w : World)
    (S1 S2 : Source) (Y : Json) (c : Change) (e : JsError)
    (hsrc : fetchDataSources env w = [S1, S2])
    (hu1 : missingUrl S1 = false) (hu2 : missingUrl S2 = false)
    (hd1 : isDue PI (env.iter 0).now S1 = true) (hd2 : isDue PI (env.iter 1).now S2 = true)
    (hf1 : (env.iter 0).poll.fetched = .error e)
    (hc1 : (env.iter 0).checkedError = none)
    (hf2 : (env.iter 1).poll.fetched = .ok Y)
    (hq2 : (env.iter 1).poll.queryError = none)
    (hchg : detectChanges Y (previousDataOf (queryLatest w.dataTable S2.id)) = .ok (some c))
    (hp2 : (env.iter 1).poll.putError = none)
    (hs2 : (env.iter 1).poll.sendError = none) :
    monitorSource (env.iter 0).poll S1 w = (w, [.polled S1.id, .fetch S1.id false]) ∧
    ∃ ok1 ok2, (monitoringLoop PI env w).2
        = [.polled S1.id, .fetch S1.id false, .setLastChecked S1.id true,
           .polled S2.id, .fetch S2.id true, .query S2.id true,
           .put (snapshotItem (env.iter 1).poll.saveTime S2.id Y) true,
           .send (notificationBody (env.iter 1).poll.sendTime S2.id c) true,
           .setLastUpdated S2.id ok1, .setLastChecked S2.id ok2, .scheduleNext PI] ∧
      (monitoringLoop PI env w).1.dataTable
        = putItem w.dataTable (snapshotItem (env.iter 1).poll.saveTime S2.id Y) ∧
      (monitoringLoop PI env w).1.queue
        = w.queue ++ [notificationBody (env.iter 1).poll.sendTime S2.id c] := by
  have h1 := monitorSource_fetch_failed (env.iter 0).poll S1 w e hf1
  refine ⟨h1, ?_⟩
  obtain ⟨ok1, ht, hdt, hqu⟩ := monitorSource_changed (env.iter 1).poll S2
    { w with sources := setLastChecked w.sources S1.id (env.iter 0).checkedTime } Y c
    hf2 hq2 hchg hp2 hs2
  unfold monitoringLoop
  simp only [hsrc]
  rw [pollSources_cons]
  simp only [hu1, hd1, hc1, h1, Bool.false_eq_true, if_false, if_true, Nat.zero_add]
  rw [pollSources_cons]
  simp only [hu2, hd2, Bool.false_eq_true, if_false, if_true]
  cases hc2 : (env.iter 1).checkedError with
  | some e2 =>
    refine ⟨ok1, false, ?_, ?_, ?_⟩
    · simp [ht]
    · simpa using hdt
    · simpa using hqu
  | none =>
    refine ⟨ok1, true, ?_, ?_, ?_⟩
    · simp [ht, pollSources]
    · simpa [pollSources] using hdt
    · simpa [pollSources] using hqu

/-- C12: in a pass over two due sources `S1` and `S2` where the fetch of `S1`
fails and `S2` fetches a changed payload `Y`, `monitorSource` returns for `S1`
with the world as it was and neither a `put` nor a `send`, and `S2` gets
exactly one snapshot write, of the item whose `data` is `JSON.stringify(Y)`,
and one publish, of the envelope of a change whose `data` is `Y`. -/
theorem monitoringLoop_isolates_failed_fetch (PI : Int) (env : TickEnv) (w : World)
    (S1 S2 : Source) (Y : Json) (c : Change) (e : JsError)
    (hsrc : fetchDataSources env w = [S1, S2])
    (hu1 : missingUrl S1 = false) (hu2 : missingUrl S2 = false)
    (hd1 : isDue PI (env.iter 0).now S1 = true) (hd2 : isDue PI (env.iter 1).now S2 = true)
    (hf1 : (env.iter 0).poll.fetched = .error e)
    (hc1 : (env.iter 0).checkedError = none)
    (hf2 : (env.iter 1).poll.fetched = .ok Y)
    (hq2 : (env.iter 1).poll.queryError = none)
    (hchg : detectChanges Y (previousDataOf (queryLatest w.dataTable S2.id)) = .ok (some c))
    (hp2 : (env.iter 1).poll.putError = none)
    (hs2 : (env.iter 1).poll.sendError = none) :
    monitorSource (env.iter 0).poll S1 w = (w, [.polled S1.id, .fetch S1.id false]) ∧
    ∃ ok1 ok2 kind item body, (kind = "initial" ∨ kind = "update") ∧
      item = { id := S2.id ++ "-" ++ (env.iter 1).poll.saveTime, sheetId := S2.id,
               lastUpdated := (env.iter 1).poll.saveTime, data := JSON.stringify Y,
               sourceType := "external" } ∧
      body = JSON.stringify (.obj [("sourceId", .str S2.id), ("sourceType", .str "external"),
        ("timestamp", .str (env.iter 1).poll.sendTime),
        ("changes", .obj [("type", .str kind), ("data", Y)])]) ∧
      (monitoringLoop PI env w).2
        = [.polled S1.id, .fetch S1.id false, .setLastChecked S1.id true,
           .polled S2.id, .fetch S2.id true, .query S2.id true,
           .put item true, .send body true,
           .setLastUpdated S2.id ok1, .setLastChecked S2.id ok2, .scheduleNext PI] ∧
      (monitoringLoop PI env w).1.dataTable = putItem w.dataTable item ∧
      (monitoringLoop PI env w).1.queue = w.queue ++ [body] := by
  obtain ⟨h1, ok1, ok2, ht, hd, hq⟩ := monitoringLoop_failed_then_changed PI env w S1 S2 Y c e
    hsrc hu1 hu2 hd1 hd2 hf1 hc1 hf2 hq2 hchg hp2 hs2
  obtain ⟨kind, hkind, hbody⟩ := notificationBody_eq (env.iter 1).poll.sendTime S2.id c
  rw [detectChanges_data _ _ _ hchg] at hbody
  rw [hbody] at ht hq
  exact ⟨h1, ok1, ok2, kind, _, _, hkind, rfl, rfl, ht, hd, hq⟩

/-- C12 at `weather-api`, whose fetch times out, and `stocks-api`, whose fetch
returns the prices 152.75 and 288.30 against the stored snapshot of 150.25
and 290.10 (the test MONITOR-002). -/
theorem monitoringLoop_isolates_failed_fetch_witness :
    detectChanges stocksUpdated
        (previousDataOf (queryLatest stocksWorld.dataTable stocksSource.id))
      = .ok (some { type := .update, data := stocksUpdated }) ∧
    monitorSource ((failedFirstFetchTick 1700000300000 stocksUpdated).iter 0).poll
        weatherSource stocksWorld
      = (stocksWorld, [.polled weatherSource.id, .fetch weatherSource.id false]) ∧
    ∃ ok1 ok2 kind item body, (kind = "initial" ∨ kind = "update") ∧
      item = { id := stocksSource.id ++ "-"
                 ++ ((failedFirstFetchTick 1700000300000 stocksUpdated).iter 1).poll.saveTime,
               sheetId := stocksSource.id,
               lastUpdated := ((failedFirstFetchTick 1700000300000 stocksUpdated).iter 1).poll.saveTime,
               data := JSON.stringify stocksUpdated, sourceType := "external" } ∧
      body = JSON.stringify (.obj [("sourceId", .str stocksSource.id),
        ("sourceType", .str "external"),
        ("timestamp",
          .str ((failedFirstFetchTick 1700000300000 stocksUpdated).iter 1).poll.sendTime),
        ("changes", .obj [("type", .str kind), ("data", stocksUpdated)])]) ∧
      (monitoringLoop 300000 (failedFirstFetchTick 1700000300000 stocksUpdated) stocksWorld).2
        = [.polled weatherSource.id, .fetch weatherSource.id false,
           .setLastChecked weatherSource.id true,
           .polled stocksSource.id, .fetch stocksSource.id true, .query stocksSource.id true,
           .put item true, .send body true,
           .setLastUpdated stocksSource.id ok1, .setLastChecked stocksSource.id ok2,
           .scheduleNext 300000] ∧
      (monitoringLoop 300000 (failedFirstFetchTick 1700000300000 stocksUpdated)
          stocksWorld).1.dataTable = putItem stocksWorld.dataTable item ∧
      (monitoringLoop 300000 (failedFirstFetchTick 1700000300000 stocksUpdated)
          stocksWorld).1.queue = stocksWorld.queue ++ [body] :=
  have h := monitoringLoop_isolates_failed_fetch 300000
    (failedFirstFetchTick 1700000300000 stocksUpdated) stocksWorld weatherSource stocksSource
    stocksUpdated { type := .update, data := stocksUpdated }
    (.failure "timeout of 10000ms exceeded")
    rfl rfl rfl (by decide) (by decide) rfl rfl rfl rfl rfl rfl rfl
  ⟨rfl, h.1, h.2⟩

/-! ## The fetcher -/

/-- A replacement text without a dollar sign stands for itself. -/
theorem getSubstitution_plain (matched before after : List Char) :
    ∀ (text : List Char), '$' ∉ text → getSubstitution matched before after text = text
  | [], _ => rfl
  | [_], _ => rfl
  | c :: d :: rest, h => by
    have hc : c ≠ '$' := fun hc => h (by simp [hc])
    have hr : '$' ∉ d :: rest := fun hr => h (List.mem_cons_of_mem _ hr)
    rw [getSubstitution]
    simp only [hc, if_false]
    rw [getSubstitution_plain matched before after (d :: rest) hr]

/-- The name `X-API-Key` is not an `Authorization` name. -/
theorem ne_apiKeyHeader_of_isAuthorization (name : String) (h : isAuthorization name = true) :
    name ≠ "X-API-Key" := by
  rintro rfl
  revert h
  decide

/-- The assignment of a header leaves the headers of other names alone. -/
theorem mem_setHeader_of_ne (headers : List (String × String)) (name value : String)
    (p : String × String) (hp : p ∈ headers) (hne : p.1 ≠ name) :
    p ∈ setHeader headers name value := by
  unfold setHeader
  split
  · exact List.mem_map.2 ⟨p, hp, by simp [hne]⟩
  · exact List.mem_append_left _ hp

/-- After the assignment the header is there. -/
theorem mem_setHeader_self (headers : List (String × String)) (name value : String) :
    (name, value) ∈ setHeader headers name value := by
  unfold setHeader
  split
  · next h =>
    obtain ⟨p, hp, hn⟩ := List.any_eq_true.1 h
    have hn1 : p.1 = name := by simpa using hn
    exact List.mem_map.2 ⟨p, hp, by simp [hn1]⟩
  · simp

/-- A header of the name assigned has the value assigned. -/
theorem eq_of_mem_setHeader (headers : List (String × String)) (name value v : String)
    (h : (name, v) ∈ setHeader headers name value)
    (hnew : ∀ v0, (name, v0) ∉ headers) : v = value := by
  unfold setHeader at h
  split at h
  · next hany =>
    obtain ⟨p, hp, hn⟩ := List.any_eq_true.1 hany
    have hn1 : p.1 = name := by simpa using hn
    exact absurd (by rw [← hn1]; exact hp) (hnew p.2)
  · rcases List.mem_append.1 h with h | h
    · exact absurd h (hnew v)
    · simpa using h

/-- Substitution keeps the header names. -/
theorem substituteKey_names (apiKey : String) (headers : List (String × String))
    (p : String × String) (hp : p ∈ substituteKey apiKey headers) :
    ∃ v, (p.1, v) ∈ headers := by
  obtain ⟨q, hq, rfl⟩ := List.mem_map.1 hp
  split
  · exact ⟨q.2, hq⟩
  · exact ⟨q.2, hq⟩

/-- What substitution does to an `Authorization` header with a placeholder. -/
theorem substituteKey_mem (apiKey name value : String) (headers : List (String × String))
    (before after : List Char)
    (hmem : (name, value) ∈ headers) (hauth : isAuthorization name = true)
    (hsplit : findFirst placeholder.data value.data = some (before, after)) :
    (name, ⟨before ++ getSubstitution placeholder.data before after apiKey.data ++ after⟩)
      ∈ substituteKey apiKey headers := by
  refine List.mem_map.2 ⟨(name, value), hmem, ?_⟩
  simp [hauth, includes, replaceFirst, hsplit]

/-- When the source names a secret that resolves to a non-empty key, the
request headers are the template with the key injected. -/
theorem requestHeaders_resolved (env : FetchEnv) (source : Source) (secretId apiKey : String)
    (hid : source.apiKeySecretId = some secretId) (hne : secretId ≠ "")
    (hkey : env.getApiKey secretId = some apiKey) (hk : apiKey ≠ "") :
    requestHeaders env source = injectApiKey apiKey source.headers := by
  simp [requestHeaders, hid, hne, hkey, hk]

/-- C13 as stated fails for a header that is not named `Authorization`: the
template `X-Custom-Auth: Token {apiKey}` goes out with the placeholder still
in it, and the key travels in `X-API-Key` instead. -/
theorem requestHeaders_other_name_not_substituted :
    includes "Token \x7bapiKey\x7d" placeholder = true ∧
    requestHeaders (calmFetch "K1" .null) (keyedSource [("X-Custom-Auth", "Token \x7bapiKey\x7d")])
      = [("X-Custom-Auth", "Token \x7bapiKey\x7d"), ("X-API-Key", "K1")] ∧
    ("X-Custom-Auth", "Token K1") ∉
      requestHeaders (calmFetch "K1" .null)
        (keyedSource [("X-Custom-Auth", "Token \x7bapiKey\x7d")]) := by
  refine ⟨by decide, by decide, by decide⟩

/-- Substitution leaves the headers of other names as they are. -/
theorem mem_substituteKey_iff (apiKey n v : String) (headers : List (String × String))
    (hn : isAuthorization n = false) :
    (n, v) ∈ substituteKey apiKey headers ↔ (n, v) ∈ headers := by
  unfold substituteKey
  constructor
  · intro h
    obtain ⟨q, hq, heq⟩ := List.mem_map.1 h
    by_cases hc : (isAuthorization q.1 && includes q.2 placeholder) = true
    · rw [if_pos hc] at heq
      have h1 : q.1 = n := congrArg Prod.fst heq
      rw [h1, hn] at hc
      simp at hc
    · rw [if_neg hc] at heq
      rw [← heq]
      exact hq
  · intro h
    exact List.mem_map.2 ⟨(n, v), h, by simp [hn]⟩

/-- The assignment of a header leaves the headers of other names as they
are. -/
theorem mem_setHeader_iff (headers : List (String × String)) (name value n v : String)
    (hne : n ≠ name) : (n, v) ∈ setHeader headers name value ↔ (n, v) ∈ headers := by
  constructor
  · intro h
    unfold setHeader at h
    split at h
    · obtain ⟨q, hq, heq⟩ := List.mem_map.1 h
      by_cases hc : q.1 = name
      · rw [if_pos hc] at heq
        have h1 : q.1 = n := congrArg Prod.fst heq
        exact absurd (h1.symm.trans hc) hne
      · rw [if_neg hc] at heq
        rw [← heq]
        exact hq
    · rcases List.mem_append.1 h with h | h
      · exact h
      · simp at h
        exact absurd h.1 hne
  · intro h
    exact mem_setHeader_of_ne headers name value (n, v) h hne

/-- C13 amended: for a source whose secret resolves to a non-empty key without
a dollar sign, a header named `Authorization` (in any letter case) whose value
contains the placeholder exactly once goes out with the key in place of the
placeholder; and the headers named neither `Authorization` nor `X-API-Key`
go out exactly as the template has them, placeholder included. -/
theorem requestHeaders_substitutes_authorization (env : FetchEnv) (source : Source)
    (secretId apiKey : String)
    (hid : source.apiKeySecretId = some secretId) (hne : secretId ≠ "")
    (hkey : env.getApiKey secretId = some apiKey) (hk : apiKey ≠ "")
    (hdollar : '$' ∉ apiKey.data) :
    (∀ name value before after, (name, value) ∈ source.headers →
      isAuthorization name = true →
      findFirst placeholder.data value.data = some (before, after) →
      findFirst placeholder.data after = none →
      (name, ⟨before ++ apiKey.data ++ after⟩) ∈ requestHeaders env source) ∧
    (∀ name value, isAuthorization name = false → name ≠ "X-API-Key" →
      ((name, value) ∈ requestHeaders env source ↔ (name, value) ∈ source.headers)) := by
  rw [requestHeaders_resolved env source secretId apiKey hid hne hkey hk]
  constructor
  · intro name value before after hmem hauth hsplit _
    have h := substituteKey_mem apiKey name value source.headers before after hmem hauth hsplit
    rw [getSubstitution_plain _ _ _ _ hdollar] at h
    unfold injectApiKey
    split
    · exact h
    · exact mem_setHeader_of_ne _ _ _ _ h (ne_apiKeyHeader_of_isAuthorization name hauth)
  · intro name value hauth hname
    unfold injectApiKey
    split
    · exact mem_substituteKey_iff apiKey name value source.headers hauth
    · rw [mem_setHeader_iff _ _ _ _ _ hname]
      exact mem_substituteKey_iff apiKey name value source.headers hauth

/-- C13 amended at the key `K1` and a template with the headers `Accept`,
`authorization: Bearer {apiKey}` and `X-Custom-Auth: Token {apiKey}`. -/
theorem requestHeaders_substitutes_authorization_witness :
    isAuthorization "authorization" = true ∧
    ("authorization", "Bearer K1") ∈
      requestHeaders (calmFetch "K1" .null)
        (keyedSource [("Accept", "application/json"),
          ("authorization", "Bearer \x7bapiKey\x7d"),
          ("X-Custom-Auth", "Token \x7bapiKey\x7d")]) ∧
    ("X-Custom-Auth", "Token \x7bapiKey\x7d") ∈
      requestHeaders (calmFetch "K1" .null)
        (keyedSource [("Accept", "application/json"),
          ("authorization", "Bearer \x7bapiKey\x7d"),
          ("X-Custom-Auth", "Token \x7bapiKey\x7d")]) :=
  have h := requestHeaders_substitutes_authorization (calmFetch "K1" .null)
    (keyedSource [("Accept", "application/json"), ("authorization", "Bearer \x7bapiKey\x7d"),
      ("X-Custom-Auth", "Token \x7bapiKey\x7d")])
    "data-source/stocks-api" "K1" rfl (by decide) rfl (by decide) (by decide)
  ⟨by decide,
    h.1 "authorization" "Bearer \x7bapiKey\x7d" "Bearer ".data [] (by decide) (by decide)
      (by decide) (by decide),
    (h.2 "X-Custom-Auth" "Token \x7bapiKey\x7d" (by decide) (by decide)).2 (by decide)⟩

/-- C14 as stated fails when a header that is not named `Authorization`
already embeds the key: with the template `X-Token: K1` and the key `K1` the
header `X-API-Key` is added all the same. -/
theorem injectApiKey_other_header_embeds_key :
    includes "K1" "K1" = true ∧
    requestHeaders (calmFetch "K1" .null) (keyedSource [("X-Token", "K1")])
      = [("X-Token", "K1"), ("X-API-Key", "K1")] := by
  refine ⟨by decide, by decide⟩

/-- C14 amended: for a template without an `X-API-Key` header and a secret
that resolves to a non-empty key, the outgoing headers have an `X-API-Key`
header exactly when no header named `Authorization` has, after placeholder
substitution, a value that contains the key; that header carries the key. -/
theorem requestHeaders_adds_key_iff (env : FetchEnv) (source : Source)
    (secretId apiKey : String)
    (hid : source.apiKeySecretId = some secretId) (hne : secretId ≠ "")
    (hkey : env.getApiKey secretId = some apiKey) (hk : apiKey ≠ "")
    (hnew : ∀ v, ("X-API-Key", v) ∉ source.headers) :
    ((∃ v, ("X-API-Key", v) ∈ requestHeaders env source) ↔
      ¬ ∃ p ∈ substituteKey apiKey source.headers,
          isAuthorization p.1 = true ∧ includes p.2 apiKey = true) ∧
    (∀ v, ("X-API-Key", v) ∈ requestHeaders env source → v = apiKey) := by
  rw [requestHeaders_resolved env source secretId apiKey hid hne hkey hk]
  have hsub : ∀ v, ("X-API-Key", v) ∉ substituteKey apiKey source.headers := by
    intro v hv
    obtain ⟨v0, hv0⟩ := substituteKey_names apiKey source.headers _ hv
    exact hnew v0 hv0
  have huses : authorizationUses apiKey (substituteKey apiKey source.headers) = true ↔
      ∃ p ∈ substituteKey apiKey source.headers,
        isAuthorization p.1 = true ∧ includes p.2 apiKey = true := by
    simp [authorizationUses, List.any_eq_true]
  unfold injectApiKey
  by_cases hu : authorizationUses apiKey (substituteKey apiKey source.headers) = true
  · simp only [hu, if_true]
    refine ⟨⟨fun ⟨v, hv⟩ => absurd hv (hsub v), fun hn => absurd (huses.1 hu) hn⟩, ?_⟩
    intro v hv
    exact absurd hv (hsub v)
  · simp only [hu, if_false]
    refine ⟨⟨fun _ hex => hu (huses.2 hex), fun _ => ⟨apiKey, mem_setHeader_self _ _ _⟩⟩, ?_⟩
    intro v hv
    exact eq_of_mem_setHeader _ _ _ _ hv hsub

/-- C14 amended at the template `Authorization: Bearer {apiKey}` and key `K1`:
the key is embedded, no `X-API-Key` goes out. -/
theorem requestHeaders_adds_key_iff_witness :
    ((∃ v, ("X-API-Key", v) ∈ requestHeaders (calmFetch "K1" .null)
        (keyedSource [("Authorization", "Bearer \x7bapiKey\x7d")])) ↔
      ¬ ∃ p ∈ substituteKey "K1" (keyedSource [("Authorization", "Bearer \x7bapiKey\x7d")]).headers,
          isAuthorization p.1 = true ∧ includes p.2 "K1" = true) ∧
    requestHeaders (calmFetch "K1" .null)
        (keyedSource [("Authorization", "Bearer \x7bapiKey\x7d")])
      = [("Authorization", "Bearer K1")] :=
  ⟨(requestHeaders_adds_key_iff (calmFetch "K1" .null)
      (keyedSource [("Authorization", "Bearer \x7bapiKey\x7d")]) "data-source/stocks-api" "K1"
      rfl (by decide) rfl (by decide) (by intro v hv; simp [keyedSource] at hv)).1, by decide⟩

/-- C15 fails on the code for a template with two placeholders in one value:
the first injection replaces the first placeholder only, a second injection
replaces the other, so the two results differ. -/
theorem injectApiKey_not_idempotent :
    injectApiKey "K1" [("Authorization", "Bearer \x7bapiKey\x7d \x7bapiKey\x7d")]
      = [("Authorization", "Bearer K1 \x7bapiKey\x7d")] ∧
    injectApiKey "K1" (injectApiKey "K1" [("Authorization", "Bearer \x7bapiKey\x7d \x7bapiKey\x7d")])
      = [("Authorization", "Bearer K1 K1")] ∧
    injectApiKey "K1" (injectApiKey "K1" [("Authorization", "Bearer \x7bapiKey\x7d \x7bapiKey\x7d")])
      ≠ injectApiKey "K1" [("Authorization", "Bearer \x7bapiKey\x7d \x7bapiKey\x7d")] := by
  refine ⟨by decide, by decide, by decide⟩

/-- C16: `fetchExternalData` fails with the error of the request when the
request fails, with the error of the XML parser when an XML source fails to
parse, and returns a payload when neither fails: the response data, or for an
XML source the parsed tree. -/
theorem fetchExternalData_surfaces_failures (env : FetchEnv) (source : Source) :
    (∀ e, env.httpGet source.url (requestHeaders env source) = .error e →
      fetchExternalData env source = .error e) ∧
    (∀ data e, env.httpGet source.url (requestHeaders env source) = .ok data →
      source.dataFormat = "xml" → env.parseXml data = .error e →
      fetchExternalData env source = .error e) ∧
    (∀ data result, env.httpGet source.url (requestHeaders env source) = .ok data →
      source.dataFormat = "xml" → env.parseXml data = .ok result →
      fetchExternalData env source = .ok result) ∧
    (∀ data, env.httpGet source.url (requestHeaders env source) = .ok data →
      source.dataFormat ≠ "xml" → fetchExternalData env source = .ok data) := by
  refine ⟨?_, ?_, ?_, ?_⟩
  · intro e h; simp [fetchExternalData, h]
  · intro data e h hx hp; simp [fetchExternalData, h, hx, hp]
  · intro data result h hx hp; simp [fetchExternalData, h, hx, hp]
  · intro data h hx; simp [fetchExternalData, h, hx]

/-- C16 at a request that times out. -/
theorem fetchExternalData_surfaces_failures_witness :
    fetchExternalData
        { calmFetch "K1" .null with
          httpGet := fun _ _ => .error (.failure "timeout of 10000ms exceeded") }
        stocksSource
      = .error (.failure "timeout of 10000ms exceeded") :=
  (fetchExternalData_surfaces_failures
    { calmFetch "K1" .null with
      httpGet := fun _ _ => .error (.failure "timeout of 10000ms exceeded") }
    stocksSource).1 (.failure "timeout of 10000ms exceeded") rfl

/-! ## The fan-out dispatcher -/

/-- The push of a call of `sendToConnection`. -/
theorem sendToConnection_post (env : PushEnv) (connectionId : String) (data : Json) :
    (sendToConnection env connectionId data).post
      = .post connectionId (JSON.stringify data) env.post := by
  unfold sendToConnection
  cases hp : env.post with
  | delivered => rfl
  | failed e => rfl
  | gone => cases hd : env.deleteError <;> rfl

/-- The clean-up of a call of `sendToConnection` holds no push. -/
theorem sendToConnection_cleanup (env : PushEnv) (connectionId : String) (data : Json) :
    ∀ c ∈ (sendToConnection env connectionId data).cleanup, c.postTarget = none := by
  unfold sendToConnection
  cases hp : env.post with
  | delivered => simp
  | failed e => simp
  | gone => cases hd : env.deleteError <;> simp [Call.postTarget]

/-- A call of `sendToConnection` removes its connection exactly when the push
is answered with 410 and the delete resolves. -/
theorem sendToConnection_removed (env : PushEnv) (connectionId : String) (data : Json)
    (cid : String) :
    (sendToConnection env connectionId data).removed = some cid ↔
      connectionId = cid ∧ env.post = .gone ∧ env.deleteError = none := by
  unfold sendToConnection
  cases hp : env.post with
  | delivered => simp
  | failed e => simp
  | gone => cases hd : env.deleteError <;> simp

/-- The `k`-th call of the `map` is the call for the `k`-th subscriber. -/
theorem sendAll_getElem? (env : Nat → PushEnv) (message : String → Json) :
    ∀ (L : List Connection) (i k : Nat),
      (sendAll env message i L)[k]?
        = (L[k]?).map (fun c =>
            sendToConnection (env (i + k)) c.connectionId (message (env (i + k)).time))
  | [], _, _ => by simp [sendAll]
  | c :: cs, i, 0 => by simp [sendAll]
  | c :: cs, i, k + 1 => by
    simp only [sendAll, List.getElem?_cons_succ]
    rw [sendAll_getElem? env message cs (i + 1) k]
    rw [show i + 1 + k = i + (k + 1) by omega]

/-- The pushes of the `map` go to the subscribers, one each, in order. -/
theorem sendAll_postTargets (env : Nat → PushEnv) (message : String → Json) :
    ∀ (L : List Connection) (i : Nat),
      ((sendAll env message i L).map Sent.post).filterMap Call.postTarget
        = L.map Connection.connectionId
  | [], _ => by simp [sendAll]
  | c :: cs, i => by
    simp only [sendAll, List.map_cons]
    rw [List.filterMap_cons_some (by rw [sendToConnection_post]; rfl)]
    rw [sendAll_postTargets env message cs (i + 1)]

/-- The clean-ups of the `map` hold no push. -/
theorem sendAll_cleanup_postTargets (env : Nat → PushEnv) (message : String → Json)
    (L : List Connection) (i : Nat) :
    (((sendAll env message i L).map Sent.cleanup).flatten).filterMap Call.postTarget = [] := by
  rw [List.filterMap_eq_nil_iff]
  intro c hc
  obtain ⟨l, hl, hcl⟩ := List.mem_flatten.1 hc
  obtain ⟨s, hs, rfl⟩ := List.mem_map.1 hl
  obtain ⟨k, hk⟩ := List.mem_iff_getElem?.1 hs
  rw [sendAll_getElem?] at hk
  cases hL : L[k]? with
  | none => simp [hL] at hk
  | some d =>
    simp only [hL, Option.map_some', Option.some.injEq] at hk
    subst hk
    exact sendToConnection_cleanup _ _ _ c hcl

/-- A connection survives the pruning unless the push to it, as a subscriber,
was answered with 410. -/
theorem mem_prune (env : Nat → PushEnv) (message : String → Json) (dir L : List Connection)
    (D : Connection) (hD : D ∈ dir)
    (hkeep : ∀ k c, L[k]? = some c → c.connectionId = D.connectionId → (env k).post ≠ .gone) :
    D ∈ prune dir (sendAll env message 0 L) := by
  unfold prune
  refine List.mem_filter.2 ⟨hD, ?_⟩
  simp only [Bool.not_eq_true', List.contains_eq_any_beq, List.any_eq_false, beq_iff_eq,
    List.mem_map, forall_exists_index, and_imp]
  intro r s hs hr heq
  obtain ⟨k, hk⟩ := List.mem_iff_getElem?.1 hs
  rw [sendAll_getElem?] at hk
  cases hL : L[k]? with
  | none => simp [hL] at hk
  | some c =>
    simp only [hL, Option.map_some', Option.some.injEq, Nat.zero_add] at hk
    subst hk
    subst hr
    obtain ⟨hid, hgone, -⟩ := (sendToConnection_removed _ _ _ _).1 heq.symm
    exact hkeep k c hL hid hgone

/-- A subscriber whose push is answered with 410 and whose delete resolves is
not in the directory afterwards. -/
theorem not_mem_prune (env : Nat → PushEnv) (message : String → Json)
    (dir L : List Connection) (C : Connection) (k : Nat) (hC : L[k]? = some C)
    (hgone : (env k).post = .gone) (hdel : (env k).deleteError = none) :
    ∀ D ∈ prune dir (sendAll env message 0 L), D.connectionId ≠ C.connectionId := by
  intro D hD heq
  unfold prune at hD
  have h2 := (List.mem_filter.1 hD).2
  have hmem : some D.connectionId ∈ (sendAll env message 0 L).map Sent.removed := by
    refine List.mem_map.2 ⟨sendToConnection (env k) C.connectionId (message (env k).time), ?_, ?_⟩
    · refine List.mem_iff_getElem?.2 ⟨k, ?_⟩
      rw [sendAll_getElem?, hC]
      simp
    · exact (sendToConnection_removed _ _ _ _).2 ⟨heq.symm, hgone, hdel⟩
  simp only [Bool.not_eq_true', List.contains_eq_any_beq, List.any_eq_false, beq_iff_eq] at h2
  exact h2 _ hmem rfl

/-- When every push is delivered the pruning removes nothing. -/
theorem prune_all_delivered (env : Nat → PushEnv) (message : String → Json)
    (dir L : List Connection) (hall : ∀ k, k < L.length → (env k).post = .delivered) :
    prune dir (sendAll env message 0 L) = dir := by
  unfold prune
  apply List.filter_eq_self.2
  intro D hD
  have := mem_prune env message dir L D hD (by
    intro k c hk _ hg
    have hlt : k < L.length := by
      rcases Nat.lt_or_ge k L.length with h | h
      · exact h
      · rw [List.getElem?_eq_none h] at hk; cases hk
    rw [hall k hlt] at hg
    cases hg)
  exact (List.mem_filter.1 this).2

/-- The processing of a well-formed change event: the query for its
subscribers, one push to each, the clean-ups, and no error. -/
theorem processRecord_wellFormed (env : RecordEnv) (dir : List Connection) (body : String)
    (ext : Bool) (id : String) (data : Option Json)
    (hwf : WellFormedEvent body ext id data) (hq : env.queryError = none) :
    processRecord env body dir
      = { error := none
          dir := prune dir (sendAll env.push (updateMessage ext (some (.str id)) data) 0
            (subscribersOf dir id))
          calls := .subscribers (some id) true
            :: ((sendAll env.push (updateMessage ext (some (.str id)) data) 0
                  (subscribersOf dir id)).map Sent.post
              ++ ((sendAll env.push (updateMessage ext (some (.str id)) data) 0
                  (subscribersOf dir id)).map Sent.cleanup).flatten) } := by
  obtain ⟨kvs, ch, hparse, hext, hid, hch, hdata⟩ := hwf
  have hempty : prune dir [] = dir := by simp [prune]
  have hE : updateMessage true (some (.str id)) data = externalUpdate (some (.str id)) data := by
    funext ts; simp [updateMessage]
  have hS : updateMessage false (some (.str id)) data = sheetUpdate (some (.str id)) data := by
    funext ts; simp [updateMessage]
  cases ext with
  | true =>
    simp only [if_true] at hid
    rw [hE]
    simp only [processRecord, hparse, propOf, Json.field, hext, if_true,
      processExternalSourceMessage, fanOut, querySubscribers, hid, keyString, hq, hch]
    cases hL : subscribersOf dir id with
    | nil => simp [hempty, sendAll]
    | cons c cs => simp [hdata]
  | false =>
    simp only [Bool.false_eq_true, if_false] at hid
    rw [hS]
    simp only [processRecord, hparse, propOf, Json.field, hext, Bool.false_eq_true, if_false,
      fanOut, querySubscribers, hid, keyString, hq, hch]
    cases hL : subscribersOf dir id with
    | nil => simp [hempty, sendAll]
    | cons c cs => simp [hdata]

/-- A batch of one well-formed change event is processed without error. -/
theorem processSQSMessages_single (env : Nat → RecordEnv) (dir : List Connection)
    (record : SqsRecord) (ext : Bool) (id : String) (data : Option Json)
    (hwf : WellFormedEvent record.body ext id data) (hq : (env 0).queryError = none) :
    processSQSMessages env [record] dir
      = ({ statusCode := 200, body := .text "Processed" },
         prune dir (sendAll (env 0).push (updateMessage ext (some (.str id)) data) 0
            (subscribersOf dir id)),
         .subscribers (some id) true
            :: ((sendAll (env 0).push (updateMessage ext (some (.str id)) data) 0
                  (subscribersOf dir id)).map Sent.post
              ++ ((sendAll (env 0).push (updateMessage ext (some (.str id)) data) 0
                  (subscribersOf dir id)).map Sent.cleanup).flatten)) := by
  simp [processSQSMessages, processRecords, processRecord_wellFormed (env 0) dir record.body
    ext id data hwf hq]

/-- The fields `type` and `data` of the message pushed for an event. -/
theorem updateMessage_fields (ext : Bool) (id : String) (data : Option Json) (ts : String) :
    (updateMessage ext (some (.str id)) data ts).field "type"
      = some (.str (if ext then "EXTERNAL_UPDATE" else "UPDATE")) ∧
    (updateMessage ext (some (.str id)) data ts).field "data" = data := by
  cases ext <;> cases data <;>
    simp [updateMessage, externalUpdate, sheetUpdate, optField, Json.field, lookupProp]

/-- The pushes in the calls of the `map` are those to the subscribers. -/
theorem mem_sendAll_post (env : Nat → PushEnv) (message : String → Json)
    (L : List Connection) (cid text : String) (o : PostOutcome)
    (h : Call.post cid text o ∈ (sendAll env message 0 L).map Sent.post
      ++ ((sendAll env message 0 L).map Sent.cleanup).flatten) :
    ∃ k c, L[k]? = some c ∧ cid = c.connectionId ∧
      text = JSON.stringify (message (env k).time) ∧ o = (env k).post := by
  rcases List.mem_append.1 h with h | h
  · obtain ⟨s, hs, hp⟩ := List.mem_map.1 h
    obtain ⟨k, hk⟩ := List.mem_iff_getElem?.1 hs
    rw [sendAll_getElem?] at hk
    cases hL : L[k]? with
    | none => simp [hL] at hk
    | some c =>
      simp only [hL, Option.map_some', Option.some.injEq, Nat.zero_add] at hk
      subst hk
      rw [sendToConnection_post] at hp
      cases hp
      exact ⟨k, c, hL, rfl, rfl, rfl⟩
  · obtain ⟨l, hl, hcl⟩ := List.mem_flatten.1 h
    obtain ⟨s, hs, rfl⟩ := List.mem_map.1 hl
    obtain ⟨k, hk⟩ := List.mem_iff_getElem?.1 hs
    rw [sendAll_getElem?] at hk
    cases hL : L[k]? with
    | none => simp [hL] at hk
    | some c =>
      simp only [hL, Option.map_some', Option.some.injEq] at hk
      subst hk
      have := sendToConnection_cleanup _ _ _ _ hcl
      simp [Call.postTarget] at this

/-- The push to the `k`-th subscriber is among the calls of the `map`. -/
theorem post_mem_sendAll (env : Nat → PushEnv) (message : String → Json)
    (L : List Connection) (k : Nat) (c : Connection) (hc : L[k]? = some c) :
    Call.post c.connectionId (JSON.stringify (message (env k).time)) (env k).post
      ∈ (sendAll env message 0 L).map Sent.post := by
  refine List.mem_map.2 ⟨sendToConnection (env k) c.connectionId (message (env k).time), ?_, ?_⟩
  · refine List.mem_iff_getElem?.2 ⟨k, ?_⟩
    rw [sendAll_getElem?, hc]
    simp
  · exact sendToConnection_post _ _ _

/-- C17: for a well-formed change event the dispatcher pushes exactly once to
each connection the directory returns for the source of the event, in order;
each push carries the `data` of the event and the type `UPDATE` (sheet) or
`EXTERNAL_UPDATE` (external); the response is `{200, 'Processed'}`; and when
all pushes are delivered the directory is left as it was. -/
theorem processSQSMessages_fans_out (env : Nat → RecordEnv) (dir : List Connection)
    (record : SqsRecord) (ext : Bool) (id : String) (data : Option Json)
    (hwf : WellFormedEvent record.body ext id data) (hq : (env 0).queryError = none) :
    (processSQSMessages env [record] dir).2.2.filterMap Call.postTarget
      = (subscribersOf dir id).map Connection.connectionId ∧
    (∀ cid text o, Call.post cid text o ∈ (processSQSMessages env [record] dir).2.2 →
      ∃ m, JSON.parse text = .ok m ∧
        m.field "type" = some (.str (if ext then "EXTERNAL_UPDATE" else "UPDATE")) ∧
        m.field "data" = data) ∧
    (processSQSMessages env [record] dir).1 = { statusCode := 200, body := .text "Processed" } ∧
    ((∀ k, k < (subscribersOf dir id).length → ((env 0).push k).post = .delivered) →
      (processSQSMessages env [record] dir).2.1 = dir) := by
  rw [processSQSMessages_single env dir record ext id data hwf hq]
  refine ⟨?_, ?_, rfl, ?_⟩
  · simp only [List.filterMap_cons, Call.postTarget, List.filterMap_append,
      sendAll_postTargets, sendAll_cleanup_postTargets, List.append_nil]
  · intro cid text o hmem
    rcases List.mem_cons.1 hmem with h | h
    · cases h
    · obtain ⟨k, c, -, -, rfl, -⟩ := mem_sendAll_post _ _ _ _ _ _ h
      exact ⟨_, parse_stringify _, (updateMessage_fields ext id data _).1,
        (updateMessage_fields ext id data _).2⟩
  · intro hall
    exact prune_all_delivered _ _ _ _ hall

/-- C17 on the scenario of the spec (two connections subscribed to `sheet-9`,
an `update` with payload `["A","C"]`) and on the test SQS-002 with a second
subscriber (an `update` of `external-source-001` with the stock prices 150.25
and 290.10): every push is delivered. -/
theorem processSQSMessages_fans_out_witness :
    ((processSQSMessages (pushesSettle (fun _ => .delivered)) [sheetRecord]
        sampleDirectory).2.2.filterMap Call.postTarget = ["conn-A", "conn-B"] ∧
      (processSQSMessages (pushesSettle (fun _ => .delivered)) [sheetRecord] sampleDirectory).2.1
        = sampleDirectory) ∧
    ((processSQSMessages (pushesSettle (fun _ => .delivered)) [externalRecord]
        externalDirectory).2.2.filterMap Call.postTarget
        = ["abcdef123456", "connection-1234567890"] ∧
      (∀ cid text o, Call.post cid text o ∈
          (processSQSMessages (pushesSettle (fun _ => .delivered)) [externalRecord]
            externalDirectory).2.2 →
        ∃ m, JSON.parse text = .ok m ∧ m.field "type" = some (.str "EXTERNAL_UPDATE") ∧
          m.field "data" = some stocksInitial) ∧
      (processSQSMessages (pushesSettle (fun _ => .delivered)) [externalRecord]
        externalDirectory).1 = { statusCode := 200, body := .text "Processed" } ∧
      (processSQSMessages (pushesSettle (fun _ => .delivered)) [externalRecord]
        externalDirectory).2.1 = externalDirectory) :=
  have h := processSQSMessages_fans_out (pushesSettle (fun _ => .delivered)) sampleDirectory
    sheetRecord false "sheet-9" (some (.arr [.str "A", .str "C"]))
    ⟨_, _, rfl, rfl, rfl, rfl, rfl⟩ rfl
  have g := processSQSMessages_fans_out (pushesSettle (fun _ => .delivered)) externalDirectory
    externalRecord true "external-source-001" (some stocksInitial)
    ⟨_, _, rfl, rfl, rfl, rfl, rfl⟩ rfl
  ⟨⟨h.1, h.2.2.2 (fun _ _ => rfl)⟩, g.1, g.2.1, g.2.2.1, g.2.2.2 (fun _ _ => rfl)⟩

/-- Connections with the same key in a directory without duplicate keys are
the same connection. -/
theorem eq_of_connectionId_eq (dir : List Connection)
    (hnodup : (dir.map Connection.connectionId).Nodup) (c D : Connection)
    (hc : c ∈ dir) (hD : D ∈ dir) (h : c.connectionId = D.connectionId) : c = D :=
  List.inj_on_of_nodup_map hnodup hc hD h

/-- A subscriber is in the directory. -/
theorem mem_of_subscriber (dir : List Connection) (id : String) (k : Nat) (c : Connection)
    (h : (subscribersOf dir id)[k]? = some c) : c ∈ dir :=
  (List.mem_filter.1 (List.mem_iff_getElem?.2 ⟨k, h⟩)).1

/-- C18: fan-out isolation.  When the push to subscriber `A` of a well-formed
event fails with an error other than Gone, the push to subscriber `B` is
still made, carries the `data` of the event under the type of its kind, and
settles as the transport answers for `B`; `A` stays in the directory, and
the response is `{200, 'Processed'}`. -/
theorem processSQSMessages_isolates_failed_push (env : Nat → RecordEnv)
    (dir : List Connection) (record : SqsRecord) (ext : Bool) (id : String)
    (data : Option Json) (A B : Connection) (i j : Nat) (e : JsError)
    (hwf : WellFormedEvent record.body ext id data) (hq : (env 0).queryError = none)
    (hnodup : (dir.map Connection.connectionId).Nodup)
    (hA : (subscribersOf dir id)[i]? = some A) (hB : (subscribersOf dir id)[j]? = some B)
    (hfail : ((env 0).push i).post = .failed e) :
    Call.post B.connectionId
        (JSON.stringify (updateMessage ext (some (.str id)) data ((env 0).push j).time))
        ((env 0).push j).post ∈ (processSQSMessages env [record] dir).2.2 ∧
    (∃ m, JSON.parse
        (JSON.stringify (updateMessage ext (some (.str id)) data ((env 0).push j).time))
          = .ok m ∧
      m.field "type" = some (.str (if ext then "EXTERNAL_UPDATE" else "UPDATE")) ∧
      m.field "data" = data) ∧
    A ∈ (processSQSMessages env [record] dir).2.1 ∧
    (processSQSMessages env [record] dir).1 = { statusCode := 200, body := .text "Processed" } := by
  rw [processSQSMessages_single env dir record ext id data hwf hq]
  refine ⟨?_, ⟨_, parse_stringify _, (updateMessage_fields ext id data _).1,
    (updateMessage_fields ext id data _).2⟩, ?_, rfl⟩
  · exact List.mem_cons_of_mem _ (List.mem_append_left _ (post_mem_sendAll _ _ _ j B hB))
  · have hAdir := mem_of_subscriber dir id i A hA
    apply mem_prune _ _ _ _ A hAdir
    intro k c hk hid hgone
    have hcA : c = A :=
      eq_of_connectionId_eq dir hnodup c A (mem_of_subscriber dir id k c hk) hAdir hid
    subst hcA
    have hL : (subscribersOf dir id).Nodup := (List.Nodup.of_map _ hnodup).filter _
    have hlt : k < (subscribersOf dir id).length := by
      rcases Nat.lt_or_ge k (subscribersOf dir id).length with h | h
      · exact h
      · rw [List.getElem?_eq_none h] at hk; cases hk
    have hki : k = i := List.getElem?_inj hlt hL (hk.trans hA.symm)
    subst hki
    rw [hfail] at hgone
    cases hgone

/-- C18 on the test SQS-002 with a second subscriber: the push of the stock
prices to `abcdef123456` fails with an error other than Gone, the push to
`connection-1234567890` is delivered. -/
theorem processSQSMessages_isolates_failed_push_witness :
    (subscribersOf externalDirectory "external-source-001")[0]? = some connD ∧
    (subscribersOf externalDirectory "external-source-001")[1]? = some connE ∧
    Call.post "connection-1234567890"
        (JSON.stringify (updateMessage true (some (.str "external-source-001"))
          (some stocksInitial) "2023-11-14T22:20:01.000Z"))
        .delivered ∈
      (processSQSMessages
        (pushesSettle (fun i => if i = 0 then .failed (.failure "InternalServerError")
          else .delivered))
        [externalRecord] externalDirectory).2.2 ∧
    connD ∈ (processSQSMessages
        (pushesSettle (fun i => if i = 0 then .failed (.failure "InternalServerError")
          else .delivered))
        [externalRecord] externalDirectory).2.1 ∧
    (processSQSMessages
        (pushesSettle (fun i => if i = 0 then .failed (.failure "InternalServerError")
          else .delivered))
        [externalRecord] externalDirectory).1 = { statusCode := 200, body := .text "Processed" } :=
  have h := processSQSMessages_isolates_failed_push
    (pushesSettle (fun i => if i = 0 then .failed (.failure "InternalServerError")
      else .delivered))
    externalDirectory externalRecord true "external-source-001" (some stocksInitial)
    connD connE 0 1 (.failure "InternalServerError")
    ⟨_, _, rfl, rfl, rfl, rfl, rfl⟩ rfl (by decide) (by decide) (by decide) rfl
  ⟨by decide, by decide, h.1, h.2.2.1, h.2.2.2⟩

/-- C19: stale pruning.  When the push to subscriber `C` of a well-formed
event is answered with Gone (status 410) and the delete of `C` resolves, no
connection with the key of `C` is in the directory afterwards, every
connection whose own push was not answered with Gone is still there, and the
response is `{200, 'Processed'}`. -/
theorem processSQSMessages_prunes_gone (env : Nat → RecordEnv) (dir : List Connection)
    (record : SqsRecord) (ext : Bool) (id : String) (data : Option Json)
    (C : Connection) (i : Nat)
    (hwf : WellFormedEvent record.body ext id data) (hq : (env 0).queryError = none)
    (hnodup : (dir.map Connection.connectionId).Nodup)
    (hC : (subscribersOf dir id)[i]? = some C)
    (hgone : ((env 0).push i).post = .gone)
    (hdel : ((env 0).push i).deleteError = none) :
    (∀ D ∈ (processSQSMessages env [record] dir).2.1, D.connectionId ≠ C.connectionId) ∧
    (∀ D ∈ dir, (∀ k, (subscribersOf dir id)[k]? = some D → ((env 0).push k).post ≠ .gone) →
      D ∈ (processSQSMessages env [record] dir).2.1) ∧
    (processSQSMessages env [record] dir).1 = { statusCode := 200, body := .text "Processed" } := by
  rw [processSQSMessages_single env dir record ext id data hwf hq]
  refine ⟨?_, ?_, rfl⟩
  · exact not_mem_prune _ _ _ _ C i hC hgone hdel
  · intro D hD hkeep
    apply mem_prune _ _ _ _ D hD
    intro k c hk hid
    have hcD : c = D :=
      eq_of_connectionId_eq dir hnodup c D (mem_of_subscriber dir id k c hk) hD hid
    subst hcD
    exact hkeep k hk

/-- C19 on the test SQS-002 with a second subscriber: the push of the stock
prices to `abcdef123456` is answered with Gone; afterwards the directory
holds the other two connections only. -/
theorem processSQSMessages_prunes_gone_witness :
    (processSQSMessages (pushesSettle (fun i => if i = 0 then .gone else .delivered))
        [externalRecord] externalDirectory).2.1
      = [connE, connA] ∧
    (∀ D ∈ (processSQSMessages (pushesSettle (fun i => if i = 0 then .gone else .delivered))
        [externalRecord] externalDirectory).2.1, D.connectionId ≠ "abcdef123456") ∧
    (processSQSMessages (pushesSettle (fun i => if i = 0 then .gone else .delivered))
        [externalRecord] externalDirectory).1 = { statusCode := 200, body := .text "Processed" } :=
  have h := processSQSMessages_prunes_gone
    (pushesSettle (fun i => if i = 0 then .gone else .delivered))
    externalDirectory externalRecord true "external-source-001" (some stocksInitial) connD 0
    ⟨_, _, rfl, rfl, rfl, rfl, rfl⟩ rfl (by decide) (by decide) rfl rfl
  ⟨by decide, h.1, h.2.2⟩

/-- One iteration of the loop over the records. -/
theorem processRecords_cons (env : Nat → RecordEnv) (i : Nat) (record : SqsRecord)
    (rest : List SqsRecord) (dir : List Connection) :
    processRecords env i (record :: rest) dir
      = match (processRecord (env i) record.body dir).error with
        | some e =>
          { error := some e, dir := (processRecord (env i) record.body dir).dir,
            calls := (processRecord (env i) record.body dir).calls }
        | none =>
          { error := (processRecords env (i + 1) rest
              (processRecord (env i) record.body dir).dir).error
            dir := (processRecords env (i + 1) rest (processRecord (env i) record.body dir).dir).dir
            calls := (processRecord (env i) record.body dir).calls
              ++ (processRecords env (i + 1) rest
                (processRecord (env i) record.body dir).dir).calls } := by
  cases h : (processRecord (env i) record.body dir).error <;> simp [processRecords, h]

/-- A record whose body does not parse ends the loop at once. -/
theorem processRecords_malformed (env : Nat → RecordEnv) (i : Nat) (bad : SqsRecord)
    (rest : List SqsRecord) (dir : List Connection) (e : JsError)
    (hbad : JSON.parse bad.body = .error e) :
    processRecords env i (bad :: rest) dir = { error := some e, dir := dir, calls := [] } := by
  simp [processRecords_cons, processRecord, hbad]

/-- The loop over `pre ++ rest` when the loop over `pre` completes. -/
theorem processRecords_append_ok (env : Nat → RecordEnv) (rest : List SqsRecord) :
    ∀ (pre : List SqsRecord) (i : Nat) (dir : List Connection),
      (processRecords env i pre dir).error = none →
      processRecords env i (pre ++ rest) dir
        = { error := (processRecords env (i + pre.length) rest
              (processRecords env i pre dir).dir).error
            dir := (processRecords env (i + pre.length) rest (processRecords env i pre dir).dir).dir
            calls := (processRecords env i pre dir).calls
              ++ (processRecords env (i + pre.length) rest
                (processRecords env i pre dir).dir).calls }
  | [], i, dir, _ => by simp [processRecords]
  | r :: pre, i, dir, h => by
    cases hr : (processRecord (env i) r.body dir).error with
    | some e => simp [processRecords_cons, hr] at h
    | none =>
      have h1 : (processRecords env (i + 1) pre (processRecord (env i) r.body dir).dir).error
          = none := by
        simpa [processRecords_cons, hr] using h
      have ih := processRecords_append_ok env rest pre (i + 1) _ h1
      have hlen : i + (r :: pre).length = i + 1 + pre.length := by simp; omega
      rw [hlen]
      simp only [List.cons_append, processRecords_cons, hr, ih, List.append_assoc]

/-- The loop over `pre ++ rest` when the loop over `pre` throws. -/
theorem processRecords_append_error (env : Nat → RecordEnv) (rest : List SqsRecord) :
    ∀ (pre : List SqsRecord) (i : Nat) (dir : List Connection) (e : JsError),
      (processRecords env i pre dir).error = some e →
      processRecords env i (pre ++ rest) dir = processRecords env i pre dir
  | [], i, dir, e, h => by simp [processRecords] at h
  | r :: pre, i, dir, e, h => by
    cases hr : (processRecord (env i) r.body dir).error with
    | some e1 => simp [processRecords_cons, hr]
    | none =>
      have h1 : (processRecords env (i + 1) pre (processRecord (env i) r.body dir).dir).error
          = some e := by
        simpa [processRecords_cons, hr] using h
      have ih := processRecords_append_error env rest pre (i + 1) _ e h1
      simp only [List.cons_append, processRecords_cons, hr, ih]

/-- C20 as stated fails: a malformed record ahead of a well-formed one ends
the batch with status 500 and the well-formed record, which alone would be
pushed to both subscribers, is never processed. -/
theorem processSQSMessages_malformed_aborts_batch :
    processSQSMessages (pushesSettle (fun _ => .delivered)) [malformedRecord, sheetRecord]
        sampleDirectory
      = ({ statusCode := 500, body := .failed "Error processing messages: " .syntaxError },
         sampleDirectory, []) ∧
    (processSQSMessages (pushesSettle (fun _ => .delivered)) [sheetRecord]
        sampleDirectory).2.2.filterMap Call.postTarget = ["conn-A", "conn-B"] := by
  refine ⟨by decide, by decide⟩

/-- C20 amended: a record whose body is malformed (`JSON.parse` throws a
`SyntaxError`) ends the batch.  The response has status 500, the records
after it are not processed (the result is that of the batch cut off behind
the malformed record), and when the records before it were processed without
error their calls are all the calls of the batch and the body of the response
carries the parse error. -/
theorem processSQSMessages_stops_at_malformed (env : Nat → RecordEnv) (dir : List Connection)
    (pre rest : List SqsRecord) (bad : SqsRecord)
    (hbad : JSON.parse bad.body = .error .syntaxError) :
    processSQSMessages env (pre ++ bad :: rest) dir = processSQSMessages env (pre ++ [bad]) dir ∧
    (processSQSMessages env (pre ++ bad :: rest) dir).1.statusCode = 500 ∧
    ((processRecords env 0 pre dir).error = none →
      processSQSMessages env (pre ++ bad :: rest) dir
        = ({ statusCode := 500, body := .failed "Error processing messages: " .syntaxError },
           (processRecords env 0 pre dir).dir, (processRecords env 0 pre dir).calls)) := by
  cases hpre : (processRecords env 0 pre dir).error with
  | some e1 =>
    have h1 := processRecords_append_error env (bad :: rest) pre 0 dir e1 hpre
    have h2 := processRecords_append_error env [bad] pre 0 dir e1 hpre
    refine ⟨?_, ?_, fun h => by cases h⟩
    · simp [processSQSMessages, h1, h2]
    · simp [processSQSMessages, h1, hpre]
  | none =>
    have h1 := processRecords_append_ok env (bad :: rest) pre 0 dir hpre
    have h2 := processRecords_append_ok env [bad] pre 0 dir hpre
    rw [processRecords_malformed env _ bad rest _ _ hbad] at h1
    rw [processRecords_malformed env _ bad [] _ _ hbad] at h2
    refine ⟨?_, ?_, fun _ => ?_⟩
    · simp [processSQSMessages, h1, h2]
    · simp [processSQSMessages, h1]
    · simp [processSQSMessages, h1]

/-- C20 amended at a batch of the record of the test SQS-002, the malformed
record of the test SQS-006 and a well-formed third one: the first is pushed
to its two subscribers, the response has status 500. -/
theorem processSQSMessages_stops_at_malformed_witness :
    JSON.parse malformedRecord.body = .error .syntaxError ∧
    processSQSMessages (pushesSettle (fun _ => .delivered))
        ([externalRecord] ++ malformedRecord :: [sheetRecord]) externalDirectory
      = ({ statusCode := 500, body := .failed "Error processing messages: " .syntaxError },
         (processRecords (pushesSettle (fun _ => .delivered)) 0 [externalRecord]
           externalDirectory).dir,
         (processRecords (pushesSettle (fun _ => .delivered)) 0 [externalRecord]
           externalDirectory).calls) ∧
    (processRecords (pushesSettle (fun _ => .delivered)) 0 [externalRecord]
        externalDirectory).calls.filterMap Call.postTarget
      = ["abcdef123456", "connection-1234567890"] :=
  ⟨rfl,
   (processSQSMessages_stops_at_malformed (pushesSettle (fun _ => .delivered)) externalDirectory
    [externalRecord] [sheetRecord] malformedRecord rfl).2.2 (by decide), by decide⟩

/-! ## The envelope of a change notification -/

/-- The envelope `sendChangeNotification` serializes. -/
theorem notificationBody_wellFormed (timestamp s : String) (c : Change) :
    WellFormedEvent (notificationBody timestamp s c) true s (some c.data) := by
  obtain ⟨ty, d⟩ := c
  cases ty
  · exact ⟨_, [("type", .str "initial"), ("data", d)], parse_stringify _,
      by simp [lookupProp, isExternal], by simp [lookupProp],
      by simp [lookupProp, Change.toJson], by simp [lookupProp]⟩
  · exact ⟨_, [("type", .str "update"), ("data", d)], parse_stringify _,
      by simp [lookupProp, isExternal], by simp [lookupProp],
      by simp [lookupProp, Change.toJson], by simp [lookupProp]⟩

/-- C27: the envelope round trip.  The body `sendChangeNotification` puts on
the queue for the source `s` and the change `c` parses to an envelope with
`sourceId = s`, `sourceType = 'external'` and `changes = c`; the consumer
routes it to `processExternalSourceMessage`, and when the subscriber query
resolves it looks up the subscribers of `s`, pushes once to each of them in
order, and every push is the text of `{ type: 'EXTERNAL_UPDATE', sourceId: s,
sourceType: 'external', data: c.data, timestamp }`. -/
theorem notification_round_trip (p : PollEnv) (s : String) (c : Change) (w : World)
    (env : RecordEnv) (dir : List Connection)
    (hsend : p.sendError = none) (hq : env.queryError = none) :
    ∃ body envelope, sendChangeNotification p s c w = .ok { w with queue := w.queue ++ [body] } ∧
      JSON.parse body = .ok envelope ∧
      envelope.field "sourceId" = some (.str s) ∧
      envelope.field "sourceType" = some (.str "external") ∧
      envelope.field "changes"
        = some (.obj [("type", .str (match c.type with
                                    | .initial => "initial"
                                    | .update => "update")),
                      ("data", c.data)]) ∧
      processRecord env body dir = processExternalSourceMessage env envelope dir ∧
      (processRecord env body dir).error = none ∧
      (processRecord env body dir).calls.head? = some (.subscribers (some s) true) ∧
      (processRecord env body dir).calls.filterMap Call.postTarget
        = (subscribersOf dir s).map Connection.connectionId ∧
      ∀ cid text o, Call.post cid text o ∈ (processRecord env body dir).calls →
        ∃ k, text = JSON.stringify (.obj [("type", .str "EXTERNAL_UPDATE"),
            ("sourceId", .str s), ("sourceType", .str "external"), ("data", c.data),
            ("timestamp", .str (env.push k).time)]) ∧
          JSON.parse text = .ok (.obj [("type", .str "EXTERNAL_UPDATE"),
            ("sourceId", .str s), ("sourceType", .str "external"), ("data", c.data),
            ("timestamp", .str (env.push k).time)]) := by
  have hparse : JSON.parse (notificationBody p.sendTime s c)
      = .ok (.obj [("sourceId", .str s), ("sourceType", .str "external"),
          ("timestamp", .str p.sendTime), ("changes", c.toJson)]) := parse_stringify _
  have hrec := processRecord_wellFormed env dir _ true s (some c.data)
    (notificationBody_wellFormed p.sendTime s c) hq
  refine ⟨notificationBody p.sendTime s c, _, by simp [sendChangeNotification, hsend], hparse,
    by simp [Json.field, lookupProp], by simp [Json.field, lookupProp],
    by obtain ⟨ty, d⟩ := c; cases ty <;> simp [Json.field, lookupProp, Change.toJson],
    ?_, ?_, ?_, ?_, ?_⟩
  · simp [processRecord, hparse, propOf, Json.field, lookupProp, isExternal]
  · rw [hrec]
  · rw [hrec]; rfl
  · rw [hrec]
    simp only [List.filterMap_cons, Call.postTarget, List.filterMap_append,
      sendAll_postTargets, sendAll_cleanup_postTargets, List.append_nil]
  · intro cid text o hmem
    rw [hrec] at hmem
    simp only [List.mem_cons] at hmem
    rcases hmem with h | h
    · cases h
    · obtain ⟨k, _, _, _, ht, _⟩ := mem_sendAll_post _ _ _ _ _ _ h
      have ht2 : text = JSON.stringify (.obj [("type", .str "EXTERNAL_UPDATE"),
          ("sourceId", .str s), ("sourceType", .str "external"), ("data", c.data),
          ("timestamp", .str (env.push k).time)]) := by rw [ht]; rfl
      exact ⟨k, ht2, by rw [ht2]; exact parse_stringify _⟩

/-- C27 at the `update` of `external-source-001` to the stock prices 152.75
and 288.30, with two subscribers. -/
theorem notification_round_trip_witness :
    ∃ body envelope,
      sendChangeNotification (calmPoll .null) "external-source-001"
          { type := .update, data := stocksUpdated } (registryOnly [])
        = .ok { registryOnly [] with queue := (registryOnly []).queue ++ [body] } ∧
      JSON.parse body = .ok envelope ∧
      envelope.field "changes"
        = some (.obj [("type", .str "update"), ("data", stocksUpdated)]) ∧
      (processRecord ((pushesSettle (fun _ => .delivered)) 0) body
          externalDirectory).calls.filterMap Call.postTarget
        = (subscribersOf externalDirectory "external-source-001").map
            Connection.connectionId ∧
      (subscribersOf externalDirectory "external-source-001").map Connection.connectionId
        = ["abcdef123456", "connection-1234567890"] :=
  (notification_round_trip (calmPoll .null) "external-source-001"
    { type := .update, data := stocksUpdated }
    (registryOnly []) ((pushesSettle (fun _ => .delivered)) 0) externalDirectory rfl rfl).imp
    (fun _ h => h.imp (fun _ g => ⟨g.1, g.2.1, g.2.2.2.2.1, g.2.2.2.2.2.2.2.2.1, by decide⟩))

/-! ## The default polling interval -/

/-- C28 fails on the code: a source with a URL and no polling interval of its
own, checked `300000` ms (five minutes) before the tick, is not polled under
the default `POLLING_INTERVAL` of `300000`; the default, given in
milliseconds, is multiplied by 1000 like an interval in seconds, so the
source is due only `300000000` ms after its last check. -/
theorem monitoringLoop_default_interval_late :
    defaultIntervalSource.pollingInterval = none ∧
    missingUrl defaultIntervalSource = false ∧
    (1700000300000 : Int) - lastCheckedMs defaultIntervalSource = 300000 ∧
    (monitoringLoop 300000 (calmTick 1700000300000 .null)
        (registryOnly [defaultIntervalSource])).2 = [.scheduleNext 300000] ∧
    isDue 300000 (1700000000000 + 299999999) defaultIntervalSource = false ∧
    isDue 300000 (1700000000000 + 300000000) defaultIntervalSource = true := by
  refine ⟨rfl, rfl, by decide, by decide, by decide, by decide⟩

/-! ## Subscriptions -/

/-- The three ways a call of `sendToConnection` settles without an error of
its own clean-up, and the fourth. -/
theorem sendToConnection_eq (env : PushEnv) (connectionId : String) (data : Json) :
    sendToConnection env connectionId data
      = { post := .post connectionId (JSON.stringify data) env.post
          cleanup := match env.post with
            | .gone => [.delete connectionId env.deleteError.isNone]
            | _ => []
          removed := match env.post with
            | .gone => if env.deleteError.isNone then some connectionId else none
            | _ => none
          error := match env.post with
            | .delivered => none
            | .failed e => some e
            | .gone => env.deleteError } := by
  unfold sendToConnection
  cases env.post with
  | delivered => rfl
  | failed e => rfl
  | gone => cases env.deleteError <;> rfl

/-- The pruning after one send that removed nothing. -/
theorem prune_single_kept (dir : List Connection) (sent : Sent) (h : sent.removed = none) :
    prune dir [sent] = dir := by
  unfold prune
  apply List.filter_eq_self.2
  intro c _
  simp [h]

/-- The pruning after one send that removed the connection `cid`. -/
theorem prune_single_removed (dir : List Connection) (sent : Sent) (cid : String)
    (h : sent.removed = some cid) :
    ∀ c ∈ prune dir [sent], c.connectionId ≠ cid := by
  intro c hc heq
  unfold prune at hc
  have h2 := (List.mem_filter.1 hc).2
  simp [h, heq] at h2

/-- The update of a subscription leaves the connection in the directory,
subscribed to the identifier. -/
theorem setSubscription_mem (dir : List Connection) (cid id : String) (tag : Option String) :
    ∃ c ∈ setSubscription dir cid id tag, c.connectionId = cid ∧ c.sheetId = some id := by
  unfold setSubscription
  by_cases h : dir.any (fun c => c.connectionId = cid) = true
  · simp only [h, ↓reduceIte]
    obtain ⟨c, hc, hk⟩ := List.any_eq_true.1 h
    have hk2 : c.connectionId = cid := by simpa using hk
    refine ⟨{ c with sheetId := some id, sourceType := tag }, ?_, hk2, rfl⟩
    refine List.mem_map.2 ⟨c, hc, ?_⟩
    simp [hk2]
  · simp only [h]
    exact ⟨_, List.mem_append_right _ (List.mem_singleton.2 rfl), rfl, rfl⟩

/-- The second half of `handleSubscribe` once the update of the connection
resolved and the latest data are known. -/
theorem subscribeConnection_eq (env : SubscribeEnv) (cid id : String) (sourceType : Option Json)
    (t : Tables) (calls : List Call) (latest : Json)
    (hupd : env.updateError = none)
    (hlatest : getLatestData env.latestError t.dataTable id = .ok latest) :
    subscribeConnection env cid sourceType (.str id) t calls
      = if truthy latest then
          .ok (afterPush
            (sendToConnection env.push cid (initialData sourceType (.str id) latest)).error
            (t.withConnections
              (prune
                (setSubscription t.connections cid id (keyString (some (orSheet sourceType))))
                [sendToConnection env.push cid (initialData sourceType (.str id) latest)]))
            (calls
              ++ [Call.subscribe cid (some id) true, Call.latest id env.latestError.isNone]
              ++ (sendToConnection env.push cid (initialData sourceType (.str id) latest)).post
                :: (sendToConnection env.push cid
                    (initialData sourceType (.str id) latest)).cleanup))
        else
          .ok (subscribed
            (t.withConnections
              (setSubscription t.connections cid id (keyString (some (orSheet sourceType)))))
            (calls ++ [.subscribe cid (some id) true, .latest id env.latestError.isNone])) := by
  unfold subscribeConnection
  simp only [keyString, hupd, hlatest]

/-- The status of a response of the second half of `handleSubscribe`. -/
theorem subscribeConnection_status (env : SubscribeEnv) (cid : String) (sourceType : Option Json)
    (dataId : Json) (t : Tables) (calls : List Call) (r : Response × Tables × List Call)
    (h : subscribeConnection env cid sourceType dataId t calls = .ok r) :
    r.1.statusCode = 200 ∨ r.1.statusCode = 500 := by
  unfold subscribeConnection at h
  split at h
  · cases h; right; rfl
  · split at h
    · cases h; right; rfl
    · split at h
      · cases h
      · split at h
        · cases h
          cases (sendToConnection env.push cid (initialData sourceType dataId _)).error with
          | some e => right; rfl
          | none => left; rfl
        · cases h; left; rfl

/-- The status of a response of the `try` block of `handleSubscribe`. -/
theorem trySubscribe_status (env : SubscribeEnv) (cid : String) (sourceType : Option Json)
    (dataId : Json) (t : Tables) (r : Response × Tables × List Call)
    (h : trySubscribe env cid sourceType dataId t = .ok r) :
    r.1.statusCode = 200 ∨ r.1.statusCode = 404 ∨ r.1.statusCode = 500 := by
  have key : ∀ t1 calls, subscribeConnection env cid sourceType dataId t1 calls = .ok r →
      r.1.statusCode = 200 ∨ r.1.statusCode = 404 ∨ r.1.statusCode = 500 := by
    intro t1 calls h1
    rcases subscribeConnection_status env cid sourceType dataId t1 calls r h1 with h2 | h2
    · exact Or.inl h2
    · exact Or.inr (Or.inr h2)
  unfold trySubscribe at h
  split at h
  · split at h
    · cases h; right; right; rfl
    · split at h
      · cases h; right; right; rfl
      · split at h
        · cases h; right; left; rfl
        · split at h
          · cases h; right; right; rfl
          · split at h
            · cases h; right; right; rfl
            · exact key _ _ h
  · exact key _ _ h

/-- The function `handleSubscribe` on a body that parses to a value other
than `null`. -/
theorem handleSubscribe_parsed (env : SubscribeEnv) (cid text : String) (t : Tables)
    (parsed : Json) (hparse : JSON.parse text = .ok parsed) (hnn : parsed ≠ .null) :
    handleSubscribe env cid (some text) t
      = match targetId parsed with
        | none =>
          .ok ({ statusCode := 400, body := .text "Missing ID parameter (sheetId or sourceId)" },
            t, [])
        | some dataId =>
          if truthy dataId then trySubscribe env cid (parsed.field "sourceType") dataId t
          else
            .ok ({ statusCode := 400,
                   body := .text "Missing ID parameter (sheetId or sourceId)" }, t, []) := by
  unfold handleSubscribe
  simp only [parseBody, hparse]
  cases parsed with
  | null => exact absurd rfl hnn
  | _ => rfl

/-- A record with another key is not the record looked up. -/
theorem getItem_eq_none (sources : List DataSource) (id : String)
    (h : ∀ record ∈ sources, lookupProp record "id" ≠ some (.str id)) :
    getItem sources id = none := by
  unfold getItem
  rw [List.find?_eq_none]
  intro record hrec
  have h1 := h record hrec
  unfold hasId
  split
  · next s heq =>
    intro hs
    have : s = id := by simpa using hs
    exact h1 (by rw [heq, this])
  · simp

/-- The function `handleSubscribe` on a request for a sheet: a body that is an
object whose `sourceType` is not `'external'` and whose `sheetId` is the
non-empty string `id`. -/
theorem handleSubscribe_sheet (env : SubscribeEnv) (cid text : String) (t : Tables)
    (kvs : List (String × Json)) (id : String)
    (hparse : JSON.parse text = .ok (.obj kvs))
    (hext : isExternal (lookupProp kvs "sourceType") = false)
    (hid : lookupProp kvs "sheetId" = some (.str id)) (hne : id ≠ "") :
    handleSubscribe env cid (some text) t
      = subscribeConnection env cid (lookupProp kvs "sourceType") (.str id) t [] := by
  rw [handleSubscribe_parsed env cid text t (.obj kvs) hparse (by simp)]
  simp [targetId, Json.field, hext, hid, truthy, hne, trySubscribe]

/-- The function `handleSubscribe` on a request for an external source: a body
that is an object whose `sourceType` is `'external'` and whose `sourceId` is
the non-empty string `id`, up to the lookup of the source. -/
theorem handleSubscribe_external (env : SubscribeEnv) (cid text : String) (t : Tables)
    (kvs : List (String × Json)) (id : String)
    (hparse : JSON.parse text = .ok (.obj kvs))
    (hext : isExternal (lookupProp kvs "sourceType") = true)
    (hid : lookupProp kvs "sourceId" = some (.str id)) (hne : id ≠ "")
    (hget : env.getError = none) :
    handleSubscribe env cid (some text) t
      = match getItem t.sources id with
        | none =>
          .ok ({ statusCode := 404, body := .text "Data source not found" }, t,
            [.getSource (some id) true])
        | some _ =>
          match env.countError with
          | some e =>
            .ok (failedToSubscribe e t [.getSource (some id) true, .addSubscriber id false])
          | none =>
            match addSubscriber t.sources id with
            | .error e =>
              .ok (failedToSubscribe e t [.getSource (some id) true, .addSubscriber id false])
            | .ok sources =>
              subscribeConnection env cid (lookupProp kvs "sourceType") (.str id)
                { t with sources := sources }
                [.getSource (some id) true, .addSubscriber id true] := by
  rw [handleSubscribe_parsed env cid text t (.obj kvs) hparse (by simp)]
  simp only [targetId, Json.field, hext, hid, truthy, hne, trySubscribe, keyString, hget,
    ↓reduceIte, bne_iff_ne, ne_eq, not_false_eq_true]

/-- The latest data of a source whose snapshot query resolves. -/
theorem getLatestData_eq (table : List Item) (id : String) (snap : Option Item) (payload : Json)
    (hsnap : queryLatest table id = snap)
    (hdata : ∀ item, snap = some item → JSON.parse item.data = .ok payload) :
    getLatestData none table id = .ok (if snap.isSome then payload else .null) := by
  unfold getLatestData
  rw [hsnap]
  cases snap with
  | none => rfl
  | some item => simp [hdata item rfl]

/-- The pushes among the calls of an accepted subscription. -/
theorem filter_isPost_subscribe (calls : List Call) (cid id : String) (ok : Bool)
    (extra : List Call) (hcalls : ∀ c ∈ calls, c.isPost = false) :
    (calls ++ [Call.subscribe cid (some id) true, Call.latest id ok] ++ extra).filter Call.isPost
      = extra.filter Call.isPost := by
  rw [List.filter_append, List.filter_append, List.filter_eq_nil_iff.2 (by
    intro c hc; simp [hcalls c hc])]
  simp [Call.isPost]

/-- The tables and the calls at the end of the `try` block. -/
theorem afterPush_snd (error : Option JsError) (t : Tables) (calls : List Call) :
    (afterPush error t calls).2 = (t, calls) := by
  cases error <;> rfl

/-- The status of a response of `handleSubscribe`. -/
theorem handleSubscribe_status (env : SubscribeEnv) (cid : String) (body : Option String)
    (t : Tables) (r : Response × Tables × List Call)
    (h : handleSubscribe env cid body t = .ok r) :
    r.1.statusCode = 200 ∨ r.1.statusCode = 400 ∨ r.1.statusCode = 404 ∨
      r.1.statusCode = 500 := by
  unfold handleSubscribe at h
  split at h
  · cases h; right; left; rfl
  · cases h
  · split at h
    · cases h
    · split at h
      · cases h; right; left; rfl
      · split at h
        · rcases trySubscribe_status _ _ _ _ _ _ h with h1 | h1 | h1
          · exact Or.inl h1
          · exact Or.inr (Or.inr (Or.inl h1))
          · exact Or.inr (Or.inr (Or.inr h1))
        · cases h; right; left; rfl

/-- When `handleSubscribe` throws, the body is the JSON text `null`, or the
body or the stored snapshot is a text outside the model. -/
theorem handleSubscribe_error (env : SubscribeEnv) (cid : String) (body : Option String)
    (t : Tables) (e : JsError) (h : handleSubscribe env cid body t = .error e) :
    (parseBody body = .ok .null ∧ e = .typeError) ∨ parseBody body = .error e ∨
      e = .outsideModel := by
  have sub : ∀ sourceType dataId t1 calls,
      subscribeConnection env cid sourceType dataId t1 calls = .error e → e = .outsideModel := by
    intro sourceType dataId t1 calls h1
    unfold subscribeConnection at h1
    split at h1
    · cases h1
    · split at h1
      · cases h1
      · split at h1
        · next e1 hl =>
          cases h1
          unfold getLatestData at hl
          split at hl
          · cases hl
          · split at hl
            · cases hl
            · split at hl
              · cases hl
              · cases hl; rfl
              · cases hl
        · split at h1 <;> cases h1
  unfold handleSubscribe at h
  split at h
  · cases h
  · next e1 _ he =>
    cases h
    exact Or.inr (Or.inl he)
  · next parsed hp =>
    split at h
    · next e1 hprop =>
      cases h
      left
      cases parsed <;> simp [propOf] at hprop
      exact ⟨hp, hprop.symm⟩
    · split at h
      · cases h
      · split at h
        · right; right
          unfold trySubscribe at h
          split at h
          · split at h
            · cases h
            · split at h
              · cases h
              · split at h
                · cases h
                · split at h
                  · cases h
                  · split at h
                    · cases h
                    · exact sub _ _ _ _ h
          · exact sub _ _ _ _ h
        · cases h

/-- C23 as stated fails: the bodies `{"sheetId":0}` and `{"sheetId":""}` are
valid JSON and carry a `sheetId`, yet `handleSubscribe` rejects them with
status 400 and `Missing ID parameter (sheetId or sourceId)`. -/
theorem handleSubscribe_falsy_id_rejected :
    JSON.parse (sheetRequest (.num 0)) = .ok (.obj [("sheetId", .num 0)]) ∧
    handleSubscribe (subscribeWithPush .delivered) "conn-A" (some (sheetRequest (.num 0)))
        sampleTables
      = .ok ({ statusCode := 400, body := .text "Missing ID parameter (sheetId or sourceId)" },
          sampleTables, []) ∧
    JSON.parse (sheetRequest (.str "")) = .ok (.obj [("sheetId", .str "")]) ∧
    handleSubscribe (subscribeWithPush .delivered) "conn-A" (some (sheetRequest (.str "")))
        sampleTables
      = .ok ({ statusCode := 400, body := .text "Missing ID parameter (sheetId or sourceId)" },
          sampleTables, []) :=
  ⟨rfl, rfl, rfl, rfl⟩

/-- C23 amended: `handleSubscribe` answers 400 with `Invalid request body` when
the body is not valid JSON, and 400 with `Missing ID parameter (sheetId or
sourceId)` when the body parses to a value other than `null` whose target
identifier (`sourceId` when `sourceType` is `'external'`, `sheetId`
otherwise) is absent or falsy; a response with status 400 arises in one of
these two ways only, and then the tables are unchanged and no call has left
the process. -/
theorem handleSubscribe_rejects_iff (env : SubscribeEnv) (cid text : String) (t : Tables) :
    (JSON.parse text = .error .syntaxError →
      handleSubscribe env cid (some text) t
        = .ok ({ statusCode := 400, body := .text "Invalid request body" }, t, [])) ∧
    (∀ parsed, JSON.parse text = .ok parsed → parsed ≠ .null → falsy (targetId parsed) = true →
      handleSubscribe env cid (some text) t
        = .ok ({ statusCode := 400, body := .text "Missing ID parameter (sheetId or sourceId)" },
            t, [])) ∧
    (∀ r, handleSubscribe env cid (some text) t = .ok r → r.1.statusCode = 400 →
      r.2 = (t, []) ∧
      ((JSON.parse text = .error .syntaxError ∧ r.1.body = .text "Invalid request body") ∨
       (∃ parsed, JSON.parse text = .ok parsed ∧ parsed ≠ .null ∧
          falsy (targetId parsed) = true ∧
          r.1.body = .text "Missing ID parameter (sheetId or sourceId)"))) := by
  refine ⟨?_, ?_, ?_⟩
  · intro h
    simp [handleSubscribe, parseBody, h]
  · intro parsed hparse hnn hf
    rw [handleSubscribe_parsed env cid text t parsed hparse hnn]
    cases hid : targetId parsed with
    | none => rfl
    | some dataId =>
      have : truthy dataId = false := by simpa [falsy, hid] using hf
      simp [this]
  · intro r hr hstatus
    cases hparse : JSON.parse text with
    | error e =>
      cases e with
      | syntaxError =>
        have : r = ({ statusCode := 400, body := .text "Invalid request body" }, t, []) := by
          simpa [handleSubscribe, parseBody, hparse] using hr.symm
        subst this
        exact ⟨rfl, Or.inl ⟨rfl, rfl⟩⟩
      | outsideModel => simp [handleSubscribe, parseBody, hparse] at hr
      | failure msg => simp [handleSubscribe, parseBody, hparse] at hr
      | typeError => simp [handleSubscribe, parseBody, hparse] at hr
    | ok parsed =>
      by_cases hnn : parsed = .null
      · subst hnn
        simp [handleSubscribe, parseBody, hparse, propOf] at hr
      · rw [handleSubscribe_parsed env cid text t parsed hparse hnn] at hr
        cases hid : targetId parsed with
        | none =>
          have : r = ({ statusCode := 400,
                        body := .text "Missing ID parameter (sheetId or sourceId)" },
                      t, []) := by
            simpa [hid] using hr.symm
          subst this
          exact ⟨rfl, Or.inr ⟨parsed, rfl, hnn, by simp [falsy, hid], rfl⟩⟩
        | some dataId =>
          by_cases htr : truthy dataId = true
          · simp only [hid, htr, ↓reduceIte] at hr
            rcases trySubscribe_status _ _ _ _ _ _ hr with h | h | h <;> omega
          · have : r = ({ statusCode := 400,
                          body := .text "Missing ID parameter (sheetId or sourceId)" },
                        t, []) := by
              simpa [hid, htr] using hr.symm
            subst this
            exact ⟨rfl, Or.inr ⟨parsed, rfl, hnn, by simpa [falsy, hid] using htr, rfl⟩⟩

/-- C23 amended at the bodies of the tests SUB-003 and SUB-004. -/
theorem handleSubscribe_rejects_iff_witness :
    JSON.parse "not-valid-json" = .error .syntaxError ∧
    handleSubscribe (subscribeWithPush .delivered) "conn-A" (some "not-valid-json") sampleTables
      = .ok ({ statusCode := 400, body := .text "Invalid request body" }, sampleTables, []) ∧
    falsy (targetId (.obj [("sourceType", .str "external")])) = true ∧
    handleSubscribe (subscribeWithPush .delivered) "conn-A"
        (some (JSON.stringify (.obj [("sourceType", .str "external")]))) sampleTables
      = .ok ({ statusCode := 400, body := .text "Missing ID parameter (sheetId or sourceId)" },
          sampleTables, []) ∧
    (JSON.parse "not-valid-json" = .error .syntaxError ∧
        Body.text "Invalid request body" = .text "Invalid request body" ∨
      ∃ parsed, JSON.parse "not-valid-json" = .ok parsed ∧ parsed ≠ .null ∧
        falsy (targetId parsed) = true ∧
        Body.text "Invalid request body"
          = .text "Missing ID parameter (sheetId or sourceId)") :=
  ⟨rfl,
   (handleSubscribe_rejects_iff (subscribeWithPush .delivered) "conn-A" "not-valid-json"
      sampleTables).1 rfl,
   rfl,
   (handleSubscribe_rejects_iff (subscribeWithPush .delivered) "conn-A"
      (JSON.stringify (.obj [("sourceType", .str "external")])) sampleTables).2.1
      (.obj [("sourceType", .str "external")]) rfl (by simp) rfl,
   ((handleSubscribe_rejects_iff (subscribeWithPush .delivered) "conn-A" "not-valid-json"
      sampleTables).2.2
      ({ statusCode := 400, body := .text "Invalid request body" }, sampleTables, [])
      rfl rfl).2⟩

/-- C24: a subscribe request with `sourceType` `'external'` whose `sourceId` is
a non-empty string without a record in the registry, the lookup resolving, is
answered with status 404 and `Data source not found`; the tables are
unchanged and the lookup is the only call: no counter is incremented, no
subscription recorded and nothing pushed. -/
theorem handleSubscribe_unregistered_source (env : SubscribeEnv) (cid text : String)
    (t : Tables) (kvs : List (String × Json)) (s : String)
    (hparse : JSON.parse text = .ok (.obj kvs))
    (hext : lookupProp kvs "sourceType" = some (.str "external"))
    (hid : lookupProp kvs "sourceId" = some (.str s)) (hs : s ≠ "")
    (hget : env.getError = none)
    (hun : ∀ record ∈ t.sources, lookupProp record "id" ≠ some (.str s)) :
    handleSubscribe env cid (some text) t
      = .ok ({ statusCode := 404, body := .text "Data source not found" }, t,
          [.getSource (some s) true]) := by
  rw [handleSubscribe_external env cid text t kvs s hparse (by simp [hext, isExternal]) hid hs
    hget, getItem_eq_none t.sources s hun]

/-- C24 on the scenario of the spec: `ext-1` is not registered. -/
theorem handleSubscribe_unregistered_source_witness :
    handleSubscribe (subscribeWithPush .delivered) "conn-A"
        (some (externalRequest (.str "ext-1"))) sampleTables
      = .ok ({ statusCode := 404, body := .text "Data source not found" }, sampleTables,
          [.getSource (some "ext-1") true]) :=
  handleSubscribe_unregistered_source (subscribeWithPush .delivered) "conn-A"
    (externalRequest (.str "ext-1")) sampleTables
    [("sourceId", .str "ext-1"), ("sourceType", .str "external")] "ext-1" rfl rfl rfl
    (by decide) rfl (by simp [sampleTables, stocksRecord, lookupProp])

/-- The fields of the message of `handleSubscribe`. -/
theorem initialData_fields (sourceType : Option Json) (dataId latestData : Json) :
    (initialData sourceType dataId latestData).field "type"
      = some (.str (if isExternal sourceType then "EXTERNAL_INITIAL_DATA"
                    else "INITIAL_DATA")) ∧
    (initialData sourceType dataId latestData).field "id" = some dataId ∧
    (initialData sourceType dataId latestData).field "sourceType" = some (orSheet sourceType) ∧
    (initialData sourceType dataId latestData).field "data" = some latestData ∧
    (initialData sourceType dataId latestData).field "timestamp" = none := by
  simp [initialData, Json.field, lookupProp]

/-- The result of an accepted subscription in terms of its second half: there
are tables `t1`, which differ from `t` in the registry at most, and calls
`calls`, among them no push, with which the function continues. -/
theorem handleSubscribe_accepted (env : SubscribeEnv) (cid text : String) (t : Tables)
    (kvs : List (String × Json)) (id : String)
    (hparse : JSON.parse text = .ok (.obj kvs))
    (hid : targetId (.obj kvs) = some (.str id)) (hne : id ≠ "")
    (hreg : isExternal (lookupProp kvs "sourceType") = true →
      env.getError = none ∧ env.countError = none ∧ (getItem t.sources id).isSome ∧
      ∃ sources, addSubscriber t.sources id = .ok sources) :
    ∃ t1 calls, t1.connections = t.connections ∧ t1.dataTable = t.dataTable ∧
      (∀ c ∈ calls, c.isPost = false) ∧ (∀ ok, Call.delete cid ok ∉ calls) ∧
      handleSubscribe env cid (some text) t
        = subscribeConnection env cid (lookupProp kvs "sourceType") (.str id) t1 calls := by
  by_cases hext : isExternal (lookupProp kvs "sourceType") = true
  · obtain ⟨hget, hcount, hitem, sources, hadd⟩ := hreg hext
    have hid2 : lookupProp kvs "sourceId" = some (.str id) := by
      simpa [targetId, Json.field, hext] using hid
    obtain ⟨item, hitem2⟩ := Option.isSome_iff_exists.1 hitem
    refine ⟨{ t with sources := sources },
      [.getSource (some id) true, .addSubscriber id true], rfl, rfl, ?_, ?_, ?_⟩
    · intro c hc
      simp only [List.mem_cons, List.mem_singleton, List.not_mem_nil, or_false] at hc
      rcases hc with h | h <;> rw [h] <;> rfl
    · intro ok hmem
      simp at hmem
    · rw [handleSubscribe_external env cid text t kvs id hparse hext hid2 hne hget]
      simp [hitem2, hcount, hadd]
  · have hext2 : isExternal (lookupProp kvs "sourceType") = false := by simpa using hext
    have hid2 : lookupProp kvs "sheetId" = some (.str id) := by
      simpa [targetId, Json.field, hext2] using hid
    exact ⟨t, [], rfl, rfl, by simp, by simp,
      handleSubscribe_sheet env cid text t kvs id hparse hext2 hid2 hne⟩

/-- C25 fails on the code: the latest snapshot of the registered source
`stocks-api` exists and holds the payload `0`, the subscription is accepted
with `Subscribed`, and no message is pushed, because `if (latestData)` takes
the falsy payload for a missing snapshot.  With the snapshot of the test
SUB-002, whose payload is an object, the message is pushed. -/
theorem handleSubscribe_zero_payload_not_pushed :
    queryLatest zeroPayloadTables.dataTable "stocks-api"
      = some { id := "stocks-api-2023-11-14T22:20:00.000Z", sheetId := "stocks-api",
               lastUpdated := "2023-11-14T22:20:00.000Z", data := "0",
               sourceType := "external" } ∧
    JSON.parse "0" = .ok (.num 0) ∧
    (handleSubscribe (subscribeWithPush .delivered) "conn-A"
        (some (externalRequest (.str "stocks-api"))) zeroPayloadTables).map
        (fun r => (r.1, r.2.2))
      = .ok ({ statusCode := 200, body := .text "Subscribed" },
          [.getSource (some "stocks-api") true, .addSubscriber "stocks-api" true,
            .subscribe "conn-A" (some "stocks-api") true, .latest "stocks-api" true]) ∧
    (handleSubscribe (subscribeWithPush .delivered) "abcdef123456"
        (some (externalRequest (.str "external-source-001"))) externalTables).map
        (fun r => (r.1, r.2.2))
      = .ok ({ statusCode := 200, body := .text "Subscribed" },
          [.getSource (some "external-source-001") true,
            .addSubscriber "external-source-001" true,
            .subscribe "abcdef123456" (some "external-source-001") true,
            .latest "external-source-001" true,
            .post "abcdef123456" (JSON.stringify (.obj [("type", .str "EXTERNAL_INITIAL_DATA"),
              ("id", .str "external-source-001"), ("sourceType", .str "external"),
              ("data", stocksInitial)])) .delivered]) := by
  refine ⟨by decide, rfl, rfl, rfl⟩

/-- An accepted subscribe request whose calls to the tables resolve and whose
push, if any, is delivered: the response is `{200, 'Subscribed'}`; exactly one
message is pushed when a latest snapshot exists and its stored string parses
to a truthy payload, with type `EXTERNAL_INITIAL_DATA` for an external source
and `INITIAL_DATA` otherwise, the target identifier as `id` and the payload
as `data`; nothing is pushed when there is no snapshot or its payload is
falsy. -/
theorem handleSubscribe_initial_push (env : SubscribeEnv) (cid text : String) (t : Tables)
    (kvs : List (String × Json)) (id : String) (snap : Option Item) (payload : Json)
    (hparse : JSON.parse text = .ok (.obj kvs))
    (hid : targetId (.obj kvs) = some (.str id)) (hne : id ≠ "")
    (hreg : isExternal (lookupProp kvs "sourceType") = true →
      env.getError = none ∧ env.countError = none ∧ (getItem t.sources id).isSome ∧
      ∃ sources, addSubscriber t.sources id = .ok sources)
    (hupd : env.updateError = none) (hquery : env.latestError = none)
    (hpush : env.push.post = .delivered)
    (hsnap : queryLatest t.dataTable id = snap)
    (hdata : ∀ item, snap = some item → JSON.parse item.data = .ok payload) :
    ∃ r, handleSubscribe env cid (some text) t = .ok r ∧
      r.1 = { statusCode := 200, body := .text "Subscribed" } ∧
      r.2.2.filter Call.isPost
        = (if snap.isSome && truthy payload then
            [.post cid (JSON.stringify
              (initialData (lookupProp kvs "sourceType") (.str id) payload)) .delivered]
           else []) ∧
      (initialData (lookupProp kvs "sourceType") (.str id) payload).field "type"
        = some (.str (if isExternal (lookupProp kvs "sourceType") then "EXTERNAL_INITIAL_DATA"
                      else "INITIAL_DATA")) ∧
      (initialData (lookupProp kvs "sourceType") (.str id) payload).field "id"
        = some (.str id) ∧
      (initialData (lookupProp kvs "sourceType") (.str id) payload).field "data"
        = some payload := by
  obtain ⟨t1, calls, _, htab, hcalls, _, heq⟩ :=
    handleSubscribe_accepted env cid text t kvs id hparse hid hne hreg
  have hf := initialData_fields (lookupProp kvs "sourceType") (.str id) payload
  cases snap with
  | none =>
    have hlatest : getLatestData env.latestError t1.dataTable id = .ok .null := by
      rw [hquery, htab, getLatestData_eq t.dataTable id none payload hsnap hdata]
      rfl
    rw [heq, subscribeConnection_eq env cid id _ t1 calls _ hupd hlatest,
      if_neg (by simp [truthy])]
    refine ⟨_, rfl, rfl, ?_, hf.1, hf.2.1, hf.2.2.2.1⟩
    simp only [subscribed, Option.isSome_none, Bool.false_and, Bool.false_eq_true, ↓reduceIte]
    rw [← List.append_nil (calls ++ _), filter_isPost_subscribe calls cid id _ [] hcalls]
    rfl
  | some item =>
    have hlatest : getLatestData env.latestError t1.dataTable id = .ok payload := by
      rw [hquery, htab, getLatestData_eq t.dataTable id (some item) payload hsnap hdata]
      rfl
    rw [heq, subscribeConnection_eq env cid id _ t1 calls _ hupd hlatest]
    by_cases htr : truthy payload = true
    · rw [if_pos htr]
      refine ⟨_, rfl, ?_, ?_, hf.1, hf.2.1, hf.2.2.2.1⟩
      · simp [sendToConnection_eq, hpush, afterPush, subscribed]
      · simp only [Option.isSome_some, htr, Bool.and_self, ↓reduceIte]
        rw [sendToConnection_eq, hpush]
        simp only [afterPush, subscribed]
        rw [filter_isPost_subscribe calls cid id _ _ hcalls]
        rfl
    · rw [if_neg htr]
      have htr2 : truthy payload = false := by simpa using htr
      refine ⟨_, rfl, rfl, ?_, hf.1, hf.2.1, hf.2.2.2.1⟩
      simp only [subscribed, Option.isSome_some, htr2, Bool.and_false, Bool.false_eq_true,
        ↓reduceIte]
      rw [← List.append_nil (calls ++ _), filter_isPost_subscribe calls cid id _ [] hcalls]
      rfl

/-- How an accepted subscription with a truthy latest payload ends when the
push is answered with 410 and when it fails with another error, in terms of
`initialData`. -/
theorem handleSubscribe_push_settles (env : SubscribeEnv) (cid text : String) (t : Tables)
    (kvs : List (String × Json)) (id : String) (item : Item) (payload : Json)
    (hparse : JSON.parse text = .ok (.obj kvs))
    (hid : targetId (.obj kvs) = some (.str id)) (hne : id ≠ "")
    (hreg : isExternal (lookupProp kvs "sourceType") = true →
      env.getError = none ∧ env.countError = none ∧ (getItem t.sources id).isSome ∧
      ∃ sources, addSubscriber t.sources id = .ok sources)
    (hupd : env.updateError = none) (hquery : env.latestError = none)
    (hsnap : queryLatest t.dataTable id = some item)
    (hdata : JSON.parse item.data = .ok payload) (htr : truthy payload = true) :
    ∃ r, handleSubscribe env cid (some text) t = .ok r ∧
      Call.post cid (JSON.stringify (initialData (lookupProp kvs "sourceType") (.str id) payload))
        env.push.post ∈ r.2.2 ∧
      (env.push.post = .gone → env.push.deleteError = none →
        r.1 = { statusCode := 200, body := .text "Subscribed" } ∧
        Call.delete cid true ∈ r.2.2 ∧
        ∀ c ∈ r.2.1.connections, c.connectionId ≠ cid) ∧
      (∀ e, env.push.post = .failed e →
        r.1 = { statusCode := 500, body := .failed "Failed to subscribe: " e } ∧
        (∀ ok, Call.delete cid ok ∉ r.2.2) ∧
        ∃ c ∈ r.2.1.connections, c.connectionId = cid ∧ c.sheetId = some id) := by
  obtain ⟨t1, calls, _, htab, _, hdel, heq⟩ :=
    handleSubscribe_accepted env cid text t kvs id hparse hid hne hreg
  have hlatest : getLatestData env.latestError t1.dataTable id = .ok payload := by
    rw [hquery, htab, getLatestData_eq t.dataTable id (some item) payload hsnap
      (fun it hit => by cases hit; exact hdata)]
    rfl
  rw [heq, subscribeConnection_eq env cid id _ t1 calls _ hupd hlatest, if_pos htr]
  refine ⟨_, rfl, ?_, ?_, ?_⟩
  · rw [afterPush_snd]
    simp [sendToConnection_post]
  · intro hgone hdelete
    have hrem : (sendToConnection env.push cid
        (initialData (lookupProp kvs "sourceType") (.str id) payload)).removed = some cid :=
      (sendToConnection_removed _ _ _ _).2 ⟨rfl, hgone, hdelete⟩
    refine ⟨?_, ?_, ?_⟩
    · simp [sendToConnection_eq, hgone, hdelete, afterPush, subscribed]
    · simp [sendToConnection_eq, hgone, hdelete, afterPush, subscribed]
    · intro c hc
      have hc2 : c ∈ prune (setSubscription t1.connections cid id
          (keyString (some (orSheet (lookupProp kvs "sourceType")))))
          [sendToConnection env.push cid
            (initialData (lookupProp kvs "sourceType") (.str id) payload)] := by
        simpa [sendToConnection_eq, hgone, hdelete, afterPush, subscribed,
          Tables.withConnections] using hc
      exact prune_single_removed _ _ cid hrem c hc2
  · intro e hfail
    have hrem : (sendToConnection env.push cid
        (initialData (lookupProp kvs "sourceType") (.str id) payload)).removed = none := by
      simp [sendToConnection_eq, hfail]
    refine ⟨?_, ?_, ?_⟩
    · simp [sendToConnection_eq, hfail, afterPush, failedToSubscribe]
    · intro ok hmem
      have hmem2 : Call.delete cid ok ∈ calls := by
        simpa [sendToConnection_eq, hfail, afterPush, failedToSubscribe] using hmem
      exact hdel ok hmem2
    · obtain ⟨c, hc, hk, hs⟩ := setSubscription_mem t1.connections cid id
        (keyString (some (orSheet (lookupProp kvs "sourceType"))))
      refine ⟨c, ?_, hk, hs⟩
      rw [prune_single_kept _ _ hrem]
      simpa [sendToConnection_eq, hfail, afterPush, failedToSubscribe,
        Tables.withConnections] using hc

/-- C26: for an accepted subscribe request with a truthy latest payload the
push of the initial-data message `{ type, id, sourceType, data }` with that
payload is attempted; when it is answered with 410 and the delete resolves,
the connection is deleted from the directory and the response is still
`{200, 'Subscribed'}`; when it fails with another error `e` the response is
500 with `Failed to subscribe: ` followed by the message of `e`, no delete is
issued and the connection stays in the directory, subscribed. -/
theorem handleSubscribe_failed_push (env : SubscribeEnv) (cid text : String) (t : Tables)
    (kvs : List (String × Json)) (id : String) (item : Item) (payload : Json)
    (hparse : JSON.parse text = .ok (.obj kvs))
    (hid : targetId (.obj kvs) = some (.str id)) (hne : id ≠ "")
    (hreg : isExternal (lookupProp kvs "sourceType") = true →
      env.getError = none ∧ env.countError = none ∧ (getItem t.sources id).isSome ∧
      ∃ sources, addSubscriber t.sources id = .ok sources)
    (hupd : env.updateError = none) (hquery : env.latestError = none)
    (hsnap : queryLatest t.dataTable id = some item)
    (hdata : JSON.parse item.data = .ok payload) (htr : truthy payload = true) :
    ∃ r, handleSubscribe env cid (some text) t = .ok r ∧
      Call.post cid
        (JSON.stringify (.obj [("type", .str (if isExternal (lookupProp kvs "sourceType")
                                              then "EXTERNAL_INITIAL_DATA" else "INITIAL_DATA")),
          ("id", .str id), ("sourceType", orSheet (lookupProp kvs "sourceType")),
          ("data", payload)]))
        env.push.post ∈ r.2.2 ∧
      (env.push.post = .gone → env.push.deleteError = none →
        r.1 = { statusCode := 200, body := .text "Subscribed" } ∧
        Call.delete cid true ∈ r.2.2 ∧
        ∀ c ∈ r.2.1.connections, c.connectionId ≠ cid) ∧
      (∀ e, env.push.post = .failed e →
        r.1 = { statusCode := 500, body := .failed "Failed to subscribe: " e } ∧
        (∀ ok, Call.delete cid ok ∉ r.2.2) ∧
        ∃ c ∈ r.2.1.connections, c.connectionId = cid ∧ c.sheetId = some id) :=
  handleSubscribe_push_settles env cid text t kvs id item payload hparse hid hne hreg
    hupd hquery hsnap hdata htr

/-- C26 at the subscription of the test SUB-002, whose snapshot holds the
stock prices 150.25 and 290.10, with a push answered with 410 as in the test
SUB-008, and at the subscription to `sheet-9` with a push that fails with
another error, as in the test SUB-007. -/
theorem handleSubscribe_failed_push_witness :
    (∃ r, handleSubscribe (subscribeWithPush .gone) "abcdef123456"
        (some (externalRequest (.str "external-source-001"))) externalTables = .ok r ∧
      Call.post "abcdef123456"
        (JSON.stringify (.obj [("type", .str "EXTERNAL_INITIAL_DATA"),
          ("id", .str "external-source-001"), ("sourceType", .str "external"),
          ("data", stocksInitial)])) .gone ∈ r.2.2 ∧
      r.1 = { statusCode := 200, body := .text "Subscribed" } ∧
      Call.delete "abcdef123456" true ∈ r.2.2 ∧
      ∀ c ∈ r.2.1.connections, c.connectionId ≠ "abcdef123456") ∧
    (∃ r, handleSubscribe (subscribeWithPush (.failed (.failure "API Gateway error"))) "conn-A"
        (some (sheetRequest (.str "sheet-9"))) sampleTables = .ok r ∧
      r.1 = { statusCode := 500,
              body := .failed "Failed to subscribe: " (.failure "API Gateway error") } ∧
      (∀ ok, Call.delete "conn-A" ok ∉ r.2.2) ∧
      ∃ c ∈ r.2.1.connections, c.connectionId = "conn-A" ∧ c.sheetId = some "sheet-9") :=
  ⟨(handleSubscribe_failed_push (subscribeWithPush .gone) "abcdef123456"
      (externalRequest (.str "external-source-001")) externalTables
      [("sourceId", .str "external-source-001"), ("sourceType", .str "external")]
      "external-source-001" externalSnapshot stocksInitial rfl rfl (by decide)
      (fun _ => ⟨rfl, rfl, by decide, _, rfl⟩) rfl rfl (by decide) rfl rfl).imp
      (fun _ hr => ⟨hr.1, hr.2.1, hr.2.2.1 rfl rfl⟩),
   (handleSubscribe_failed_push (subscribeWithPush (.failed (.failure "API Gateway error")))
      "conn-A" (sheetRequest (.str "sheet-9")) sampleTables [("sheetId", .str "sheet-9")]
      "sheet-9" sheetSnapshot (.arr [.str "A", .str "B"]) rfl rfl (by decide)
      (fun h => by simp [lookupProp, isExternal] at h) rfl rfl (by decide) rfl rfl).imp
      (fun _ hr => ⟨hr.1, hr.2.2.2 _ rfl⟩)⟩

/-- C30 fails on the code for the body `null`: it is valid JSON, the
destructuring of the parsed body stands outside the `try` blocks, and
`handleSubscribe`, and with it the handler on the route `subscribe`, throws a
`TypeError` instead of returning a response. -/
theorem handleSubscribe_null_body_throws (env : SubscribeEnv) (connectionId : String)
    (t : Tables) (h : HandlerEnv) :
    JSON.parse "null" = .ok .null ∧
    handleSubscribe env connectionId (some "null") t = .error .typeError ∧
    handler h { requestContext := some { connectionId := connectionId, routeKey := "subscribe" },
                body := some "null" } t = .error .typeError := by
  have hp : JSON.parse "null" = .ok .null := by rfl
  refine ⟨hp, ?_, ?_⟩
  · simp [handleSubscribe, parseBody, hp, propOf]
  · simp [handler, route, handleSubscribe, parseBody, hp, propOf]

/-! ## The routes of the handler -/

/-- C21 fails on the code: for an event whose `Records` list is empty the
guard of the handler reads `eventSource` of `event.Records[0]`, which is
`undefined`, and the handler throws a `TypeError`, whatever the collaborators
answer; `processSQSMessages` itself would answer an empty batch with
`{ statusCode: 200, body: 'Processed' }`. -/
theorem handler_empty_records_throws (env : HandlerEnv) (t : Tables) :
    handler env { Records := some [] } t = .error .typeError ∧
    (processSQSMessages env.records [] t.connections).1
      = { statusCode := 200, body := .text "Processed" } :=
  ⟨rfl, rfl⟩

/-! ## The outbound messages -/

/-- A key value that is a string. -/
theorem keyString_eq_some (x : Option Json) (s : String) (h : keyString x = some s) :
    x = some (.str s) := by
  unfold keyString at h
  split at h
  · cases h; rfl
  · cases h

/-- Truthy latest data are the parsed text of the newest snapshot. -/
theorem getLatestData_truthy (queryError : Option JsError) (table : List Item) (id : String)
    (latest : Json) (h : getLatestData queryError table id = .ok latest)
    (ht : truthy latest = true) :
    ∃ item, queryLatest table id = some item ∧ JSON.parse item.data = .ok latest := by
  unfold getLatestData at h
  split at h
  · cases h; simp [truthy] at ht
  · split at h
    · cases h; simp [truthy] at ht
    · next item hitem =>
      split at h
      · next data hdata =>
        cases h
        exact ⟨item, hitem, hdata⟩
      · cases h
      · cases h; simp [truthy] at ht

/-- A push of the second half of `handleSubscribe` goes to the connection and
carries the initial-data message of the newest snapshot of the target. -/
theorem subscribeConnection_push (env : SubscribeEnv) (cid : String) (sourceType : Option Json)
    (dataId : Json) (t : Tables) (calls : List Call) (r : Response × Tables × List Call)
    (hcalls : ∀ c ∈ calls, c.isPost = false)
    (h : subscribeConnection env cid sourceType dataId t calls = .ok r)
    (c text : String) (o : PostOutcome) (hmem : Call.post c text o ∈ r.2.2) :
    c = cid ∧ ∃ id item latest, dataId = .str id ∧ queryLatest t.dataTable id = some item ∧
      JSON.parse item.data = .ok latest ∧
      text = JSON.stringify (initialData sourceType dataId latest) := by
  have hno : Call.post c text o ∉ calls := fun hin => by
    have := hcalls _ hin
    simp [Call.isPost] at this
  unfold subscribeConnection at h
  split at h
  · cases h
    simp [failedToSubscribe, hno] at hmem
  · next id hid =>
    have hd : dataId = .str id := by
      have := keyString_eq_some _ _ hid
      cases this
      rfl
    split at h
    · cases h
      simp [failedToSubscribe, hno] at hmem
    · split at h
      · cases h
      · next latest hlatest =>
        split at h
        · next htr =>
          cases h
          rw [afterPush_snd] at hmem
          simp only [List.mem_append, List.mem_cons, hno, List.mem_singleton, false_or,
            List.not_mem_nil, or_false, reduceCtorEq] at hmem
          rcases hmem with hp | hcl
          · rw [sendToConnection_post] at hp
            cases hp
            obtain ⟨item, hitem, hdata⟩ := getLatestData_truthy _ _ _ _ hlatest htr
            exact ⟨rfl, id, item, latest, hd, hitem, hdata, rfl⟩
          · have := sendToConnection_cleanup _ _ _ _ hcl
            simp [Call.postTarget] at this
        · cases h
          simp [subscribed, hno] at hmem

/-- A push of `handleSubscribe` goes to the connection of the request and
carries the initial-data message for the target of the request and its
newest snapshot. -/
theorem handleSubscribe_push (env : SubscribeEnv) (cid : String) (body : Option String)
    (t : Tables) (r : Response × Tables × List Call)
    (h : handleSubscribe env cid body t = .ok r)
    (c text : String) (o : PostOutcome) (hmem : Call.post c text o ∈ r.2.2) :
    c = cid ∧ ∃ parsed id item latest, parseBody body = .ok parsed ∧
      targetId parsed = some (.str id) ∧ queryLatest t.dataTable id = some item ∧
      JSON.parse item.data = .ok latest ∧
      text = JSON.stringify (initialData (parsed.field "sourceType") (.str id) latest) := by
  have key : ∀ sourceType dataId t1 calls, t1.dataTable = t.dataTable →
      (∀ x ∈ calls, Call.isPost x = false) →
      subscribeConnection env cid sourceType dataId t1 calls = .ok r →
      c = cid ∧ ∃ id item latest, dataId = .str id ∧ queryLatest t.dataTable id = some item ∧
        JSON.parse item.data = .ok latest ∧
        text = JSON.stringify (initialData sourceType dataId latest) := by
    intro sourceType dataId t1 calls ht hcalls h1
    have := subscribeConnection_push env cid sourceType dataId t1 calls r hcalls h1 c text o hmem
    rw [ht] at this
    exact this
  have try_ : ∀ sourceType dataId, trySubscribe env cid sourceType dataId t = .ok r →
      c = cid ∧ ∃ id item latest, dataId = .str id ∧ queryLatest t.dataTable id = some item ∧
        JSON.parse item.data = .ok latest ∧
        text = JSON.stringify (initialData sourceType dataId latest) := by
    intro sourceType dataId h1
    unfold trySubscribe at h1
    split at h1
    · split at h1
      · cases h1; simp [failedToSubscribe] at hmem
      · split at h1
        · cases h1; simp [failedToSubscribe] at hmem
        · split at h1
          · cases h1; simp at hmem
          · split at h1
            · cases h1; simp [failedToSubscribe] at hmem
            · split at h1
              · cases h1; simp [failedToSubscribe] at hmem
              · refine key _ _ _ _ ?_ ?_ h1
                · rfl
                · simp [Call.isPost]
    · refine key _ _ _ _ ?_ ?_ h1
      · rfl
      · simp
  unfold handleSubscribe at h
  split at h
  · cases h; simp at hmem
  · cases h
  · next parsed hparsed =>
    split at h
    · cases h
    · next sourceType hst =>
      have hsrc : sourceType = parsed.field "sourceType" := by
        cases parsed <;> simp [propOf] at hst <;> exact hst.symm
      split at h
      · cases h; simp at hmem
      · next dataId htarget =>
        split at h
        · obtain ⟨hc, id, item, latest, hd, hitem, hdata, htext⟩ := try_ _ _ h
          subst hd
          subst hsrc
          exact ⟨hc, parsed, id, item, latest, hparsed, htarget, hitem, hdata, htext⟩
        · cases h; simp at hmem

/-- What the read `changes.data` gives when it does not throw. -/
theorem propOf_eq_ok (x : Option Json) (key : String) (v : Option Json)
    (h : propOf x key = .ok v) : ∃ y, x = some y ∧ y ≠ .null ∧ v = y.field key := by
  unfold propOf at h
  split at h
  · cases h
  · cases h
  · next y hy =>
    cases h
    exact ⟨y, rfl, fun hn => hy (by rw [hn]), rfl⟩

/-- A push of the fan-out goes to a subscriber of the string key and carries
the message built from the `data` of the changes. -/
theorem fanOut_push (env : RecordEnv) (dir : List Connection) (id changes : Option Json)
    (message : Option Json → String → Json) (c text : String) (o : PostOutcome)
    (hmem : Call.post c text o ∈ (fanOut env dir id changes message).calls) :
    ∃ s ch k, id = some (.str s) ∧ changes = some ch ∧ ch ≠ .null ∧
      text = JSON.stringify (message (ch.field "data") (env.push k).time) := by
  unfold fanOut at hmem
  split at hmem
  · simp at hmem
  · simp at hmem
  · next c0 cs hq =>
    have hkey : ∃ s, id = some (.str s) := by
      unfold querySubscribers at hq
      split at hq
      · cases hq
      · next s hs => exact ⟨s, keyString_eq_some _ _ hs⟩
    obtain ⟨s, hs⟩ := hkey
    split at hmem
    · simp at hmem
    · next data hdata =>
      obtain ⟨ch, hch, hnn, hv⟩ := propOf_eq_ok _ _ _ hdata
      simp only [List.mem_cons, reduceCtorEq, false_or] at hmem
      obtain ⟨k, _, _, _, ht, _⟩ := mem_sendAll_post _ _ _ _ _ _ hmem
      exact ⟨s, ch, k, hs, hch, hnn, by rw [ht, hv]⟩

/-- A push of the dispatcher for one record carries the update message of the
event in the body of the record. -/
theorem processRecord_push (env : RecordEnv) (body : String) (dir : List Connection)
    (c text : String) (o : PostOutcome)
    (hmem : Call.post c text o ∈ (processRecord env body dir).calls) :
    ∃ message s ch ts, JSON.parse body = .ok message ∧
      message.field (if isExternal (message.field "sourceType") then "sourceId" else "sheetId")
        = some (.str s) ∧
      message.field "changes" = some ch ∧ ch ≠ .null ∧
      text = JSON.stringify (updateMessage (isExternal (message.field "sourceType"))
        (some (.str s)) (ch.field "data") ts) := by
  unfold processRecord at hmem
  cases hp : JSON.parse body with
  | error e => simp [hp] at hmem
  | ok message =>
    simp only [hp] at hmem
    cases hs : propOf (some message) "sourceType" with
    | error e => simp [hs] at hmem
    | ok sourceType =>
      simp only [hs] at hmem
      have hsrc : sourceType = message.field "sourceType" := by
        cases message <;> simp [propOf] at hs <;> exact hs.symm
      subst hsrc
      by_cases hext : isExternal (message.field "sourceType") = true
      · simp only [hext, ↓reduceIte, processExternalSourceMessage] at hmem
        obtain ⟨s, ch, k, hid, hch, hnn, h⟩ := fanOut_push _ _ _ _ _ _ _ _ hmem
        refine ⟨message, s, ch, (env.push k).time, rfl, ?_, hch, hnn, ?_⟩
        · simp only [hext, ↓reduceIte]; exact hid
        · rw [h, hid, hext]; rfl
      · have hext2 : isExternal (message.field "sourceType") = false := by simpa using hext
        simp only [hext2, Bool.false_eq_true, ↓reduceIte] at hmem
        obtain ⟨s, ch, k, hid, hch, hnn, h⟩ := fanOut_push _ _ _ _ _ _ _ _ hmem
        refine ⟨message, s, ch, (env.push k).time, rfl, ?_, hch, hnn, ?_⟩
        · simp only [hext2, Bool.false_eq_true, ↓reduceIte]; exact hid
        · rw [h, hid, hext2]; rfl

/-- A push of the dispatcher for a batch carries the update message of the
event of one of its records. -/
theorem processRecords_push (env : Nat → RecordEnv) (c text : String) (o : PostOutcome) :
    ∀ (records : List SqsRecord) (i : Nat) (dir : List Connection),
      Call.post c text o ∈ (processRecords env i records dir).calls →
      ∃ record ∈ records, ∃ message s ch ts, JSON.parse record.body = .ok message ∧
        message.field (if isExternal (message.field "sourceType") then "sourceId"
          else "sheetId") = some (.str s) ∧
        message.field "changes" = some ch ∧ ch ≠ .null ∧
        text = JSON.stringify (updateMessage (isExternal (message.field "sourceType"))
          (some (.str s)) (ch.field "data") ts)
  | [], _, _, h => by simp [processRecords] at h
  | record :: rest, i, dir, h => by
    rw [processRecords_cons] at h
    cases herr : (processRecord (env i) record.body dir).error with
    | some e =>
      simp only [herr] at h
      exact ⟨record, List.mem_cons_self _ _, processRecord_push _ _ _ _ _ _ h⟩
    | none =>
      simp only [herr, List.mem_append] at h
      rcases h with h | h
      · exact ⟨record, List.mem_cons_self _ _, processRecord_push _ _ _ _ _ _ h⟩
      · obtain ⟨r, hr, hrest⟩ := processRecords_push env c text o rest (i + 1) _ h
        exact ⟨r, List.mem_cons_of_mem _ hr, hrest⟩

/-- The fields of the update message of an external source. -/
theorem externalUpdate_fields (s : String) (data : Option Json) (timestamp : String) :
    (updateMessage true (some (.str s)) data timestamp).field "type"
      = some (.str "EXTERNAL_UPDATE") ∧
    (updateMessage true (some (.str s)) data timestamp).field "sourceId" = some (.str s) ∧
    (updateMessage true (some (.str s)) data timestamp).field "sourceType"
      = some (.str "external") ∧
    (updateMessage true (some (.str s)) data timestamp).field "data" = data ∧
    (updateMessage true (some (.str s)) data timestamp).field "timestamp"
      = some (.str timestamp) ∧
    (updateMessage true (some (.str s)) data timestamp).field "id" = none ∧
    (updateMessage true (some (.str s)) data timestamp).field "sheetId" = none := by
  cases data <;> simp [updateMessage, externalUpdate, optField, Json.field, lookupProp]

/-- The fields of the update message of a sheet. -/
theorem sheetUpdate_fields (s : String) (data : Option Json) (timestamp : String) :
    (updateMessage false (some (.str s)) data timestamp).field "type" = some (.str "UPDATE") ∧
    (updateMessage false (some (.str s)) data timestamp).field "sheetId" = some (.str s) ∧
    (updateMessage false (some (.str s)) data timestamp).field "data" = data ∧
    (updateMessage false (some (.str s)) data timestamp).field "timestamp"
      = some (.str timestamp) ∧
    (updateMessage false (some (.str s)) data timestamp).field "id" = none ∧
    (updateMessage false (some (.str s)) data timestamp).field "sourceType" = none ∧
    (updateMessage false (some (.str s)) data timestamp).field "sourceId" = none := by
  cases data <;> simp [updateMessage, sheetUpdate, optField, Json.field, lookupProp]

/-- C22 as stated fails: the message pushed to the two subscribers of
`sheet-9` for an update has neither an `id` nor a `sourceType` field and is
not of the wire shape of the specification. -/
theorem outbound_update_off_envelope :
    (processSQSMessages (pushesSettle (fun _ => .delivered)) [sheetRecord] sampleDirectory).2.2
      = [.subscribers (some "sheet-9") true,
         .post "conn-A" (JSON.stringify (sheetUpdate (some (.str "sheet-9"))
            (some (.arr [.str "A", .str "C"])) "2023-11-14T22:20:01.000Z")) .delivered,
         .post "conn-B" (JSON.stringify (sheetUpdate (some (.str "sheet-9"))
            (some (.arr [.str "A", .str "C"])) "2023-11-14T22:20:01.000Z")) .delivered] ∧
    specEnvelope (sheetUpdate (some (.str "sheet-9")) (some (.arr [.str "A", .str "C"]))
      "2023-11-14T22:20:01.000Z") = false ∧
    (sheetUpdate (some (.str "sheet-9")) (some (.arr [.str "A", .str "C"]))
      "2023-11-14T22:20:01.000Z").field "id" = none ∧
    (sheetUpdate (some (.str "sheet-9")) (some (.arr [.str "A", .str "C"]))
      "2023-11-14T22:20:01.000Z").field "sourceType" = none := by
  refine ⟨by decide, by decide, rfl, rfl⟩

/-- C22 amended: every message `handleSubscribe` pushes goes to the
subscribing connection and is the initial-data message `{ type, id,
sourceType, data }` of the request: `type` is `EXTERNAL_INITIAL_DATA` when the
`sourceType` of the request is `'external'` and `INITIAL_DATA` otherwise, `id`
is the target identifier of the request, `sourceType` is that of the request
when truthy and `'sheet'` otherwise, `data` is the parsed text of the newest
snapshot of the target, and there is no `timestamp`.  Every message
`processSQSMessages` pushes is the update message of the event of a record of
the batch: its `data` is the `data` of the `changes` of the event, it has a
`timestamp` and no `id`; for an external event it has the `type`
`EXTERNAL_UPDATE`, the `sourceId` of the event and the `sourceType`
`'external'`, for a sheet event the `type` `UPDATE` and the `sheetId` of the
event and no `sourceType`.  None of them is of the wire shape of the
specification. -/
theorem outbound_message_shapes :
    (∀ env cid body t r, handleSubscribe env cid body t = .ok r →
      ∀ c text o, Call.post c text o ∈ r.2.2 →
        c = cid ∧ ∃ request id item latest m,
          parseBody body = .ok request ∧ targetId request = some (.str id) ∧
          queryLatest t.dataTable id = some item ∧ JSON.parse item.data = .ok latest ∧
          JSON.parse text = .ok m ∧
          m = .obj [("type", .str (if isExternal (request.field "sourceType")
                                   then "EXTERNAL_INITIAL_DATA" else "INITIAL_DATA")),
                    ("id", .str id), ("sourceType", orSheet (request.field "sourceType")),
                    ("data", latest)] ∧
          text = JSON.stringify m ∧
          m.field "timestamp" = none ∧ specEnvelope m = false) ∧
    (∀ env records dir c text o,
      Call.post c text o ∈ (processSQSMessages env records dir).2.2 →
        ∃ record ∈ records, ∃ event id changes ts m,
          JSON.parse record.body = .ok event ∧
          event.field "changes" = some changes ∧
          JSON.parse text = .ok m ∧
          m.field "data" = changes.field "data" ∧
          m.field "timestamp" = some (.str ts) ∧
          m.field "id" = none ∧ specEnvelope m = false ∧
          ((isExternal (event.field "sourceType") = true ∧
              event.field "sourceId" = some (.str id) ∧
              m.field "type" = some (.str "EXTERNAL_UPDATE") ∧
              m.field "sourceId" = some (.str id) ∧
              m.field "sourceType" = some (.str "external") ∧
              m.field "sheetId" = none) ∨
           (isExternal (event.field "sourceType") = false ∧
              event.field "sheetId" = some (.str id) ∧
              m.field "type" = some (.str "UPDATE") ∧
              m.field "sheetId" = some (.str id) ∧
              m.field "sourceType" = none ∧
              m.field "sourceId" = none))) := by
  constructor
  · intro env cid body t r h c text o hmem
    obtain ⟨hc, request, id, item, latest, hbody, htarget, hitem, hdata, htext⟩ :=
      handleSubscribe_push env cid body t r h c text o hmem
    have hf := initialData_fields (request.field "sourceType") (.str id) latest
    refine ⟨hc, request, id, item, latest,
      initialData (request.field "sourceType") (.str id) latest, hbody, htarget, hitem, hdata,
      by rw [htext]; exact parse_stringify _, rfl, htext, hf.2.2.2.2, ?_⟩
    simp [specEnvelope, hf.2.2.2.2]
  · intro env records dir c text o hmem
    have hmem2 : Call.post c text o ∈ (processRecords env 0 records dir).calls := by
      unfold processSQSMessages at hmem
      split at hmem <;> exact hmem
    obtain ⟨record, hrec, event, s, ch, ts, hparse, hid, hch, -, htext⟩ :=
      processRecords_push env c text o records 0 dir hmem2
    refine ⟨record, hrec, event, s, ch, ts, _, hparse, hch,
      by rw [htext]; exact parse_stringify _, ?_⟩
    by_cases hext : isExternal (event.field "sourceType") = true
    · rw [hext] at hid ⊢
      have hf := externalUpdate_fields s (ch.field "data") ts
      refine ⟨hf.2.2.2.1, hf.2.2.2.2.1, hf.2.2.2.2.2.1, ?_, Or.inl ⟨rfl, ?_, hf.1, hf.2.1,
        hf.2.2.1, hf.2.2.2.2.2.2⟩⟩
      · simp [specEnvelope, hf.2.2.2.2.2.1]
      · simpa using hid
    · have hext2 : isExternal (event.field "sourceType") = false := by simpa using hext
      rw [hext2] at hid ⊢
      have hf := sheetUpdate_fields s (ch.field "data") ts
      refine ⟨hf.2.2.1, hf.2.2.2.1, hf.2.2.2.2.1, ?_, Or.inr ⟨rfl, ?_, hf.1, hf.2.1,
        hf.2.2.2.2.2.1, hf.2.2.2.2.2.2⟩⟩
      · simp [specEnvelope, hf.2.2.2.2.1]
      · simpa using hid

/-- C22 amended at the push of the test SUB-002 (a subscription to
`external-source-001`, whose snapshot holds the stock prices 150.25 and
290.10) and at the push of the test SQS-002 (an update of the same source). -/
theorem outbound_message_shapes_witness :
    (∃ request id item latest m,
      parseBody (some (externalRequest (.str "external-source-001"))) = .ok request ∧
      targetId request = some (.str id) ∧
      queryLatest externalTables.dataTable id = some item ∧ JSON.parse item.data = .ok latest ∧
      JSON.parse (JSON.stringify (.obj [("type", .str "EXTERNAL_INITIAL_DATA"),
        ("id", .str "external-source-001"), ("sourceType", .str "external"),
        ("data", stocksInitial)])) = .ok m ∧
      m = .obj [("type", .str (if isExternal (request.field "sourceType")
                               then "EXTERNAL_INITIAL_DATA" else "INITIAL_DATA")),
                ("id", .str id), ("sourceType", orSheet (request.field "sourceType")),
                ("data", latest)] ∧
      JSON.stringify (.obj [("type", .str "EXTERNAL_INITIAL_DATA"),
        ("id", .str "external-source-001"), ("sourceType", .str "external"),
        ("data", stocksInitial)]) = JSON.stringify m ∧
      m.field "timestamp" = none ∧ specEnvelope m = false) ∧
    (∃ record ∈ [externalRecord], ∃ event id changes ts m,
      JSON.parse record.body = .ok event ∧
      event.field "changes" = some changes ∧
      JSON.parse (JSON.stringify (.obj [("type", .str "EXTERNAL_UPDATE"),
        ("sourceId", .str "external-source-001"), ("sourceType", .str "external"),
        ("data", stocksInitial), ("timestamp", .str "2023-11-14T22:20:01.000Z")])) = .ok m ∧
      m.field "data" = changes.field "data" ∧
      m.field "timestamp" = some (.str ts) ∧
      m.field "id" = none ∧ specEnvelope m = false ∧
      ((isExternal (event.field "sourceType") = true ∧
          event.field "sourceId" = some (.str id) ∧
          m.field "type" = some (.str "EXTERNAL_UPDATE") ∧
          m.field "sourceId" = some (.str id) ∧
          m.field "sourceType" = some (.str "external") ∧
          m.field "sheetId" = none) ∨
       (isExternal (event.field "sourceType") = false ∧
          event.field "sheetId" = some (.str id) ∧
          m.field "type" = some (.str "UPDATE") ∧
          m.field "sheetId" = some (.str id) ∧
          m.field "sourceType" = none ∧
          m.field "sourceId" = none))) :=
  ⟨(outbound_message_shapes.1 (subscribeWithPush .delivered) "abcdef123456"
      (some (externalRequest (.str "external-source-001"))) externalTables _ rfl "abcdef123456"
      (JSON.stringify (.obj [("type", .str "EXTERNAL_INITIAL_DATA"),
        ("id", .str "external-source-001"), ("sourceType", .str "external"),
        ("data", stocksInitial)]))
      .delivered (by decide)).2,
   outbound_message_shapes.2 (pushesSettle (fun _ => .delivered)) [externalRecord]
      externalDirectory "abcdef123456"
      (JSON.stringify (.obj [("type", .str "EXTERNAL_UPDATE"),
        ("sourceId", .str "external-source-001"), ("sourceType", .str "external"),
        ("data", stocksInitial), ("timestamp", .str "2023-11-14T22:20:01.000Z")]))
      .delivered (by decide)⟩

/-! ## The registry API -/

/-- Deleting the property at the head of the list. -/
theorem deleteProp_cons_self (k : String) (v : Json) (rest : List (String × Json)) :
    deleteProp ((k, v) :: rest) k = deleteProp rest k := by
  simp [deleteProp]

/-- Deleting a property other than the one at the head of the list. -/
theorem deleteProp_cons_ne (k0 k : String) (v : Json) (rest : List (String × Json))
    (h : k0 ≠ k) : deleteProp ((k0, v) :: rest) k = (k0, v) :: deleteProp rest k := by
  simp [deleteProp, h]

/-- The lookup on a longer list: the last binding wins. -/
theorem lookupProp_cons (k0 key : String) (v : Json) (rest : List (String × Json)) :
    lookupProp ((k0, v) :: rest) key
      = match lookupProp rest key with
        | some later => some later
        | none => if k0 = key then some v else none := rfl

/-- A deleted property is gone. -/
theorem lookupProp_deleteProp_self (k : String) :
    ∀ kvs : List (String × Json), lookupProp (deleteProp kvs k) k = none
  | [] => rfl
  | (k0, v) :: rest => by
    have ih := lookupProp_deleteProp_self k rest
    by_cases h : k0 = k
    · subst h
      rw [deleteProp_cons_self, ih]
    · rw [deleteProp_cons_ne k0 k v rest h, lookupProp_cons, ih]
      simp [h]

/-- Deleting a property leaves the others as they are. -/
theorem lookupProp_deleteProp_ne (k key : String) (hne : key ≠ k) :
    ∀ kvs : List (String × Json), lookupProp (deleteProp kvs k) key = lookupProp kvs key
  | [] => rfl
  | (k0, v) :: rest => by
    have ih := lookupProp_deleteProp_ne k key hne rest
    by_cases h : k0 = k
    · subst h
      rw [deleteProp_cons_self, ih, lookupProp_cons]
      cases lookupProp rest key <;> simp [Ne.symm hne]
    · rw [deleteProp_cons_ne k0 k v rest h, lookupProp_cons, lookupProp_cons, ih]

/-- The key of a record is not its secret reference. -/
theorem hasId_deleteProp (id : String) (r : DataSource) :
    hasId id (deleteProp r "apiKeySecretId") = hasId id r := by
  simp [hasId, lookupProp_deleteProp_ne "apiKeySecretId" "id" (by decide)]

/-- The lookup of a record commutes with the removal of the secret references. -/
theorem getItem_map_deleteProp (sources : List DataSource) (id : String) :
    getItem (sources.map (fun r => deleteProp r "apiKeySecretId")) id
      = (getItem sources id).map (fun r => deleteProp r "apiKeySecretId") := by
  have h : (hasId id ∘ fun r => deleteProp r "apiKeySecretId") = hasId id := by
    funext r
    simp [Function.comp, hasId_deleteProp]
  unfold getItem
  rw [List.find?_map, h]

/-- Setting a property of the empty record. -/
theorem setProp_nil (k : String) (v : Json) : setProp [] k v = [(k, v)] := rfl

/-- Setting a property on a longer record. -/
theorem setProp_cons (k0 k : String) (v0 v : Json) (rest : List (String × Json)) :
    setProp ((k0, v0) :: rest) k v
      = if k0 = k then (k0, v) :: (if rest.any (fun kv => kv.1 = k) then setProp rest k v else rest)
        else (k0, v0) :: setProp rest k v := by
  unfold setProp
  by_cases h : k0 = k
  · by_cases h2 : rest.any (fun kv => kv.1 = k) = true
    · simp [h, h2]
    · simp only [Bool.not_eq_true] at h2
      have hid : ∀ kv ∈ rest, (if kv.1 = k then (kv.1, v) else kv) = kv := by
        intro kv hkv
        have hk : ¬ kv.1 = k := by
          intro hk
          have : rest.any (fun kv => kv.1 = k) = true :=
            List.any_eq_true.2 ⟨kv, hkv, by simp [hk]⟩
          simp [h2] at this
        simp [hk]
      simp only [h, List.any_cons, decide_True, Bool.true_or, ↓reduceIte, List.map_cons, h2,
        Bool.false_eq_true]
      congr 1
      conv_rhs => rw [← List.map_id rest]
      exact List.map_congr_left hid
  · by_cases h2 : rest.any (fun kv => kv.1 = k) = true
    · simp [h, h2]
    · simp only [Bool.not_eq_true] at h2
      simp [h, h2]

/-- Setting the deleted property changes nothing that remains. -/
theorem deleteProp_setProp_self (k : String) (v : Json) :
    ∀ r : DataSource, deleteProp (setProp r k v) k = deleteProp r k
  | [] => by simp [setProp, deleteProp]
  | (k0, v0) :: rest => by
    have ih := deleteProp_setProp_self k v rest
    rw [setProp_cons]
    by_cases h : k0 = k
    · subst h
      simp only [↓reduceIte, deleteProp_cons_self]
      split
      · exact ih
      · rfl
    · simp only [h, ↓reduceIte]
      rw [deleteProp_cons_ne _ _ _ _ h, deleteProp_cons_ne _ _ _ _ h, ih]

/-- Deleting a property does not change whether another one is present. -/
theorem any_deleteProp (k s : String) (hne : k ≠ s) (r : DataSource) :
    (deleteProp r s).any (fun kv => kv.1 = k) = r.any (fun kv => kv.1 = k) := by
  induction r with
  | nil => rfl
  | cons kv rest ih =>
    obtain ⟨k0, v0⟩ := kv
    by_cases h : k0 = s
    · subst h
      rw [deleteProp_cons_self, ih]
      simp [Ne.symm hne]
    · rw [deleteProp_cons_ne _ _ _ _ h]
      simp only [List.any_cons, ih]

/-- Setting another property commutes with the deletion. -/
theorem deleteProp_setProp_ne (k s : String) (v : Json) (hne : k ≠ s) :
    ∀ r : DataSource, deleteProp (setProp r k v) s = setProp (deleteProp r s) k v
  | [] => by simp [setProp, deleteProp, hne]
  | (k0, v0) :: rest => by
    have ih := deleteProp_setProp_ne k s v hne rest
    rw [setProp_cons]
    by_cases h : k0 = k
    · subst h
      simp only [↓reduceIte]
      rw [deleteProp_cons_ne _ _ _ _ hne, deleteProp_cons_ne _ _ _ _ hne, setProp_cons]
      simp only [↓reduceIte, any_deleteProp k0 s hne]
      split
      · rw [ih]
      · rfl
    · simp only [h, ↓reduceIte]
      by_cases h2 : k0 = s
      · subst h2
        rw [deleteProp_cons_self, deleteProp_cons_self, ih]
      · rw [deleteProp_cons_ne _ _ _ _ h2, deleteProp_cons_ne _ _ _ _ h2, setProp_cons, ih]
        simp [h]

/-- The updates of a body act alike on records that differ in the secret
reference only. -/
theorem deleteProp_applyUpdates :
    ∀ (upd : List (String × Json)) (r1 r2 : DataSource),
      deleteProp r1 "apiKeySecretId" = deleteProp r2 "apiKeySecretId" →
      deleteProp (applyUpdates r1 upd) "apiKeySecretId"
        = deleteProp (applyUpdates r2 upd) "apiKeySecretId"
  | [], _, _, h => h
  | (key, value) :: rest, r1, r2, h => by
    simp only [applyUpdates]
    apply deleteProp_applyUpdates rest
    by_cases hid : key = "id"
    · simp [hid, h]
    · simp only [hid, ↓reduceIte]
      by_cases hs : key = "apiKeySecretId"
      · subst hs
        rw [deleteProp_setProp_self, deleteProp_setProp_self, h]
      · rw [deleteProp_setProp_ne _ _ _ hs, deleteProp_setProp_ne _ _ _ hs, h]

/-- Whether `updateDataSource` calls Secrets Manager depends on the body only. -/
theorem storeApiKey_isEmpty (env : UpdateEnv) (sourceId : String) (r1 r2 : DataSource)
    (body : List (String × Json)) :
    (storeApiKey env sourceId r1 body).isEmpty = (storeApiKey env sourceId r2 body).isEmpty := by
  unfold storeApiKey
  cases lookupProp body "apiKey" with
  | none => rfl
  | some apiKey =>
    by_cases ht : truthy apiKey = true
    · simp only [ht, ↓reduceIte]
      split <;> split <;> rfl
    · simp [ht]

/-- The summary of a record does not read its secret reference. -/
theorem summaryOf_deleteProp (r : DataSource) :
    summaryOf (deleteProp r "apiKeySecretId") = summaryOf r := by
  simp [summaryOf, lookupProp_deleteProp_ne "apiKeySecretId" _ (by decide : "id" ≠ "apiKeySecretId"),
    lookupProp_deleteProp_ne "apiKeySecretId" _ (by decide : "name" ≠ "apiKeySecretId"),
    lookupProp_deleteProp_ne "apiKeySecretId" _ (by decide : "type" ≠ "apiKeySecretId"),
    lookupProp_deleteProp_ne "apiKeySecretId" _ (by decide : "dataFormat" ≠ "apiKeySecretId"),
    lookupProp_deleteProp_ne "apiKeySecretId" _ (by decide : "lastUpdated" ≠ "apiKeySecretId")]

/-- The names of the properties `optField` contributes. -/
theorem mem_optField (name : String) (value : Option Json) (kv : String × Json)
    (h : kv ∈ optField name value) : kv.1 = name := by
  cases value with
  | none => simp [optField] at h
  | some v =>
    simp only [optField, List.mem_singleton] at h
    rw [h]

/-- The response of `getDataSource` in terms of the record without its secret
reference. -/
theorem getDataSource_eq (getError : Option JsError) (sources : List DataSource)
    (sourceId : String) :
    getDataSource getError sources sourceId
      = match getError with
        | some _ => jsonResponse 500 (messageOf "Failed to get data source")
        | none =>
          match (getItem sources sourceId).map (fun r => deleteProp r "apiKeySecretId") with
          | none => jsonResponse 404 (messageOf "Data source not found")
          | some shown => jsonResponse 200 (.obj shown) := by
  unfold getDataSource
  cases getError with
  | some e => rfl
  | none => cases getItem sources sourceId <;> rfl

/-- The response of `updateDataSource` in terms of the record without its
secret reference. -/
theorem updateDataSource_response (env : UpdateEnv) (sources : List DataSource)
    (sourceId : String) (body : List (String × Json)) :
    (updateDataSource env sources sourceId body).1
      = match env.getError with
        | some _ => jsonResponse 500 (messageOf "Failed to update data source")
        | none =>
          match getItem sources sourceId with
          | none => jsonResponse 404 (messageOf "Data source not found")
          | some dataSource =>
            match (if (storeApiKey env sourceId dataSource body).isEmpty then none
                   else env.secretError) with
            | some _ => jsonResponse 500 (messageOf "Failed to update data source")
            | none =>
              match env.updateError with
              | some _ => jsonResponse 500 (messageOf "Failed to update data source")
              | none =>
                jsonResponse 200 (.obj (setProp
                  (deleteProp (applyUpdates dataSource (deleteProp body "apiKey"))
                    "apiKeySecretId") "lastUpdated" (.str env.timestamp))) := by
  unfold updateDataSource
  cases env.getError with
  | some e => rfl
  | none =>
    cases getItem sources sourceId with
    | none => rfl
    | some dataSource =>
      simp only
      cases (if (storeApiKey env sourceId dataSource body).isEmpty then none
             else env.secretError) with
      | some e => rfl
      | none =>
        cases env.updateError with
        | some e => rfl
        | none =>
          simp only
          rw [deleteProp_setProp_ne _ _ _ (by decide)]

/-- C29: the responses of the registry API hide the secret reference.  The
body of every response of `getDataSource` and of `updateDataSource` is an
object without a property `apiKeySecretId`; the body of a successful
`listDataSources` is the list of the summaries, whose properties are among
`id`, `name`, `type`, `dataFormat` and `lastUpdated`; and two tables whose
records differ in `apiKeySecretId` only give the same three responses, the
collaborators answering alike. -/
theorem registry_hides_secret_reference (A B : List DataSource) (sourceId : String)
    (getError scanError : Option JsError) (env : UpdateEnv) (body : List (String × Json))
    (hsame : A.map (fun r => deleteProp r "apiKeySecretId")
      = B.map (fun r => deleteProp r "apiKeySecretId")) :
    (∃ shown, JSON.parse (getDataSource getError A sourceId).body = .ok (.obj shown) ∧
      lookupProp shown "apiKeySecretId" = none) ∧
    (∃ shown, JSON.parse (updateDataSource env A sourceId body).1.body = .ok (.obj shown) ∧
      lookupProp shown "apiKeySecretId" = none) ∧
    (scanError = none →
      JSON.parse (listDataSources scanError A).body
        = .ok (.obj [("sources", .arr (A.map summaryOf))])) ∧
    (∀ item : DataSource, ∃ shown, summaryOf item = .obj shown ∧
      ∀ kv ∈ shown, kv.1 ∈ ["id", "name", "type", "dataFormat", "lastUpdated"]) ∧
    getDataSource getError A sourceId = getDataSource getError B sourceId ∧
    (updateDataSource env A sourceId body).1 = (updateDataSource env B sourceId body).1 ∧
    listDataSources scanError A = listDataSources scanError B := by
  have hitem : (getItem A sourceId).map (fun r => deleteProp r "apiKeySecretId")
      = (getItem B sourceId).map (fun r => deleteProp r "apiKeySecretId") := by
    rw [← getItem_map_deleteProp, ← getItem_map_deleteProp, hsame]
  have hmsg : ∀ text, lookupProp [("message", Json.str text)] "apiKeySecretId" = none := by
    intro text; simp [lookupProp]
  refine ⟨?_, ?_, ?_, ?_, ?_, ?_, ?_⟩
  · rw [getDataSource_eq]
    cases getError with
    | some e => exact ⟨_, parse_stringify _, hmsg _⟩
    | none =>
      cases getItem A sourceId with
      | none => exact ⟨_, parse_stringify _, hmsg _⟩
      | some item => exact ⟨_, parse_stringify _, lookupProp_deleteProp_self _ _⟩
  · unfold updateDataSource
    cases env.getError with
    | some e => exact ⟨_, parse_stringify _, hmsg _⟩
    | none =>
      cases getItem A sourceId with
      | none => exact ⟨_, parse_stringify _, hmsg _⟩
      | some dataSource =>
        simp only
        cases (if (storeApiKey env sourceId dataSource body).isEmpty then none
               else env.secretError) with
        | some e => exact ⟨_, parse_stringify _, hmsg _⟩
        | none =>
          cases env.updateError with
          | some e => exact ⟨_, parse_stringify _, hmsg _⟩
          | none => exact ⟨_, parse_stringify _, lookupProp_deleteProp_self _ _⟩
  · intro hscan
    subst hscan
    exact parse_stringify _
  · intro item
    refine ⟨_, rfl, ?_⟩
    intro kv hkv
    simp only [List.mem_append] at hkv
    rcases hkv with (((h | h) | h) | h) | h <;> simp [mem_optField _ _ _ h]
  · rw [getDataSource_eq, getDataSource_eq, hitem]
  · rw [updateDataSource_response, updateDataSource_response]
    cases env.getError with
    | some e => rfl
    | none =>
      cases hA : getItem A sourceId with
      | none =>
        cases hB : getItem B sourceId with
        | none => rfl
        | some b => simp [hA, hB] at hitem
      | some a =>
        cases hB : getItem B sourceId with
        | none => simp [hA, hB] at hitem
        | some b =>
          have hab : deleteProp a "apiKeySecretId" = deleteProp b "apiKeySecretId" := by
            simpa [hA, hB] using hitem
          simp only
          rw [storeApiKey_isEmpty env sourceId a b body,
            deleteProp_applyUpdates (deleteProp body "apiKey") a b hab]
  · have hsum : A.map summaryOf = B.map summaryOf := by
      have h1 : ∀ L : List DataSource,
          (L.map (fun r => deleteProp r "apiKeySecretId")).map summaryOf = L.map summaryOf := by
        intro L
        rw [List.map_map]
        exact List.map_congr_left (fun r _ => summaryOf_deleteProp r)
      rw [← h1 A, ← h1 B, hsame]
    unfold listDataSources
    rw [hsum]

/-- C29 at the record `stocks-api` kept with two different secret references:
the three responses agree, and the list served is the list of the summaries. -/
theorem registry_hides_secret_reference_witness :
    [stocksRecord].map (fun r => deleteProp r "apiKeySecretId")
      = [stocksRecordOtherSecret].map (fun r => deleteProp r "apiKeySecretId") ∧
    JSON.parse (listDataSources none [stocksRecord]).body
      = .ok (.obj [("sources", .arr ([stocksRecord].map summaryOf))]) ∧
    getDataSource none [stocksRecord] "stocks-api"
      = getDataSource none [stocksRecordOtherSecret] "stocks-api" ∧
    (updateDataSource calmUpdate [stocksRecord] "stocks-api" [("name", .str "Shares")]).1
      = (updateDataSource calmUpdate [stocksRecordOtherSecret] "stocks-api"
          [("name", .str "Shares")]).1 ∧
    listDataSources none [stocksRecord] = listDataSources none [stocksRecordOtherSecret] :=
  have h := registry_hides_secret_reference [stocksRecord] [stocksRecordOtherSecret]
    "stocks-api" none none calmUpdate [("name", .str "Shares")] rfl
  ⟨rfl, h.2.2.1 rfl, h.2.2.2.2.1, h.2.2.2.2.2.1, h.2.2.2.2.2.2⟩

end CodeWhisper
